import Mathlib

/-!
meteofox-spsws: application state machine and measurement aggregation.

Shallow embedding of `application/src/main.c` (build without `SPSWS_MODE_CLI`,
with `SIGFOX_EP_BIDIRECTIONAL`, without `SPSWS_WIND_RAINFALL_MEASUREMENTS`), of the
frame constants and layouts of `middleware/sigfox/inc/sigfox_ep_frames.h` and of the
address map of `drivers/peripherals/inc/nvm_address.h`.

Conventions:
* machine integers are `Nat` / `Int`; where a C unsigned type can wrap, the
  reduction modulo `2 ^ w` is written out;
* one-bit bit-fields are `Bool`;
* a call to a driver or library that is outside `main.c` is an `Event` appended to
  a trace, and the value such a call returns is an argument of the embedded function.
-/

namespace SPSWS

/-! ## Measurement channels (main.c:63-65, 126-146) -/

/-- Period of the measurements in seconds (main.c:64). -/
def SPSWS_MEASUREMENT_PERIOD_SECONDS : Nat := 60

/-- Length of a measurement buffer (main.c:65). -/
def SPSWS_MEASUREMENT_BUFFER_SIZE : Nat := 3600 / SPSWS_MEASUREMENT_PERIOD_SECONDS

/-- Measurement channel (main.c:126-131). The array `sample_buffer` is a list, whose
length is `SPSWS_MEASUREMENT_BUFFER_SIZE` in every well-formed channel. -/
structure SPSWS_measurement_t where
  sample_buffer : List Int
  sample_count : Nat
  last_sample_index : Nat
  full_flag : Nat
deriving DecidableEq, Repr

/-- The eleven channels (main.c:134-146). -/
structure SPSWS_measurements_t where
  tamb_degrees : SPSWS_measurement_t
  hamb_percent : SPSWS_measurement_t
  light_percent : SPSWS_measurement_t
  uv_index : SPSWS_measurement_t
  patm_abs_pa : SPSWS_measurement_t
  tmcu_degrees : SPSWS_measurement_t
  tpcb_degrees : SPSWS_measurement_t
  hpcb_percent : SPSWS_measurement_t
  vsrc_mv : SPSWS_measurement_t
  vcap_mv : SPSWS_measurement_t
  vmcu_mv : SPSWS_measurement_t
deriving DecidableEq, Repr

/-- Embedding of `_SPSWS_measurement_add_sample` (main.c:271-283). `sample_count` is a
`uint32_t`, so the increment is taken modulo `2 ^ 32`. A store at an index outside the
list leaves the list as it is (in C the store is outside the array). -/
def _SPSWS_measurement_add_sample (measurement : SPSWS_measurement_t) (sample : Int) :
    SPSWS_measurement_t :=
  -- Update last sample index.
  let m1 := { measurement with last_sample_index := measurement.sample_count }
  -- Add sample to buffer.
  let m2 := { m1 with sample_buffer := m1.sample_buffer.set m1.sample_count sample }
  -- Increment index.
  let m3 := { m2 with sample_count := (m2.sample_count + 1) % 2 ^ 32 }
  -- Manage rollover and flag.
  if m3.sample_count ≥ SPSWS_MEASUREMENT_BUFFER_SIZE then
    { m3 with sample_count := 0, full_flag := 1 }
  else
    m3

/-- The number of samples a reduction works on: the expression
`(full_flag != 0) ? SPSWS_MEASUREMENT_BUFFER_SIZE : sample_count`, which
`_SPSWS_compute_final_measurements` evaluates for every channel
(main.c:340, 356, 367, 378, 389, 400, 416, 432, 443, 454, 461). -/
def final_sample_count (measurement : SPSWS_measurement_t) : Nat :=
  if measurement.full_flag ≠ 0 then SPSWS_MEASUREMENT_BUFFER_SIZE else measurement.sample_count

/-- Successive calls of `_SPSWS_measurement_add_sample` on one channel, one per sample. -/
def add_samples (measurement : SPSWS_measurement_t) (samples : List Int) : SPSWS_measurement_t :=
  samples.foldl _SPSWS_measurement_add_sample measurement

/-! ## Errors and calls leaving main.c -/

/-- Error bases used by the `*_stack_error` calls of the embedded functions. Their
numeric values (`error_base.h`) are not needed: a base is kept as a symbol. -/
inductive ERROR_base_t where
  | ERROR_BASE_NVM
  | ERROR_BASE_RTC
  | ERROR_BASE_MATH
  | ERROR_BASE_ANALOG
  | ERROR_BASE_SHT30_INTERNAL
  | ERROR_BASE_SHT30_EXTERNAL
  | ERROR_BASE_DPS310
  | ERROR_BASE_SI1133
  | ERROR_BASE_LPTIM
  | ERROR_BASE_RCC
  | ERROR_BASE_GPS
deriving DecidableEq, Repr

/-- Error codes handed to `ERROR_stack_add`: the two application codes named in main.c
(lines 264 and 772) and the sum `base + status` built by the `*_stack_error` calls. -/
inductive ERROR_code_t where
  | ERROR_SIGFOX_EP_DL_WEATHER_DATA_PERIOD
  | ERROR_DL_OP_CODE
  | base_plus_status (base : ERROR_base_t) (status : Nat)
deriving DecidableEq, Repr

/-- Upload bit rates used by main.c. -/
inductive SIGFOX_ul_bit_rate_t where
  | SIGFOX_UL_BIT_RATE_100BPS
  | SIGFOX_UL_BIT_RATE_600BPS
deriving DecidableEq, Repr

/-- The fields of `SIGFOX_EP_API_application_message_t` that main.c sets. The payload is
the list of the frame bytes. -/
structure SIGFOX_EP_API_application_message_t where
  number_of_frames : Nat
  ul_bit_rate : SIGFOX_ul_bit_rate_t
  ul_payload : List Nat
  ul_payload_size_bytes : Nat
  bidirectional_flag : Bool
deriving DecidableEq, Repr

/-- A call from main.c to a driver, a library or the error stack, with its arguments.
The trace of a function lists its calls in program order. Watchdog reloads and
power-domain switching are not recorded. -/
inductive Event where
  | ERROR_stack_add (code : ERROR_code_t)
  | NVM_write_byte (address : Nat) (data : Nat)
  | MATH_min (data : List Int) (data_size : Nat)
  | MATH_max (data : List Int) (data_size : Nat)
  | MATH_median_filter (data : List Int) (median_size : Nat) (average_size : Nat)
  | MATH_integer_to_signed_magnitude (value : Int) (sign_bit_position : Nat)
  | SIGFOX_EP_API_open
  | SIGFOX_EP_API_send_application_message (message : SIGFOX_EP_API_application_message_t)
  | SIGFOX_EP_API_get_message_status
  | SIGFOX_EP_API_get_dl_payload
  | SIGFOX_EP_API_close
  | SIGFOX_ERROR_stack (status : Nat)
  | ERROR_import_sigfox_stack
  | ERROR_stack_read
  | ERROR_stack_init
  | PWR_software_reset
  | PWR_enter_deepsleep_mode
  | PWR_clear_reset_flags
  | LPTIM_delay_milliseconds (delay_ms : Nat)
  | RCC_switch_to_hsi
  | RCC_switch_to_hse
  | RCC_calibrate_internal_clocks
  | GPS_get_position (timeout_seconds : Nat)
  | GPS_get_time (timeout_seconds : Nat)
  | RTC_set_time (year month date hours minutes seconds : Nat)
deriving DecidableEq, Repr

/-- Modelled from the spec: the `*_stack_error(base)` macros, declared in `error.h`
outside the application sources. "Non-fatal statuses are pushed onto a shared error
stack ... and execution continues": a status other than success (0) is stacked as
`base + status`, a success stacks nothing. -/
def stack_error (base : ERROR_base_t) (status : Nat) : List Event :=
  if status ≠ 0 then [Event.ERROR_stack_add (ERROR_code_t.base_plus_status base status)] else []

/-! ## Station context (main.c:73-178) -/

/-- Operating states (main.c:73-85). -/
inductive SPSWS_state_t where
  | SPSWS_STATE_STARTUP
  | SPSWS_STATE_MEASURE
  | SPSWS_STATE_WEATHER
  | SPSWS_STATE_MONITORING
  | SPSWS_STATE_GEOLOC
  | SPSWS_STATE_ERROR_STACK
  | SPSWS_STATE_RTC_CALIBRATION
  | SPSWS_STATE_TASK_END
  | SPSWS_STATE_TASK_CHECK
  | SPSWS_STATE_SLEEP
  | SPSWS_STATE_LAST
deriving DecidableEq, Repr

/-- Status byte (main.c:88-100), one `Bool` per bit. -/
structure SPSWS_status_t where
  daily_downlink : Bool
  daily_geoloc : Bool
  daily_rtc_calibration : Bool
  first_rtc_calibration : Bool
  lse_status : Bool
  lsi_status : Bool
  mcu_clock_source : Bool
  station_mode : Bool
deriving DecidableEq, Repr

/-- Flags (main.c:103-123), one `Bool` per bit. -/
structure SPSWS_flags_t where
  ultimeter_process : Bool
  sen15901_process : Bool
  radio_enabled : Bool
  reset_request : Bool
  rtc_calibration_request : Bool
  error_stack_request : Bool
  geoloc_request : Bool
  downlink_request : Bool
  weather_request_intermediate : Bool
  weather_request_enabled : Bool
  weather_request : Bool
  monitoring_request : Bool
  measure_request : Bool
  valid_wakeup : Bool
  sharp_hour_alarm : Bool
  first_sharp_hour_alarm : Bool
deriving DecidableEq, Repr

/-- Weather frame fields without wind and rainfall (sigfox_ep_frames.h:77-92). -/
structure SPSWS_EP_ul_payload_weather_t where
  tamb_degrees : Nat
  hamb_percent : Nat
  light_percent : Nat
  uv_index : Nat
  patm_abs_tenth_hpa : Nat
deriving DecidableEq, Repr

/-- Monitoring frame fields (sigfox_ep_frames.h:98-109). -/
structure SIGFOX_EP_ul_payload_monitoring_t where
  tmcu_degrees : Nat
  tpcb_degrees : Nat
  hpcb_percent : Nat
  vsrc_mv : Nat
  vcap_mv : Nat
  vmcu_mv : Nat
  status : Nat
deriving DecidableEq, Repr

/-- Station context (main.c:157-178). -/
structure SPSWS_context_t where
  state : SPSWS_state_t
  status : SPSWS_status_t
  flags : SPSWS_flags_t
  measurements_last_time_seconds : Nat
  measurements : SPSWS_measurements_t
  sharp_hour_uptime : Nat
  weather_data_period : Nat
  weather_message_count : Nat
  weather_last_time_seconds : Nat
  sigfox_ep_ul_payload_weather : SPSWS_EP_ul_payload_weather_t
  sigfox_ep_ul_payload_monitoring : SIGFOX_EP_ul_payload_monitoring_t
deriving DecidableEq, Repr

/-! ## Reduction of the channels (main.c:286-469, sigfox_ep_frames.h:29-38) -/

/-- Error value of a 12 bits analog field (sigfox_ep_frames.h:30). -/
def SIGFOX_EP_ERROR_VALUE_ANALOG_12BITS : Nat := 0xFFF

/-- Error value of a 16 bits analog field (sigfox_ep_frames.h:31). -/
def SIGFOX_EP_ERROR_VALUE_ANALOG_16BITS : Nat := 0xFFFF

/-- Error value of a temperature field (sigfox_ep_frames.h:32). -/
def SIGFOX_EP_ERROR_VALUE_TEMPERATURE : Nat := 0x7F

/-- Error value of a humidity field (sigfox_ep_frames.h:33). -/
def SIGFOX_EP_ERROR_VALUE_HUMIDITY : Nat := 0xFF

/-- Error value of the light field (sigfox_ep_frames.h:34). -/
def SIGFOX_EP_ERROR_VALUE_LIGHT : Nat := 0xFF

/-- Error value of the UV index field (sigfox_ep_frames.h:35). -/
def SIGFOX_EP_ERROR_VALUE_UV_INDEX : Nat := 0xFF

/-- Error value of the pressure field (sigfox_ep_frames.h:36). -/
def SIGFOX_EP_ERROR_VALUE_PRESSURE : Nat := 0xFFFF

/-- Modelled from the spec: `MATH_U8_SIZE_BITS` of `maths.h`, a header outside the
application sources. "Temperature fields use a sign-magnitude encoding (sign bit + 7-bit
magnitude)": main.c passes `MATH_U8_SIZE_BITS - 1` as sign bit position, so the constant
is 8. -/
def MATH_U8_SIZE_BITS : Nat := 8

/-- The functions of the maths library that `_SPSWS_compute_final_measurements` calls.
The library is outside the application sources, so the functions are parameters of the
embedding. Each returns its status (0 is `MATH_SUCCESS`) and the value it writes through
its result pointer; main.c reads that value only when the status is a success. -/
structure MATH_api where
  MATH_min : List Int → Nat → Nat × Int
  MATH_max : List Int → Nat → Nat × Int
  MATH_median_filter : List Int → Nat → Nat → Nat × Int
  MATH_integer_to_signed_magnitude : Int → Nat → Nat × Nat

/-- Embedding of `_SPSWS_reset_measurements` (main.c:288-317) without wind and rainfall
measurements. -/
def _SPSWS_reset_measurements (ctx : SPSWS_context_t) : SPSWS_context_t :=
  let m := ctx.measurements
  { ctx with measurements :=
    { m with
      -- Weather data.
      tamb_degrees := { m.tamb_degrees with sample_count := 0, full_flag := 0 }
      hamb_percent := { m.hamb_percent with sample_count := 0, full_flag := 0 }
      light_percent := { m.light_percent with sample_count := 0, full_flag := 0 }
      uv_index := { m.uv_index with sample_count := 0, full_flag := 0 }
      patm_abs_pa := { m.patm_abs_pa with sample_count := 0, full_flag := 0 }
      -- Monitoring data.
      tmcu_degrees := { m.tmcu_degrees with sample_count := 0, full_flag := 0 }
      tpcb_degrees := { m.tpcb_degrees with sample_count := 0, full_flag := 0 }
      hpcb_percent := { m.hpcb_percent with sample_count := 0, full_flag := 0 }
      vsrc_mv := { m.vsrc_mv with sample_count := 0, full_flag := 0 }
      vmcu_mv := { m.vmcu_mv with sample_count := 0, full_flag := 0 } } }

/-- A temperature block of `_SPSWS_compute_final_measurements`: ambient temperature
(main.c:338-353), MCU temperature (main.c:398-413) and PCB temperature (main.c:414-429)
differ only in the channel read and the field written. Returns the field and the trace. -/
def final_temperature (math : MATH_api) (measurement : SPSWS_measurement_t) : Nat × List Event :=
  let sample_count := final_sample_count measurement
  if sample_count > 0 then
    -- Compute single value.
    let min := math.MATH_min measurement.sample_buffer sample_count
    let trace_min := Event.MATH_min measurement.sample_buffer sample_count ::
      stack_error ERROR_base_t.ERROR_BASE_MATH min.1
    if min.1 = 0 then
      -- Convert temperature.
      let conv := math.MATH_integer_to_signed_magnitude min.2 (MATH_U8_SIZE_BITS - 1)
      let trace_conv := trace_min ++
        Event.MATH_integer_to_signed_magnitude min.2 (MATH_U8_SIZE_BITS - 1) ::
          stack_error ERROR_base_t.ERROR_BASE_MATH conv.1
      if conv.1 = 0 then (conv.2 % 2 ^ 8, trace_conv)
      else (SIGFOX_EP_ERROR_VALUE_TEMPERATURE, trace_conv)
    else (SIGFOX_EP_ERROR_VALUE_TEMPERATURE, trace_min)
  else (SIGFOX_EP_ERROR_VALUE_TEMPERATURE, [])

/-- A median block of `_SPSWS_compute_final_measurements`: ambient humidity
(main.c:354-364), light (main.c:365-375), pressure (main.c:387-397), PCB humidity
(main.c:430-440), source voltage (main.c:441-451) and MCU voltage (main.c:459-469).
The blocks differ in the channel read, in the error value and in `convert`, the
conversion of the `int32_t` median to the frame field. -/
def final_median (math : MATH_api) (measurement : SPSWS_measurement_t) (error_value : Nat)
    (convert : Int → Nat) : Nat × List Event :=
  let sample_count := final_sample_count measurement
  if sample_count > 0 then
    -- Compute single value.
    let med := math.MATH_median_filter measurement.sample_buffer sample_count 0
    let trace := Event.MATH_median_filter measurement.sample_buffer sample_count 0 ::
      stack_error ERROR_base_t.ERROR_BASE_MATH med.1
    if med.1 = 0 then (convert med.2, trace) else (error_value, trace)
  else (error_value, [])

/-- The UV index block of `_SPSWS_compute_final_measurements` (main.c:376-386). -/
def final_uv_index (math : MATH_api) (measurement : SPSWS_measurement_t) : Nat × List Event :=
  let sample_count := final_sample_count measurement
  if sample_count > 0 then
    -- Compute single value.
    let max := math.MATH_max measurement.sample_buffer sample_count
    let trace := Event.MATH_max measurement.sample_buffer sample_count ::
      stack_error ERROR_base_t.ERROR_BASE_MATH max.1
    if max.1 = 0 then ((max.2 % 2 ^ 8).toNat, trace) else (SIGFOX_EP_ERROR_VALUE_UV_INDEX, trace)
  else (SIGFOX_EP_ERROR_VALUE_UV_INDEX, [])

/-- The supercap voltage block of `_SPSWS_compute_final_measurements` (main.c:452-458).
The field has 12 bits; a read of `sample_buffer` outside the list gives 0 here (in C the
read is outside the array). -/
def final_vcap (measurement : SPSWS_measurement_t) : Nat × List Event :=
  let sample_count := final_sample_count measurement
  if sample_count > 0 then
    -- Select last value.
    ((measurement.sample_buffer.getD measurement.last_sample_index 0 % 2 ^ 12).toNat, [])
  else (SIGFOX_EP_ERROR_VALUE_ANALOG_12BITS, [])

/-- Conversion `(uint8_t) generic_s32_1` (main.c:362, 373, 438). -/
def cast_u8 (value : Int) : Nat := (value % 2 ^ 8).toNat

/-- Conversion `(uint16_t) (generic_s32_1 / 10)` (main.c:395); the C division truncates. -/
def cast_patm (value : Int) : Nat := (Int.tdiv value 10 % 2 ^ 16).toNat

/-- Conversion `(uint16_t) generic_s32_1` (main.c:449). -/
def cast_u16 (value : Int) : Nat := (value % 2 ^ 16).toNat

/-- Conversion `(uint16_t) generic_s32_1` stored in a field of 12 bits (main.c:467). -/
def cast_u12 (value : Int) : Nat := (value % 2 ^ 16).toNat % 2 ^ 12

/-- Embedding of `_SPSWS_compute_final_measurements` (main.c:322-469) without wind and
rainfall measurements. Returns the context with the two frames filled and the trace of
the calls, in program order. -/
def _SPSWS_compute_final_measurements (math : MATH_api) (ctx : SPSWS_context_t) :
    SPSWS_context_t × List Event :=
  let m := ctx.measurements
  -- Temperature.
  let tamb := final_temperature math m.tamb_degrees
  -- Humidity.
  let hamb := final_median math m.hamb_percent SIGFOX_EP_ERROR_VALUE_HUMIDITY cast_u8
  -- Light.
  let light := final_median math m.light_percent SIGFOX_EP_ERROR_VALUE_LIGHT cast_u8
  -- UV index.
  let uv := final_uv_index math m.uv_index
  -- Absolute pressure.
  let patm := final_median math m.patm_abs_pa SIGFOX_EP_ERROR_VALUE_PRESSURE cast_patm
  -- MCU temperature.
  let tmcu := final_temperature math m.tmcu_degrees
  -- PCB temperature.
  let tpcb := final_temperature math m.tpcb_degrees
  -- PCB humidity.
  let hpcb := final_median math m.hpcb_percent SIGFOX_EP_ERROR_VALUE_HUMIDITY cast_u8
  -- Solar cell voltage.
  let vsrc := final_median math m.vsrc_mv SIGFOX_EP_ERROR_VALUE_ANALOG_16BITS cast_u16
  -- Supercap voltage.
  let vcap := final_vcap m.vcap_mv
  -- MCU voltage.
  let vmcu := final_median math m.vmcu_mv SIGFOX_EP_ERROR_VALUE_ANALOG_12BITS cast_u12
  ({ ctx with
      sigfox_ep_ul_payload_weather :=
        { tamb_degrees := tamb.1
          hamb_percent := hamb.1
          light_percent := light.1
          uv_index := uv.1
          patm_abs_tenth_hpa := patm.1 }
      sigfox_ep_ul_payload_monitoring :=
        { ctx.sigfox_ep_ul_payload_monitoring with
          tmcu_degrees := tmcu.1
          tpcb_degrees := tpcb.1
          hpcb_percent := hpcb.1
          vsrc_mv := vsrc.1
          vcap_mv := vcap.1
          vmcu_mv := vmcu.1 } },
    tamb.2 ++ hamb.2 ++ light.2 ++ uv.2 ++ patm.2 ++ tmcu.2 ++ tpcb.2 ++ hpcb.2 ++ vsrc.2 ++
      vcap.2 ++ vmcu.2)

/-! ## Build configuration and non-volatile addresses -/

/-- The enumerators of `NVM_address_t` (nvm_address.h) that main.c uses. Their values
depend on sizes declared by the radio library, and nvm_address.h declares neither
`NVM_ADDRESS_LAST_WAKE_UP_MINUTES` nor `NVM_ADDRESS_WEATHER_DATA_PERIOD`, so the address
map is a parameter of the embedding. -/
structure NVM_address_t where
  NVM_ADDRESS_LAST_WAKE_UP_YEAR : Nat
  NVM_ADDRESS_LAST_WAKE_UP_MONTH : Nat
  NVM_ADDRESS_LAST_WAKE_UP_DATE : Nat
  NVM_ADDRESS_LAST_WAKE_UP_HOUR : Nat
  NVM_ADDRESS_LAST_WAKE_UP_MINUTES : Nat
  NVM_ADDRESS_LAST_GEOLOC_YEAR : Nat
  NVM_ADDRESS_LAST_GEOLOC_MONTH : Nat
  NVM_ADDRESS_LAST_GEOLOC_DATE : Nat
  NVM_ADDRESS_LAST_GEOLOC_STATUS : Nat
  NVM_ADDRESS_LAST_DOWNLINK_YEAR : Nat
  NVM_ADDRESS_LAST_DOWNLINK_MONTH : Nat
  NVM_ADDRESS_LAST_DOWNLINK_DATE : Nat
  NVM_ADDRESS_LAST_DOWNLINK_STATUS : Nat
  NVM_ADDRESS_WEATHER_DATA_PERIOD : Nat
deriving DecidableEq, Repr

/-- What is fixed when main.c is compiled: the hardware version flags `HW1_0` and `HW2_0`
(main.c:1054, 1059) and the address map. -/
structure SPSWS_config_t where
  HW1_0 : Bool
  HW2_0 : Bool
  nvm_address : NVM_address_t
deriving DecidableEq, Repr

/-- The fields of `RTC_time_t` read by main.c; `year` is a `uint16_t`, the others are
`uint8_t`. -/
structure RTC_time_t where
  year : Nat
  month : Nat
  date : Nat
  hours : Nat
  minutes : Nat
  seconds : Nat
deriving DecidableEq, Repr

/-- The pair `nvm_status = NVM_write_byte(address, data); NVM_stack_error(ERROR_BASE_NVM);`
with `nvm_status` the status the driver returns for this write. -/
def nvm_write (nvm_status : Nat) (address : Nat) (data : Nat) : List Event :=
  Event.NVM_write_byte address data :: stack_error ERROR_base_t.ERROR_BASE_NVM nvm_status

/-! ## Weather data period (main.c:182-184, 252-266, sigfox_ep_frames.h:148-169) -/

/-- Downlink operation codes (sigfox_ep_frames.h:148-153). -/
def SIGFOX_EP_DL_OP_CODE_NOP : Nat := 0

/-- Reset operation code (sigfox_ep_frames.h:150). -/
def SIGFOX_EP_DL_OP_CODE_RESET : Nat := 1

/-- Weather data period operation code (sigfox_ep_frames.h:151). -/
def SIGFOX_EP_DL_OP_CODE_SET_WEATHER_DATA_PERIOD : Nat := 2

/-- First value of `SIGFOX_EP_dl_weather_data_period_t` (sigfox_ep_frames.h:162). -/
def SIGFOX_EP_DL_WEATHER_DATA_PERIOD_60_MINUTES : Nat := 0

/-- Number of values of `SIGFOX_EP_dl_weather_data_period_t` (sigfox_ep_frames.h:168). -/
def SIGFOX_EP_DL_WEATHER_DATA_PERIOD_LAST : Nat := 6

/-- Table of the weather data periods in seconds (main.c:183). -/
def SPSWS_WEATHER_DATA_PERIOD_SECONDS : List Nat := [3600, 1800, 1200, 900, 720, 600]

/-- Embedding of `_SPSWS_store_weather_data_period` (main.c:252-266). `nvm_status` is the
status returned by the write, would it be done. -/
def _SPSWS_store_weather_data_period (cfg : SPSWS_config_t) (nvm_status : Nat)
    (weather_data_period : Nat) (ctx : SPSWS_context_t) : SPSWS_context_t × List Event :=
  if weather_data_period < SIGFOX_EP_DL_WEATHER_DATA_PERIOD_LAST then
    -- Update context and write new value in NVM.
    ({ ctx with weather_data_period := weather_data_period },
      nvm_write nvm_status cfg.nvm_address.NVM_ADDRESS_WEATHER_DATA_PERIOD weather_data_period)
  else
    (ctx, [Event.ERROR_stack_add ERROR_code_t.ERROR_SIGFOX_EP_DL_WEATHER_DATA_PERIOD])

/-! ## Time stamps in non-volatile memory (main.c:149-154, 662-718) -/

/-- Kinds of time stamp (main.c:149-154). -/
inductive SPSWS_nvm_data_t where
  | SPSWS_NVM_DATA_LAST_WAKE_UP
  | SPSWS_NVM_DATA_LAST_GEOLOC
  | SPSWS_NVM_DATA_LAST_DOWNLINK
  | SPSWS_NVM_DATA_LAST
deriving DecidableEq, Repr

/-- What the drivers return to `_SPSWS_update_nvm_data`: the status and the time of
`RTC_get_time`, and the status of `NVM_write_byte` for each address. -/
structure NVM_data_inputs where
  rtc_status : Nat
  current_time : RTC_time_t
  nvm_write_status : Nat → Nat

/-- Embedding of `_SPSWS_update_nvm_data` (main.c:662-718). The function changes no field
of the context: it returns its trace. -/
def _SPSWS_update_nvm_data (cfg : SPSWS_config_t) (inp : NVM_data_inputs)
    (timestamp_type : SPSWS_nvm_data_t) (ctx : SPSWS_context_t) : List Event :=
  let a := cfg.nvm_address
  let current_time := inp.current_time
  let w := fun (address data : Nat) => nvm_write (inp.nvm_write_status address) address data
  -- Retrieve current time from RTC.
  stack_error ERROR_base_t.ERROR_BASE_RTC inp.rtc_status ++
  -- Check timestamp type.
  match timestamp_type with
  | SPSWS_nvm_data_t.SPSWS_NVM_DATA_LAST_WAKE_UP =>
    w (a.NVM_ADDRESS_LAST_WAKE_UP_YEAR + 0) (current_time.year / 2 ^ 8 % 2 ^ 8) ++
    w (a.NVM_ADDRESS_LAST_WAKE_UP_YEAR + 1) (current_time.year % 2 ^ 8) ++
    w a.NVM_ADDRESS_LAST_WAKE_UP_MONTH current_time.month ++
    w a.NVM_ADDRESS_LAST_WAKE_UP_DATE current_time.date ++
    w a.NVM_ADDRESS_LAST_WAKE_UP_HOUR current_time.hours ++
    w a.NVM_ADDRESS_LAST_WAKE_UP_MINUTES current_time.minutes
  | SPSWS_nvm_data_t.SPSWS_NVM_DATA_LAST_GEOLOC =>
    w (a.NVM_ADDRESS_LAST_GEOLOC_YEAR + 0) (current_time.year / 2 ^ 8 % 2 ^ 8) ++
    w (a.NVM_ADDRESS_LAST_GEOLOC_YEAR + 1) (current_time.year % 2 ^ 8) ++
    w a.NVM_ADDRESS_LAST_GEOLOC_MONTH current_time.month ++
    w a.NVM_ADDRESS_LAST_GEOLOC_DATE current_time.date ++
    w a.NVM_ADDRESS_LAST_GEOLOC_STATUS ctx.status.daily_geoloc.toNat
  | SPSWS_nvm_data_t.SPSWS_NVM_DATA_LAST_DOWNLINK =>
    w (a.NVM_ADDRESS_LAST_DOWNLINK_YEAR + 0) (current_time.year / 2 ^ 8 % 2 ^ 8) ++
    w (a.NVM_ADDRESS_LAST_DOWNLINK_YEAR + 1) (current_time.year % 2 ^ 8) ++
    w a.NVM_ADDRESS_LAST_DOWNLINK_MONTH current_time.month ++
    w a.NVM_ADDRESS_LAST_DOWNLINK_DATE current_time.date ++
    w a.NVM_ADDRESS_LAST_DOWNLINK_STATUS ctx.status.daily_downlink.toNat
  | SPSWS_nvm_data_t.SPSWS_NVM_DATA_LAST => []

/-! ## Radio transaction and downlink dispatch (main.c:723-791) -/

/-- What the radio library and the drivers return during `_SPSWS_send_sigfox_message`:
the status of each library call (0 is `SIGFOX_EP_API_SUCCESS`), the bit `dl_frame` of the
message status, the bytes of the downlink frame, and the inputs of the time stamp
update. -/
structure SIGFOX_EP_API_inputs where
  open_status : Nat
  send_application_message_status : Nat
  dl_frame : Nat
  get_dl_payload_status : Nat
  dl_payload : List Nat
  close_status : Nat
  nvm_data : NVM_data_inputs

/-- Field `op_code` of `SIGFOX_EP_dl_payload_t`: the first byte of the frame
(sigfox_ep_frames.h:177-190). -/
def dl_payload_op_code (dl_payload : List Nat) : Nat := dl_payload.getD 0 0 % 2 ^ 8

/-- Field `set_weather_data_period.weather_data_period` of `SIGFOX_EP_dl_payload_t`: the
second byte of the frame (sigfox_ep_frames.h:177-190). -/
def dl_payload_weather_data_period (dl_payload : List Nat) : Nat := dl_payload.getD 1 0 % 2 ^ 8

/-- The `switch (dl_payload.op_code)` of `_SPSWS_send_sigfox_message` (main.c:758-774). -/
def parse_dl_payload (cfg : SPSWS_config_t) (inp : SIGFOX_EP_API_inputs) (ctx : SPSWS_context_t) :
    SPSWS_context_t × List Event :=
  let op_code := dl_payload_op_code inp.dl_payload
  if op_code = SIGFOX_EP_DL_OP_CODE_NOP then
    -- Nothing to do.
    (ctx, [])
  else if op_code = SIGFOX_EP_DL_OP_CODE_RESET then
    -- Set reset request.
    ({ ctx with flags := { ctx.flags with reset_request := true } }, [])
  else if op_code = SIGFOX_EP_DL_OP_CODE_SET_WEATHER_DATA_PERIOD then
    -- Check and store new configuration.
    _SPSWS_store_weather_data_period cfg
      (inp.nvm_data.nvm_write_status cfg.nvm_address.NVM_ADDRESS_WEATHER_DATA_PERIOD)
      (dl_payload_weather_data_period inp.dl_payload) ctx
  else
    (ctx, [Event.ERROR_stack_add ERROR_code_t.ERROR_DL_OP_CODE])

/-- The label `errors:` of `_SPSWS_send_sigfox_message` (main.c:787-790). -/
def send_sigfox_message_errors : List Event := [Event.SIGFOX_EP_API_close]

/-- Modelled from the spec: the macro `SIGFOX_EP_API_check_status(0)`, declared by the radio
library outside the application sources. "Every hardware/library operation reports a
status; non-fatal statuses are pushed onto a shared error stack": a status other than
success (0) is recorded in the error stack of the library. main.c declares the variable
`status` and the label `errors:` for this macro only (main.c:727, 787-789), so the macro
then jumps to `errors:`. The result is the trace of the exit, or `none` when the status is
a success and the function goes on. -/
def SIGFOX_EP_API_check_status (sigfox_ep_api_status : Nat) : Option (List Event) :=
  if sigfox_ep_api_status ≠ 0 then
    some (Event.SIGFOX_ERROR_stack sigfox_ep_api_status :: send_sigfox_message_errors)
  else none

/-- The end of `_SPSWS_send_sigfox_message`: close the library and return
(main.c:783-786). -/
def send_sigfox_message_close (inp : SIGFOX_EP_API_inputs) : List Event :=
  Event.SIGFOX_EP_API_close :: (SIGFOX_EP_API_check_status inp.close_status).getD []

/-- Embedding of `_SPSWS_send_sigfox_message` (main.c:723-791) with
`SIGFOX_EP_BIDIRECTIONAL`. -/
def _SPSWS_send_sigfox_message (cfg : SPSWS_config_t) (inp : SIGFOX_EP_API_inputs)
    (application_message : SIGFOX_EP_API_application_message_t) (ctx : SPSWS_context_t) :
    SPSWS_context_t × List Event :=
  -- Directly exit if the radio is disabled due to low supercap voltage.
  if ctx.flags.radio_enabled = false then (ctx, send_sigfox_message_errors)
  else
    -- Open library.
    let trace_open := [Event.SIGFOX_EP_API_open]
    match SIGFOX_EP_API_check_status inp.open_status with
    | some exit => (ctx, trace_open ++ exit)
    | none =>
      -- Send message.
      let trace_send :=
        trace_open ++ [Event.SIGFOX_EP_API_send_application_message application_message]
      match SIGFOX_EP_API_check_status inp.send_application_message_status with
      | some exit => (ctx, trace_send ++ exit)
      | none =>
        -- Check bidirectional flag.
        if application_message.bidirectional_flag = true then
          -- Reset status and read message status.
          let ctx_reset := { ctx with status := { ctx.status with daily_downlink := false } }
          let trace_status := trace_send ++ [Event.SIGFOX_EP_API_get_message_status]
          -- Update timestamp and status, clear request, close library.
          let finish := fun (c : SPSWS_context_t) (t : List Event) =>
            ({ c with flags := { c.flags with downlink_request := false } },
              t ++ _SPSWS_update_nvm_data cfg inp.nvm_data
                  SPSWS_nvm_data_t.SPSWS_NVM_DATA_LAST_DOWNLINK c ++
                send_sigfox_message_close inp)
          -- Check if downlink data is available.
          if inp.dl_frame ≠ 0 then
            -- Update status and read downlink payload.
            let ctx_dl := { ctx_reset with
              status := { ctx_reset.status with daily_downlink := true } }
            let trace_dl := trace_status ++ [Event.SIGFOX_EP_API_get_dl_payload]
            match SIGFOX_EP_API_check_status inp.get_dl_payload_status with
            | some exit => (ctx_dl, trace_dl ++ exit)
            | none =>
              -- Parse payload.
              let parsed := parse_dl_payload cfg inp ctx_dl
              finish parsed.1 (trace_dl ++ parsed.2)
          else finish ctx_reset trace_status
        else (ctx, trace_send ++ send_sigfox_message_close inp)

/-! ## State steps of `main` (main.c:964-1404) -/

/-- Result of `ANALOG_convert_channel` or `SI1133_get_uv_index`: status (0 is a success)
and the value written to `generic_s32_1`. -/
structure CONVERSION_result where
  status : Nat
  generic_s32_1 : Int
deriving DecidableEq, Repr

/-- Result of `SHT3X_get_temperature_humidity` or `DPS310_get_pressure_temperature`:
status (0 is a success) and the values written to `generic_s32_1` and `generic_s32_2`. -/
structure SENSOR_result where
  status : Nat
  generic_s32_1 : Int
  generic_s32_2 : Int
deriving DecidableEq, Repr

/-- What the drivers return during one Measure step, in program order. -/
structure MEASURE_inputs where
  vmcu_mv : CONVERSION_result
  tmcu_degrees : CONVERSION_result
  vpv_mv : CONVERSION_result
  vcap_mv : CONVERSION_result
  ldr_percent : CONVERSION_result
  sht30_internal : SENSOR_result
  sht30_external : SENSOR_result
  dps310 : SENSOR_result
  si1133 : CONVERSION_result
deriving DecidableEq, Repr

/-- Voltage hysteresis for radio (main.c:58-59). -/
def SPSWS_RADIO_OFF_VCAP_THRESHOLD_MV : Int := 1000

/-- Voltage hysteresis for radio, upper threshold (main.c:59). -/
def SPSWS_RADIO_ON_VCAP_THRESHOLD_MV : Int := 1500

/-- Voltage hysteresis for uplink period (main.c:61). -/
def SPSWS_WEATHER_REQUEST_OFF_VCAP_THRESHOLD_MV : Int := 1500

/-- Voltage hysteresis for uplink period, upper threshold (main.c:62). -/
def SPSWS_WEATHER_REQUEST_ON_VCAP_THRESHOLD_MV : Int := 2000

/-- The two voltage hysteresis of the Measure step (main.c:1024-1037) on the flags. -/
def vcap_hysteresis (generic_s32_1 : Int) (flags : SPSWS_flags_t) : SPSWS_flags_t :=
  -- Voltage hysteresis for radio.
  let f1 := if generic_s32_1 < SPSWS_RADIO_OFF_VCAP_THRESHOLD_MV then
    { flags with radio_enabled := false } else flags
  let f2 := if generic_s32_1 > SPSWS_RADIO_ON_VCAP_THRESHOLD_MV then
    { f1 with radio_enabled := true } else f1
  -- Voltage hysteresis for uplink period.
  let f3 := if generic_s32_1 < SPSWS_WEATHER_REQUEST_OFF_VCAP_THRESHOLD_MV then
    { f2 with weather_request_enabled := false } else f2
  if generic_s32_1 > SPSWS_WEATHER_REQUEST_ON_VCAP_THRESHOLD_MV then
    { f3 with weather_request_enabled := true } else f3

/-- Embedding of the case `SPSWS_STATE_MEASURE` of `main` (main.c:996-1091). -/
def main_SPSWS_STATE_MEASURE (cfg : SPSWS_config_t) (inp : MEASURE_inputs)
    (ctx : SPSWS_context_t) : SPSWS_context_t × List Event :=
  let add := _SPSWS_measurement_add_sample
  let m0 := ctx.measurements
  -- MCU voltage.
  let m1 := if inp.vmcu_mv.status = 0 then
    { m0 with vmcu_mv := add m0.vmcu_mv inp.vmcu_mv.generic_s32_1 } else m0
  -- MCU temperature.
  let m2 := if inp.tmcu_degrees.status = 0 then
    { m1 with tmcu_degrees := add m1.tmcu_degrees inp.tmcu_degrees.generic_s32_1 } else m1
  -- Solar cell voltage.
  let m3 := if inp.vpv_mv.status = 0 then
    { m2 with vsrc_mv := add m2.vsrc_mv inp.vpv_mv.generic_s32_1 } else m2
  -- Supercap voltage.
  let m4 := if inp.vcap_mv.status = 0 then
    { m3 with vcap_mv := add m3.vcap_mv inp.vcap_mv.generic_s32_1 } else m3
  let flags := if inp.vcap_mv.status = 0 then
    vcap_hysteresis inp.vcap_mv.generic_s32_1 ctx.flags else ctx.flags
  -- Light sensor.
  let m5 := if inp.ldr_percent.status = 0 then
    { m4 with light_percent := add m4.light_percent inp.ldr_percent.generic_s32_1 } else m4
  -- Internal temperature/humidity sensor.
  let m6 := if inp.sht30_internal.status = 0 then
    let m := { m5 with
      tpcb_degrees := add m5.tpcb_degrees (Int.tdiv inp.sht30_internal.generic_s32_1 10)
      hpcb_percent := add m5.hpcb_percent inp.sht30_internal.generic_s32_2 }
    if cfg.HW1_0 = true then
      { m with
        tamb_degrees := add m.tamb_degrees (Int.tdiv inp.sht30_internal.generic_s32_1 10)
        hamb_percent := add m.hamb_percent inp.sht30_internal.generic_s32_2 }
    else m
  else m5
  -- External temperature/humidity sensor.
  let m7 := if cfg.HW2_0 = true ∧ inp.sht30_external.status = 0 then
    { m6 with
      tamb_degrees := add m6.tamb_degrees (Int.tdiv inp.sht30_external.generic_s32_1 10)
      hamb_percent := add m6.hamb_percent inp.sht30_external.generic_s32_2 }
  else m6
  -- External pressure and temperature sensor.
  let m8 := if inp.dps310.status = 0 then
    { m7 with patm_abs_pa := add m7.patm_abs_pa inp.dps310.generic_s32_1 } else m7
  -- External UV index sensor.
  let m9 := if inp.si1133.status = 0 then
    { m8 with uv_index := add m8.uv_index inp.si1133.generic_s32_1 } else m8
  ({ ctx with
      measurements := m9
      -- Clear flag.
      flags := { flags with measure_request := false }
      -- Go to off state.
      state := SPSWS_state_t.SPSWS_STATE_TASK_CHECK },
    stack_error ERROR_base_t.ERROR_BASE_ANALOG inp.vmcu_mv.status ++
    stack_error ERROR_base_t.ERROR_BASE_ANALOG inp.tmcu_degrees.status ++
    stack_error ERROR_base_t.ERROR_BASE_ANALOG inp.vpv_mv.status ++
    stack_error ERROR_base_t.ERROR_BASE_ANALOG inp.vcap_mv.status ++
    stack_error ERROR_base_t.ERROR_BASE_ANALOG inp.ldr_percent.status ++
    stack_error ERROR_base_t.ERROR_BASE_SHT30_INTERNAL inp.sht30_internal.status ++
    (if cfg.HW2_0 = true then
      stack_error ERROR_base_t.ERROR_BASE_SHT30_EXTERNAL inp.sht30_external.status else []) ++
    stack_error ERROR_base_t.ERROR_BASE_DPS310 inp.dps310.status ++
    stack_error ERROR_base_t.ERROR_BASE_SI1133 inp.si1133.status)

/-- Payload size of the weather frame without wind and rainfall
(sigfox_ep_frames.h:24). -/
def SIGFOX_EP_UL_PAYLOAD_SIZE_WEATHER : Nat := 6

/-- Bytes of the weather frame: the fields of `SPSWS_EP_ul_payload_weather_t`
(sigfox_ep_frames.h:77-92) in big-endian storage order, 8 bits each but the pressure,
which has 16. -/
def weather_frame (payload : SPSWS_EP_ul_payload_weather_t) : List Nat :=
  [payload.tamb_degrees % 2 ^ 8, payload.hamb_percent % 2 ^ 8, payload.light_percent % 2 ^ 8,
    payload.uv_index % 2 ^ 8, payload.patm_abs_tenth_hpa / 2 ^ 8 % 2 ^ 8,
    payload.patm_abs_tenth_hpa % 2 ^ 8]

/-- Embedding of the case `SPSWS_STATE_WEATHER` of `main` (main.c:1092-1118) with
`SIGFOX_EP_BIDIRECTIONAL`, without the emulator pin. `number_of_frames` is 3 since the
start of `main` (main.c:955). -/
def main_SPSWS_STATE_WEATHER (cfg : SPSWS_config_t) (math : MATH_api)
    (inp : SIGFOX_EP_API_inputs) (ctx : SPSWS_context_t) : SPSWS_context_t × List Event :=
  -- Compute average data.
  let computed := _SPSWS_compute_final_measurements math ctx
  let ctx_reset := _SPSWS_reset_measurements computed.1
  -- Send uplink weather frame.
  let application_message : SIGFOX_EP_API_application_message_t :=
    { number_of_frames := 3
      ul_bit_rate :=
        if ctx_reset.flags.weather_request_intermediate = false then
          SIGFOX_ul_bit_rate_t.SIGFOX_UL_BIT_RATE_100BPS
        else SIGFOX_ul_bit_rate_t.SIGFOX_UL_BIT_RATE_600BPS
      ul_payload := weather_frame ctx_reset.sigfox_ep_ul_payload_weather
      ul_payload_size_bytes := SIGFOX_EP_UL_PAYLOAD_SIZE_WEATHER
      bidirectional_flag := ctx_reset.flags.downlink_request }
  let sent := _SPSWS_send_sigfox_message cfg inp application_message ctx_reset
  -- Compute next state.
  ({ sent.1 with state := SPSWS_state_t.SPSWS_STATE_MONITORING }, computed.2 ++ sent.2)

/-- Successive Measure steps, one per element of `inputs`; the result lists the context
after each step. -/
def measure_run (cfg : SPSWS_config_t) (ctx : SPSWS_context_t) :
    List MEASURE_inputs → List SPSWS_context_t
  | [] => []
  | inp :: rest =>
    let next := (main_SPSWS_STATE_MEASURE cfg inp ctx).1
    next :: measure_run cfg next rest

/-! ## Reducers and temperature coding as the specification words them -/

/-- Modelled from the spec: `MATH_min` of the maths library, outside the application
sources. "Pure functions computing min, max, or median-filtered single values from a
channel's buffered samples": the least of the first `data_size` samples. The spec says
nothing of an empty input; the status is then 1, a failure. -/
def MATH_min_spec (data : List Int) (data_size : Nat) : Nat × Int :=
  match data.take data_size with
  | [] => (1, 0)
  | x :: xs => (0, xs.foldl min x)

/-- Modelled from the spec: `MATH_max` of the maths library, outside the application
sources: the greatest of the first `data_size` samples, and status 1 on an empty input. -/
def MATH_max_spec (data : List Int) (data_size : Nat) : Nat × Int :=
  match data.take data_size with
  | [] => (1, 0)
  | x :: xs => (0, xs.foldl max x)

/-- Modelled from the spec: `MATH_median_filter` of the maths library, outside the
application sources. "Median filter with zero averaging window, i.e. pure median": with
`average_size = 0` the middle element (index `median_size / 2`) of the sorted first
`median_size` samples. The spec says nothing of another averaging window or of an empty
input; the status is then 1, a failure. -/
def MATH_median_filter_spec (data : List Int) (median_size : Nat) (average_size : Nat) :
    Nat × Int :=
  let sorted := (data.take median_size).insertionSort (fun a b => a ≤ b)
  if average_size = 0 ∧ sorted ≠ [] then (0, sorted.getD (median_size / 2) 0) else (1, 0)

/-- Modelled from the spec: `MATH_integer_to_signed_magnitude` of the maths library, outside
the application sources. "Sign bit + 7-bit magnitude ... must fail loudly ... if the
magnitude does not fit": the magnitude in the bits below `sign_bit_position`, the sign in
the bit `sign_bit_position`, and status 1 when the magnitude needs more bits. -/
def MATH_integer_to_signed_magnitude_spec (value : Int) (sign_bit_position : Nat) : Nat × Nat :=
  if value.natAbs < 2 ^ sign_bit_position then
    (0, (if value < 0 then 2 ^ sign_bit_position else 0) + value.natAbs)
  else (1, 0)

/-- The maths library as the specification words it. -/
def MATH_spec : MATH_api :=
  { MATH_min := MATH_min_spec
    MATH_max := MATH_max_spec
    MATH_median_filter := MATH_median_filter_spec
    MATH_integer_to_signed_magnitude := MATH_integer_to_signed_magnitude_spec }

/-- Modelled from the spec: decoding of a sign-magnitude field by the network backend,
which is outside the application sources: bit `sign_bit_position` is the sign, the bits
below are the magnitude. -/
def signed_magnitude_decode (field : Nat) (sign_bit_position : Nat) : Int :=
  if field / 2 ^ sign_bit_position % 2 = 1 then -((field % 2 ^ sign_bit_position : Nat) : Int)
  else ((field % 2 ^ sign_bit_position : Nat) : Int)

/-! ## Sample values used by the closed statements -/

/-- A channel as the zero-initialised context holds it. -/
def measurement_zero : SPSWS_measurement_t :=
  { sample_buffer := List.replicate 60 0, sample_count := 0, last_sample_index := 0,
    full_flag := 0 }

/-- The flags after `_SPSWS_init_context` (main.c:799-802). -/
def flags_init : SPSWS_flags_t :=
  { ultimeter_process := false, sen15901_process := false, radio_enabled := true,
    reset_request := false, rtc_calibration_request := true, error_stack_request := false,
    geoloc_request := false, downlink_request := false, weather_request_intermediate := false,
    weather_request_enabled := true, weather_request := false, monitoring_request := false,
    measure_request := false, valid_wakeup := false, sharp_hour_alarm := false,
    first_sharp_hour_alarm := false }

/-- A context with zeroed channels and frames, the flags of `_SPSWS_init_context` and the
default weather data period. -/
def ctx_zero : SPSWS_context_t :=
  { state := SPSWS_state_t.SPSWS_STATE_STARTUP
    status := ⟨false, false, false, false, false, false, false, false⟩
    flags := flags_init
    measurements_last_time_seconds := 0
    measurements := ⟨measurement_zero, measurement_zero, measurement_zero, measurement_zero,
      measurement_zero, measurement_zero, measurement_zero, measurement_zero, measurement_zero,
      measurement_zero, measurement_zero⟩
    sharp_hour_uptime := 0
    weather_data_period := 0
    weather_message_count := 0
    weather_last_time_seconds := 0
    sigfox_ep_ul_payload_weather := ⟨0, 0, 0, 0, 0⟩
    sigfox_ep_ul_payload_monitoring := ⟨0, 0, 0, 0, 0, 0, 0⟩ }

/-- An address map with the records one after the other from address 24 on. -/
def nvm_address_sample : NVM_address_t :=
  ⟨24, 26, 27, 28, 29, 30, 32, 33, 34, 35, 37, 38, 39, 40⟩

/-- A build for the hardware version 2.0. -/
def cfg_sample : SPSWS_config_t := { HW1_0 := false, HW2_0 := true, nvm_address := nvm_address_sample }

/-- A fault-free time stamp update on 2024-01-02 at 12:30:00. -/
def nvm_data_ok : NVM_data_inputs :=
  { rtc_status := 0, current_time := ⟨2024, 1, 2, 12, 30, 0⟩, nvm_write_status := fun _ => 0 }

/-- A fault-free radio transaction that receives the downlink frame `dl_payload`. -/
def sigfox_inputs_dl (dl_payload : List Nat) : SIGFOX_EP_API_inputs :=
  { open_status := 0, send_application_message_status := 0, dl_frame := 1,
    get_dl_payload_status := 0, dl_payload := dl_payload, close_status := 0,
    nvm_data := nvm_data_ok }

/-- A bidirectional message. -/
def message_bidirectional : SIGFOX_EP_API_application_message_t :=
  { number_of_frames := 3, ul_bit_rate := SIGFOX_ul_bit_rate_t.SIGFOX_UL_BIT_RATE_100BPS,
    ul_payload := [0, 0, 0, 0, 0, 0], ul_payload_size_bytes := 6, bidirectional_flag := true }

/-- Inputs of a Measure step in which every driver succeeds, with supercap voltage
`vcap` and ambient temperature `tamb` in tenths of degrees. -/
def measure_inputs_ok (vcap : Int) (tamb : Int) : MEASURE_inputs :=
  { vmcu_mv := ⟨0, 3300⟩, tmcu_degrees := ⟨0, 20⟩, vpv_mv := ⟨0, 5000⟩, vcap_mv := ⟨0, vcap⟩,
    ldr_percent := ⟨0, 50⟩, sht30_internal := ⟨0, 200, 40⟩, sht30_external := ⟨0, tamb, 40⟩,
    dps310 := ⟨0, 101300, 200⟩, si1133 := ⟨0, 3⟩ }

/-- The context after three Measure steps from the zeroed context, the external sensor
giving the ambient temperatures 10.0, 12.0 and 11.0 degrees. -/
def ctx_three_measures : SPSWS_context_t :=
  (measure_run cfg_sample ctx_zero
    [measure_inputs_ok 3000 100, measure_inputs_ok 3000 120, measure_inputs_ok 3000 110]).getLastD
    ctx_zero

/-! ## Uplink frames (sigfox_ep_frames.h:18-28, 49-141) -/

/-- Payload size of the startup frame (sigfox_ep_frames.h:19). -/
def SIGFOX_EP_UL_PAYLOAD_SIZE_STARTUP : Nat := 8

/-- Payload size of the error stack frame (sigfox_ep_frames.h:20). -/
def SIGFOX_EP_UL_PAYLOAD_SIZE_ERROR_STACK : Nat := 12

/-- Payload size of the weather frame when `SPSWS_WIND_RAINFALL_MEASUREMENTS` is defined
(sigfox_ep_frames.h:22). -/
def SIGFOX_EP_UL_PAYLOAD_SIZE_WEATHER_WIND_RAINFALL : Nat := 10

/-- Payload size of the monitoring frame (sigfox_ep_frames.h:26). -/
def SIGFOX_EP_UL_PAYLOAD_SIZE_MONITORING : Nat := 9

/-- Payload size of the geolocation frame (sigfox_ep_frames.h:27). -/
def SIGFOX_EP_UL_PAYLOAD_SIZE_GEOLOC : Nat := 11

/-- Payload size of the geolocation timeout frame (sigfox_ep_frames.h:28). -/
def SIGFOX_EP_UL_PAYLOAD_SIZE_GEOLOC_TIMEOUT : Nat := 2

/-- Bit-field widths of `SIGFOX_EP_ul_payload_startup_t`, in declaration order
(sigfox_ep_frames.h:51-58). -/
def SIGFOX_EP_ul_payload_startup_widths : List Nat := [8, 8, 8, 8, 28, 4]

/-- Bit-field widths of `SPSWS_EP_ul_payload_weather_t`, in declaration order
(sigfox_ep_frames.h:79-91); `wind_rainfall` tells whether
`SPSWS_WIND_RAINFALL_MEASUREMENTS` is defined. -/
def SPSWS_EP_ul_payload_weather_widths (wind_rainfall : Bool) : List Nat :=
  [8, 8, 8, 8, 16] ++ (if wind_rainfall = true then [8, 8, 8, 8] else [])

/-- Bit-field widths of `SIGFOX_EP_ul_payload_monitoring_t`, in declaration order
(sigfox_ep_frames.h:100-108). -/
def SIGFOX_EP_ul_payload_monitoring_widths : List Nat := [8, 8, 8, 16, 12, 12, 8]

/-- Bit-field widths of `SIGFOX_EP_ul_payload_geoloc_t`, in declaration order
(sigfox_ep_frames.h:117-128). -/
def SIGFOX_EP_ul_payload_geoloc_widths : List Nat := [8, 6, 17, 1, 8, 6, 17, 1, 16, 8]

/-- Bit-field widths of `SIGFOX_EP_ul_payload_geoloc_timeout_t`, in declaration order
(sigfox_ep_frames.h:137-140). -/
def SIGFOX_EP_ul_payload_geoloc_timeout_widths : List Nat := [8, 8]

/-- The bit-fields of a packed structure in big-endian storage order, read as one number:
each field holds its value modulo `2 ^ width` and follows the field before it, most
significant bit first. -/
def pack_fields : List Nat → List Nat → Nat → Nat
  | w :: widths, v :: values, acc => pack_fields widths values (acc * 2 ^ w + v % 2 ^ w)
  | _, _, acc => acc

/-- The member `frame` of a frame union: the `size` bytes that hold the bit-fields of
widths `widths` and values `values`, the structure starting at the first byte. -/
def frame_bytes (size : Nat) (widths : List Nat) (values : List Nat) : List Nat :=
  let word := pack_fields widths values 0 * 2 ^ (8 * size - widths.sum)
  (List.range size).map (fun i => word / 2 ^ (8 * (size - 1 - i)) % 2 ^ 8)

/-- The member `all` of `SPSWS_status_t` (main.c:88-100): the eight bits in big-endian
storage order, the first declared bit being the most significant. -/
def SPSWS_status_t.all (status : SPSWS_status_t) : Nat :=
  pack_fields [1, 1, 1, 1, 1, 1, 1, 1]
    [status.daily_downlink.toNat, status.daily_geoloc.toNat, status.daily_rtc_calibration.toNat,
      status.first_rtc_calibration.toNat, status.lse_status.toNat, status.lsi_status.toNat,
      status.mcu_clock_source.toNat, status.station_mode.toNat] 0

/-- Bytes of the monitoring frame (sigfox_ep_frames.h:98-109). -/
def monitoring_frame (payload : SIGFOX_EP_ul_payload_monitoring_t) : List Nat :=
  frame_bytes SIGFOX_EP_UL_PAYLOAD_SIZE_MONITORING SIGFOX_EP_ul_payload_monitoring_widths
    [payload.tmcu_degrees, payload.tpcb_degrees, payload.hpcb_percent, payload.vsrc_mv,
      payload.vcap_mv, payload.vmcu_mv, payload.status]

/-! ## Address map of nvm_address.h (nvm_address.h:17-37) -/

/-- The three sizes of the radio library that nvm_address.h uses; they are declared by the
library, outside the application sources, and are parameters here. -/
structure SIGFOX_sizes_t where
  SIGFOX_EP_ID_SIZE_BYTES : Nat
  SIGFOX_EP_KEY_SIZE_BYTES : Nat
  SIGFOX_NVM_DATA_SIZE_BYTES : Nat
deriving DecidableEq, Repr

/-- Enumerator of `NVM_address_t` (nvm_address.h:19). -/
def NVM_ADDRESS_SIGFOX_EP_ID : Nat := 0

/-- Enumerator of `NVM_address_t` (nvm_address.h:20). -/
def NVM_ADDRESS_SIGFOX_EP_KEY (sz : SIGFOX_sizes_t) : Nat :=
  NVM_ADDRESS_SIGFOX_EP_ID + sz.SIGFOX_EP_ID_SIZE_BYTES

/-- Enumerator of `NVM_address_t` (nvm_address.h:21). -/
def NVM_ADDRESS_SIGFOX_EP_LIB_DATA (sz : SIGFOX_sizes_t) : Nat :=
  NVM_ADDRESS_SIGFOX_EP_KEY sz + sz.SIGFOX_EP_KEY_SIZE_BYTES

/-- Enumerator of `NVM_address_t` (nvm_address.h:23). -/
def NVM_ADDRESS_LAST_WAKE_UP_YEAR (sz : SIGFOX_sizes_t) : Nat :=
  NVM_ADDRESS_SIGFOX_EP_LIB_DATA sz + sz.SIGFOX_NVM_DATA_SIZE_BYTES

/-- Enumerator of `NVM_address_t` (nvm_address.h:24). -/
def NVM_ADDRESS_LAST_WAKE_UP_MONTH (sz : SIGFOX_sizes_t) : Nat :=
  NVM_ADDRESS_LAST_WAKE_UP_YEAR sz + 2

/-- Enumerator of `NVM_address_t` (nvm_address.h:25): one more than the enumerator before. -/
def NVM_ADDRESS_LAST_WAKE_UP_DATE (sz : SIGFOX_sizes_t) : Nat :=
  NVM_ADDRESS_LAST_WAKE_UP_MONTH sz + 1

/-- Enumerator of `NVM_address_t` (nvm_address.h:26): one more than the enumerator before. -/
def NVM_ADDRESS_LAST_WAKE_UP_HOUR (sz : SIGFOX_sizes_t) : Nat :=
  NVM_ADDRESS_LAST_WAKE_UP_DATE sz + 1

/-- Enumerator of `NVM_address_t` (nvm_address.h:28): one more than the enumerator before,
which is `NVM_ADDRESS_LAST_WAKE_UP_HOUR`. -/
def NVM_ADDRESS_LAST_GEOLOC_YEAR (sz : SIGFOX_sizes_t) : Nat :=
  NVM_ADDRESS_LAST_WAKE_UP_HOUR sz + 1

/-- Enumerator of `NVM_address_t` (nvm_address.h:29). -/
def NVM_ADDRESS_LAST_GEOLOC_MONTH (sz : SIGFOX_sizes_t) : Nat :=
  NVM_ADDRESS_LAST_GEOLOC_YEAR sz + 2

/-- Enumerator of `NVM_address_t` (nvm_address.h:30): one more than the enumerator before. -/
def NVM_ADDRESS_LAST_GEOLOC_DATE (sz : SIGFOX_sizes_t) : Nat :=
  NVM_ADDRESS_LAST_GEOLOC_MONTH sz + 1

/-- Enumerator of `NVM_address_t` (nvm_address.h:31): one more than the enumerator before. -/
def NVM_ADDRESS_LAST_GEOLOC_STATUS (sz : SIGFOX_sizes_t) : Nat :=
  NVM_ADDRESS_LAST_GEOLOC_DATE sz + 1

/-- Enumerator of `NVM_address_t` (nvm_address.h:33): one more than the enumerator before. -/
def NVM_ADDRESS_LAST_DOWNLINK_YEAR (sz : SIGFOX_sizes_t) : Nat :=
  NVM_ADDRESS_LAST_GEOLOC_STATUS sz + 1

/-- Enumerator of `NVM_address_t` (nvm_address.h:34). -/
def NVM_ADDRESS_LAST_DOWNLINK_MONTH (sz : SIGFOX_sizes_t) : Nat :=
  NVM_ADDRESS_LAST_DOWNLINK_YEAR sz + 2

/-- Enumerator of `NVM_address_t` (nvm_address.h:35): one more than the enumerator before. -/
def NVM_ADDRESS_LAST_DOWNLINK_DATE (sz : SIGFOX_sizes_t) : Nat :=
  NVM_ADDRESS_LAST_DOWNLINK_MONTH sz + 1

/-- Enumerator of `NVM_address_t` (nvm_address.h:36): one more than the enumerator before. -/
def NVM_ADDRESS_LAST_DOWNLINK_STATUS (sz : SIGFOX_sizes_t) : Nat :=
  NVM_ADDRESS_LAST_DOWNLINK_DATE sz + 1

/-- The byte addresses that nvm_address.h gives to the three records, in the order of the
enumeration; a year takes the address of its enumerator and the next one
(main.c:577-582, 674-676). -/
def nvm_record_addresses (sz : SIGFOX_sizes_t) : List Nat :=
  [NVM_ADDRESS_LAST_WAKE_UP_YEAR sz + 0, NVM_ADDRESS_LAST_WAKE_UP_YEAR sz + 1,
    NVM_ADDRESS_LAST_WAKE_UP_MONTH sz, NVM_ADDRESS_LAST_WAKE_UP_DATE sz,
    NVM_ADDRESS_LAST_WAKE_UP_HOUR sz,
    NVM_ADDRESS_LAST_GEOLOC_YEAR sz + 0, NVM_ADDRESS_LAST_GEOLOC_YEAR sz + 1,
    NVM_ADDRESS_LAST_GEOLOC_MONTH sz, NVM_ADDRESS_LAST_GEOLOC_DATE sz,
    NVM_ADDRESS_LAST_GEOLOC_STATUS sz,
    NVM_ADDRESS_LAST_DOWNLINK_YEAR sz + 0, NVM_ADDRESS_LAST_DOWNLINK_YEAR sz + 1,
    NVM_ADDRESS_LAST_DOWNLINK_MONTH sz, NVM_ADDRESS_LAST_DOWNLINK_DATE sz,
    NVM_ADDRESS_LAST_DOWNLINK_STATUS sz]

/-! ## Clock switch and additional requests (main.c:193-203, 520-657) -/

/-- Embedding of `_SPSWS_sharp_hour_alarm_callback` (main.c:193-203) with
`SIGFOX_EP_BIDIRECTIONAL`; `uptime` is the value of `RTC_get_uptime_seconds`. -/
def _SPSWS_sharp_hour_alarm_callback (uptime : Nat) (ctx : SPSWS_context_t) : SPSWS_context_t :=
  { ctx with
    flags := { ctx.flags with first_sharp_hour_alarm := true, sharp_hour_alarm := true }
    sharp_hour_uptime := uptime }

/-- What the clock driver returns to `_SPSWS_set_clock`: the status of the switch, whether
`RCC_get_system_clock` is `RCC_CLOCK_HSE`, and status and `clock_status` of the two calls
of `RCC_get_status`. -/
structure SET_CLOCK_inputs where
  rcc_switch_status : Nat
  system_clock_hse : Bool
  lsi_rcc_status : Nat
  lsi_clock_status : Nat
  lse_rcc_status : Nat
  lse_clock_status : Nat
deriving DecidableEq, Repr

/-- Embedding of `_SPSWS_set_clock` (main.c:520-555) without `SPSWS_MODE_CLI`. -/
def _SPSWS_set_clock (inp : SET_CLOCK_inputs) (device_state : Nat) (ctx : SPSWS_context_t) :
    SPSWS_context_t × List Event :=
  ({ ctx with status := { ctx.status with
      -- Update MCU clock source.
      mcu_clock_source := inp.system_clock_hse
      -- Update LSI status.
      lsi_status := if inp.lsi_clock_status = 0 then false else true
      -- Update LSE status.
      lse_status := if inp.lse_clock_status = 0 then false else true } },
    -- Switch to HSE or HSI depending on state.
    (if device_state = 0 then Event.RCC_switch_to_hsi else Event.RCC_switch_to_hse) ::
      stack_error ERROR_base_t.ERROR_BASE_RCC inp.rcc_switch_status ++
    stack_error ERROR_base_t.ERROR_BASE_RCC inp.lsi_rcc_status ++
    stack_error ERROR_base_t.ERROR_BASE_RCC inp.lse_rcc_status)

/-- The constants of `rtc.h` that `_SPSWS_update_additional_requests` uses; the header is
outside the application sources, so they are parameters here. -/
structure RTC_config_t where
  RTC_LOCAL_UTC_OFFSET_WINTER : Nat
  RTC_LOCAL_UTC_OFFSET_SUMMER : Nat
  RTC_WINTER_TIME_LAST_MONTH : Nat
  RTC_WINTER_TIME_FIRST_MONTH : Nat
  RTC_NUMBER_OF_HOURS_PER_DAY : Nat
  RTC_AFTERNOON_HOUR_THRESHOLD : Int
deriving DecidableEq, Repr

/-- What `NVM_read_byte` returns: its status and the byte stored through its pointer. -/
structure NVM_read_result where
  status : Nat
  data : Nat
deriving DecidableEq, Repr

/-- What the drivers return to `_SPSWS_update_additional_requests`: status and time of
`RTC_get_time`, and the result of `NVM_read_byte` for each address. -/
structure ADDITIONAL_REQUESTS_inputs where
  rtc_status : Nat
  current_time : RTC_time_t
  nvm_read : Nat → NVM_read_result

/-- A time stamp read back: `year = (nvm_byte << 8) | nvm_byte` from the two bytes at
`year_address`, a `uint16_t`, and one byte for each other field present
(main.c:577-590, 592-601, 607-616). -/
def nvm_read_time (nvm_read : Nat → NVM_read_result) (year_address month_address
    date_address : Nat) (hours minutes : Nat) : RTC_time_t :=
  { year := ((nvm_read (year_address + 0)).data % 2 ^ 8 * 2 ^ 8 % 2 ^ 16) |||
      ((nvm_read (year_address + 1)).data % 2 ^ 8)
    month := (nvm_read month_address).data % 2 ^ 8
    date := (nvm_read date_address).data % 2 ^ 8
    hours := hours
    minutes := minutes
    seconds := 0 }

/-- The last wake-up time that `_SPSWS_update_additional_requests` retrieves from NVM
(main.c:576-590). -/
def previous_wake_up_time (cfg : SPSWS_config_t) (inp : ADDITIONAL_REQUESTS_inputs) :
    RTC_time_t :=
  nvm_read_time inp.nvm_read cfg.nvm_address.NVM_ADDRESS_LAST_WAKE_UP_YEAR
    cfg.nvm_address.NVM_ADDRESS_LAST_WAKE_UP_MONTH cfg.nvm_address.NVM_ADDRESS_LAST_WAKE_UP_DATE
    ((inp.nvm_read cfg.nvm_address.NVM_ADDRESS_LAST_WAKE_UP_HOUR).data % 2 ^ 8)
    ((inp.nvm_read cfg.nvm_address.NVM_ADDRESS_LAST_WAKE_UP_MINUTES).data % 2 ^ 8)

/-- The last geolocation date that `_SPSWS_update_additional_requests` retrieves from NVM
(main.c:591-601). -/
def previous_geoloc_time (cfg : SPSWS_config_t) (inp : ADDITIONAL_REQUESTS_inputs) :
    RTC_time_t :=
  nvm_read_time inp.nvm_read cfg.nvm_address.NVM_ADDRESS_LAST_GEOLOC_YEAR
    cfg.nvm_address.NVM_ADDRESS_LAST_GEOLOC_MONTH cfg.nvm_address.NVM_ADDRESS_LAST_GEOLOC_DATE 0 0

/-- The last downlink date that `_SPSWS_update_additional_requests` retrieves from NVM
(main.c:606-616). -/
def previous_downlink_time (cfg : SPSWS_config_t) (inp : ADDITIONAL_REQUESTS_inputs) :
    RTC_time_t :=
  nvm_read_time inp.nvm_read cfg.nvm_address.NVM_ADDRESS_LAST_DOWNLINK_YEAR
    cfg.nvm_address.NVM_ADDRESS_LAST_DOWNLINK_MONTH cfg.nvm_address.NVM_ADDRESS_LAST_DOWNLINK_DATE
    0 0

/-- Conversion of an `int` to `int8_t`. -/
def cast_s8 (value : Int) : Int :=
  if value % 2 ^ 8 < 2 ^ 7 then value % 2 ^ 8 else value % 2 ^ 8 - 2 ^ 8

/-- The afternoon flag of `_SPSWS_update_additional_requests` (main.c:634-645);
`local_utc_offset` is a `uint8_t` and `local_hour` an `int8_t`. With
`RTC_NUMBER_OF_HOURS_PER_DAY = 0` the C remainder is undefined; it is 0 here. -/
def is_afternoon (rtc : RTC_config_t) (current_time : RTC_time_t) : Bool :=
  let local_utc_offset :=
    if current_time.month > rtc.RTC_WINTER_TIME_LAST_MONTH ∧
        current_time.month < rtc.RTC_WINTER_TIME_FIRST_MONTH then
      rtc.RTC_LOCAL_UTC_OFFSET_SUMMER % 2 ^ 8
    else rtc.RTC_LOCAL_UTC_OFFSET_WINTER % 2 ^ 8
  let local_hour : Int :=
    cast_s8 (((current_time.hours + local_utc_offset) % rtc.RTC_NUMBER_OF_HOURS_PER_DAY : Nat) : Int)
  let local_hour := if local_hour < 0 then
    cast_s8 (local_hour + (rtc.RTC_NUMBER_OF_HOURS_PER_DAY : Int)) else local_hour
  decide (local_hour ≥ rtc.RTC_AFTERNOON_HOUR_THRESHOLD)

/-- Whether two dates differ in year, month or date (main.c:624, 647, 653). -/
def date_differs (a b : RTC_time_t) : Bool :=
  decide (a.year ≠ b.year ∨ a.month ≠ b.month ∨ a.date ≠ b.date)

/-- Embedding of `_SPSWS_update_additional_requests` (main.c:559-657) with
`SIGFOX_EP_BIDIRECTIONAL`. -/
def _SPSWS_update_additional_requests (cfg : SPSWS_config_t) (rtc : RTC_config_t)
    (inp : ADDITIONAL_REQUESTS_inputs) (ctx : SPSWS_context_t) : SPSWS_context_t × List Event :=
  let a := cfg.nvm_address
  let current_time := inp.current_time
  let previous_wake_up := previous_wake_up_time cfg inp
  let previous_geoloc := previous_geoloc_time cfg inp
  let previous_downlink := previous_downlink_time cfg inp
  let read_error := fun (address : Nat) =>
    stack_error ERROR_base_t.ERROR_BASE_NVM (inp.nvm_read address).status
  -- Update last geolocation and last downlink status.
  let status := { ctx.status with
    daily_geoloc :=
      decide ((inp.nvm_read a.NVM_ADDRESS_LAST_GEOLOC_STATUS).data % 2 ^ 8 % 2 = 1)
    daily_downlink :=
      decide ((inp.nvm_read a.NVM_ADDRESS_LAST_DOWNLINK_STATUS).data % 2 ^ 8 % 2 = 1) }
  -- Reset valid wakeup flag.
  let f0 := { ctx.flags with valid_wakeup := false }
  -- Check if day has changed.
  let f1 := if date_differs current_time previous_wake_up = true then
    { f0 with rtc_calibration_request := true, valid_wakeup := true } else f0
  -- Check time are different (avoiding false wake-up due to RTC calibration).
  let f2 := if current_time.hours ≠ previous_wake_up.hours ∨
      current_time.minutes ≠ previous_wake_up.minutes then
    { f1 with valid_wakeup := true } else f1
  -- Enable device geolocation and error stack message once a day in the afternoon.
  let f3 := if date_differs current_time previous_geoloc = true ∧
      is_afternoon rtc current_time = true then
    { f2 with geoloc_request := true, error_stack_request := true } else f2
  -- Enable downlink transaction once a day in the afternoon.
  let f4 := if date_differs current_time previous_downlink = true ∧
      is_afternoon rtc current_time = true then
    { f3 with downlink_request := true } else f3
  ({ ctx with status := status, flags := f4 },
    stack_error ERROR_base_t.ERROR_BASE_RTC inp.rtc_status ++
    read_error (a.NVM_ADDRESS_LAST_WAKE_UP_YEAR + 0) ++
    read_error (a.NVM_ADDRESS_LAST_WAKE_UP_YEAR + 1) ++
    read_error a.NVM_ADDRESS_LAST_WAKE_UP_MONTH ++
    read_error a.NVM_ADDRESS_LAST_WAKE_UP_DATE ++
    read_error a.NVM_ADDRESS_LAST_WAKE_UP_HOUR ++
    read_error a.NVM_ADDRESS_LAST_WAKE_UP_MINUTES ++
    read_error (a.NVM_ADDRESS_LAST_GEOLOC_YEAR + 0) ++
    read_error (a.NVM_ADDRESS_LAST_GEOLOC_YEAR + 1) ++
    read_error a.NVM_ADDRESS_LAST_GEOLOC_MONTH ++
    read_error a.NVM_ADDRESS_LAST_GEOLOC_DATE ++
    read_error a.NVM_ADDRESS_LAST_GEOLOC_STATUS ++
    read_error (a.NVM_ADDRESS_LAST_DOWNLINK_YEAR + 0) ++
    read_error (a.NVM_ADDRESS_LAST_DOWNLINK_YEAR + 1) ++
    read_error a.NVM_ADDRESS_LAST_DOWNLINK_MONTH ++
    read_error a.NVM_ADDRESS_LAST_DOWNLINK_DATE ++
    read_error a.NVM_ADDRESS_LAST_DOWNLINK_STATUS)

/-! ## The other state steps of `main` (main.c:917-1406) -/

/-- Timings of main.c (main.c:54-56). -/
def SPSWS_POWER_ON_DELAY_MS : Nat := 7000

/-- Timeout of the RTC calibration (main.c:55). -/
def SPSWS_RTC_CALIBRATION_TIMEOUT_SECONDS : Nat := 180

/-- Timeout of the geolocation (main.c:56). -/
def SPSWS_GEOLOC_TIMEOUT_SECONDS : Nat := 120

/-- The variables of `main` that live across the iterations of its loop: the context
`spsws_ctx` and the local `por_flag` (main.c:949). The other locals are written before
they are read in every state. -/
structure main_t where
  spsws_ctx : SPSWS_context_t
  por_flag : Bool
deriving DecidableEq, Repr

/-- The constants of `version.h` sent in the startup frame; the header is outside the
application sources, so they are parameters here. -/
structure GIT_version_t where
  GIT_MAJOR_VERSION : Nat
  GIT_MINOR_VERSION : Nat
  GIT_COMMIT_INDEX : Nat
  GIT_COMMIT_ID : Nat
  GIT_DIRTY_FLAG : Nat
deriving DecidableEq, Repr

/-- The fields of `GPS_position_t` that main.c reads. -/
structure GPS_position_t where
  lat_degrees : Nat
  lat_minutes : Nat
  lat_seconds : Nat
  lat_north_flag : Nat
  long_degrees : Nat
  long_minutes : Nat
  long_seconds : Nat
  long_east_flag : Nat
  altitude : Nat
deriving DecidableEq, Repr

/-- What `GPS_get_position` or `GPS_get_time` returns: its status, the position or the
time, the duration written to `generic_u32_1`, the acquisition status as a number, and
whether that status is `GPS_ACQUISITION_SUCCESS`. -/
structure GPS_inputs where
  gps_status : Nat
  gps_position : GPS_position_t
  gps_time : RTC_time_t
  generic_u32_1 : Nat
  gps_acquisition_status : Nat
  gps_acquisition_success : Bool
deriving DecidableEq, Repr

/-- What the error stack returns during the ErrorStack step: the value of
`ERROR_stack_is_empty` and, for each `idx`, the value of the call of `ERROR_stack_read`. -/
structure ERROR_STACK_inputs where
  stack_is_empty : Nat
  error_code : Nat → Nat

/-- What the drivers and libraries return during one iteration of the loop of `main`. -/
structure MAIN_inputs where
  version : GIT_version_t
  lptim_status : Nat
  reset_flags : Nat
  set_clock : SET_CLOCK_inputs
  sigfox : SIGFOX_EP_API_inputs
  measure : MEASURE_inputs
  math : MATH_api
  gps : GPS_inputs
  rtc_set_time_status : Nat
  nvm_data : NVM_data_inputs
  error_stack : ERROR_STACK_inputs
  uptime : Nat
  additional_requests : ADDITIONAL_REQUESTS_inputs
  rcc_calibrate_status : Nat

/-- Embedding of the case `SPSWS_STATE_STARTUP` of `main` (main.c:969-995). -/
def main_SPSWS_STATE_STARTUP (cfg : SPSWS_config_t) (inp : MAIN_inputs) (ctx : SPSWS_context_t) :
    SPSWS_context_t × List Event :=
  -- Switch to accurate clock.
  let clock := _SPSWS_set_clock inp.set_clock 1 ctx
  -- Send SW version frame.
  let application_message : SIGFOX_EP_API_application_message_t :=
    { number_of_frames := 3
      ul_bit_rate := SIGFOX_ul_bit_rate_t.SIGFOX_UL_BIT_RATE_600BPS
      ul_payload := frame_bytes SIGFOX_EP_UL_PAYLOAD_SIZE_STARTUP
        SIGFOX_EP_ul_payload_startup_widths
        [inp.reset_flags, inp.version.GIT_MAJOR_VERSION, inp.version.GIT_MINOR_VERSION,
          inp.version.GIT_COMMIT_INDEX, inp.version.GIT_COMMIT_ID, inp.version.GIT_DIRTY_FLAG]
      ul_payload_size_bytes := SIGFOX_EP_UL_PAYLOAD_SIZE_STARTUP
      bidirectional_flag := false }
  let sent := _SPSWS_send_sigfox_message cfg inp.sigfox application_message clock.1
  -- Perform first RTC calibration.
  ({ sent.1 with state := SPSWS_state_t.SPSWS_STATE_RTC_CALIBRATION },
    Event.LPTIM_delay_milliseconds SPSWS_POWER_ON_DELAY_MS ::
      stack_error ERROR_base_t.ERROR_BASE_LPTIM inp.lptim_status ++
    clock.2 ++ [Event.PWR_clear_reset_flags] ++ sent.2)

/-- Embedding of the case `SPSWS_STATE_MONITORING` of `main` (main.c:1119-1137). -/
def main_SPSWS_STATE_MONITORING (cfg : SPSWS_config_t) (inp : MAIN_inputs)
    (ctx : SPSWS_context_t) : SPSWS_context_t × List Event :=
  -- Check request.
  if ctx.flags.monitoring_request ≠ false then
    -- Read status byte.
    let ctx_status := { ctx with sigfox_ep_ul_payload_monitoring :=
      { ctx.sigfox_ep_ul_payload_monitoring with status := ctx.status.all } }
    -- Send uplink monitoring frame.
    let application_message : SIGFOX_EP_API_application_message_t :=
      { number_of_frames := 3
        ul_bit_rate := SIGFOX_ul_bit_rate_t.SIGFOX_UL_BIT_RATE_600BPS
        ul_payload := monitoring_frame ctx_status.sigfox_ep_ul_payload_monitoring
        ul_payload_size_bytes := SIGFOX_EP_UL_PAYLOAD_SIZE_MONITORING
        bidirectional_flag := false }
    let sent := _SPSWS_send_sigfox_message cfg inp.sigfox application_message ctx_status
    -- Clear request and compute next state.
    ({ sent.1 with
        flags := { sent.1.flags with monitoring_request := false }
        state := SPSWS_state_t.SPSWS_STATE_GEOLOC }, sent.2)
  else
    ({ ctx with state := SPSWS_state_t.SPSWS_STATE_GEOLOC }, [])

/-- Embedding of the case `SPSWS_STATE_GEOLOC` of `main` (main.c:1138-1190). -/
def main_SPSWS_STATE_GEOLOC (cfg : SPSWS_config_t) (inp : MAIN_inputs) (ctx : SPSWS_context_t) :
    SPSWS_context_t × List Event :=
  -- Check request flag.
  if ctx.flags.geoloc_request ≠ false then
    let p := inp.gps.gps_position
    -- Build Sigfox frame and update status bit.
    let application_message : SIGFOX_EP_API_application_message_t :=
      if inp.gps.gps_acquisition_success = true then
        { number_of_frames := 3
          ul_bit_rate := SIGFOX_ul_bit_rate_t.SIGFOX_UL_BIT_RATE_100BPS
          ul_payload := frame_bytes SIGFOX_EP_UL_PAYLOAD_SIZE_GEOLOC
            SIGFOX_EP_ul_payload_geoloc_widths
            [p.lat_degrees, p.lat_minutes, p.lat_seconds, p.lat_north_flag, p.long_degrees,
              p.long_minutes, p.long_seconds, p.long_east_flag, p.altitude,
              inp.gps.generic_u32_1]
          ul_payload_size_bytes := SIGFOX_EP_UL_PAYLOAD_SIZE_GEOLOC
          bidirectional_flag := false }
      else
        { number_of_frames := 3
          ul_bit_rate := SIGFOX_ul_bit_rate_t.SIGFOX_UL_BIT_RATE_100BPS
          ul_payload := frame_bytes SIGFOX_EP_UL_PAYLOAD_SIZE_GEOLOC_TIMEOUT
            SIGFOX_EP_ul_payload_geoloc_timeout_widths
            [inp.gps.gps_acquisition_status, inp.gps.generic_u32_1]
          ul_payload_size_bytes := SIGFOX_EP_UL_PAYLOAD_SIZE_GEOLOC_TIMEOUT
          bidirectional_flag := false }
    let ctx_status := { ctx with status :=
      { ctx.status with daily_geoloc := inp.gps.gps_acquisition_success } }
    -- Send uplink geolocation frame.
    let sent := _SPSWS_send_sigfox_message cfg inp.sigfox application_message ctx_status
    -- Update timestamp and status.
    let updated := _SPSWS_update_nvm_data cfg inp.nvm_data
      SPSWS_nvm_data_t.SPSWS_NVM_DATA_LAST_GEOLOC sent.1
    -- Clear request and go to the error stack state.
    ({ sent.1 with
        flags := { sent.1.flags with geoloc_request := false }
        state := SPSWS_state_t.SPSWS_STATE_ERROR_STACK },
      Event.GPS_get_position SPSWS_GEOLOC_TIMEOUT_SECONDS ::
        stack_error ERROR_base_t.ERROR_BASE_GPS inp.gps.gps_status ++ sent.2 ++ updated)
  else
    ({ ctx with state := SPSWS_state_t.SPSWS_STATE_ERROR_STACK }, [])

/-- Bytes of the error stack frame (main.c:1199-1204): six error codes, most significant
byte first. -/
def error_stack_frame (error_code : Nat → Nat) : List Nat :=
  (List.range (SIGFOX_EP_UL_PAYLOAD_SIZE_ERROR_STACK / 2)).flatMap
    (fun idx => [error_code idx / 2 ^ 8 % 2 ^ 8, error_code idx % 2 ^ 8])

/-- Embedding of the case `SPSWS_STATE_ERROR_STACK` of `main` (main.c:1191-1221). -/
def main_SPSWS_STATE_ERROR_STACK (cfg : SPSWS_config_t) (inp : MAIN_inputs)
    (ctx : SPSWS_context_t) : SPSWS_context_t × List Event :=
  -- Check request flag.
  if ctx.flags.error_stack_request ≠ false then
    -- Import Sigfox library error stack and check stack.
    let stepped :=
      if inp.error_stack.stack_is_empty = 0 then
        -- Read error stack and send frame.
        let application_message : SIGFOX_EP_API_application_message_t :=
          { number_of_frames := 3
            ul_bit_rate := SIGFOX_ul_bit_rate_t.SIGFOX_UL_BIT_RATE_600BPS
            ul_payload := error_stack_frame inp.error_stack.error_code
            ul_payload_size_bytes := SIGFOX_EP_UL_PAYLOAD_SIZE_ERROR_STACK
            bidirectional_flag := false }
        let sent := _SPSWS_send_sigfox_message cfg inp.sigfox application_message ctx
        -- Reset error stack.
        (sent.1, List.replicate (SIGFOX_EP_UL_PAYLOAD_SIZE_ERROR_STACK / 2) Event.ERROR_stack_read
          ++ sent.2 ++ [Event.ERROR_stack_init])
      else (ctx, [])
    -- Clear request.
    ({ stepped.1 with
        flags := { stepped.1.flags with error_stack_request := false }
        state := SPSWS_state_t.SPSWS_STATE_RTC_CALIBRATION },
      Event.ERROR_import_sigfox_stack :: stepped.2)
  else
    ({ ctx with state := SPSWS_state_t.SPSWS_STATE_RTC_CALIBRATION }, [])

/-- Embedding of the case `SPSWS_STATE_RTC_CALIBRATION` of `main` (main.c:1222-1272). -/
def main_SPSWS_STATE_RTC_CALIBRATION (cfg : SPSWS_config_t) (inp : MAIN_inputs) (m : main_t) :
    main_t × List Event :=
  let ctx := m.spsws_ctx
  -- Check request flag.
  if ctx.flags.rtc_calibration_request ≠ false then
    -- Reset status to default.
    let status0 := { ctx.status with daily_rtc_calibration := false }
    let trace_gps := Event.GPS_get_time SPSWS_RTC_CALIBRATION_TIMEOUT_SECONDS ::
      stack_error ERROR_base_t.ERROR_BASE_GPS inp.gps.gps_status
    -- Calibrate RTC if time is available.
    let calibrated : SPSWS_status_t × List Event :=
      if inp.gps.gps_acquisition_success = true then
        -- Update RTC registers.
        let t := inp.gps.gps_time
        let trace_rtc := Event.RTC_set_time t.year t.month t.date t.hours t.minutes t.seconds ::
          stack_error ERROR_base_t.ERROR_BASE_RTC inp.rtc_set_time_status
        if inp.rtc_set_time_status = 0 then
          -- Update timestamp in case of first calibration.
          let trace_nvm := if status0.first_rtc_calibration = false then
            _SPSWS_update_nvm_data cfg inp.nvm_data SPSWS_nvm_data_t.SPSWS_NVM_DATA_LAST_WAKE_UP
              { ctx with status := status0 }
          else []
          -- Update status.
          ({ status0 with first_rtc_calibration := true, daily_rtc_calibration := true },
            trace_rtc ++ trace_nvm)
        else (status0, trace_rtc)
      else (status0, [])
    -- In POR condition, flags are manually cleared.
    let flags := if m.por_flag ≠ false then
      { ctx.flags with
        first_sharp_hour_alarm := false
        sharp_hour_alarm := false
        weather_request := false
        measure_request := false }
    else ctx.flags
    -- Clear request.
    ({ spsws_ctx := { ctx with
          status := calibrated.1
          flags := { flags with rtc_calibration_request := false }
          state := SPSWS_state_t.SPSWS_STATE_TASK_END }
       por_flag := false },
      trace_gps ++ calibrated.2)
  else
    ({ m with spsws_ctx := { ctx with state := SPSWS_state_t.SPSWS_STATE_TASK_END } }, [])

/-- Embedding of the case `SPSWS_STATE_TASK_END` of `main` (main.c:1273-1290) without wind
and rainfall measurements. -/
def main_SPSWS_STATE_TASK_END (inp : MAIN_inputs) (ctx : SPSWS_context_t) :
    SPSWS_context_t × List Event :=
  -- Switch to internal clock.
  let clock := _SPSWS_set_clock inp.set_clock 0 ctx
  ({ clock.1 with state := SPSWS_state_t.SPSWS_STATE_TASK_CHECK }, clock.2)

/-- The first part of the case `SPSWS_STATE_TASK_CHECK` of `main` (main.c:1293-1347): the
measurement period and the weather period, with `generic_u32_1` the uptime. The sums are
`uint32_t`. An index `weather_data_period` outside the table reads 0 here, and a division
by 0 gives 0 (both are undefined in C). -/
def task_check_requests (generic_u32_1 : Nat) (ctx : SPSWS_context_t) : SPSWS_context_t :=
  -- Check measurements period.
  let ctx1 :=
    if generic_u32_1 ≥
        (ctx.measurements_last_time_seconds + SPSWS_MEASUREMENT_PERIOD_SECONDS) % 2 ^ 32 then
      { ctx with
        flags := { ctx.flags with measure_request := true }
        measurements_last_time_seconds := generic_u32_1 }
    else ctx
  -- Synchronize weather period.
  if ctx1.flags.sharp_hour_alarm ≠ false then
    { ctx1 with
      flags := { ctx1.flags with
        sharp_hour_alarm := false
        monitoring_request := true
        weather_request := true
        weather_request_intermediate := false }
      weather_last_time_seconds := ctx1.sharp_hour_uptime
      -- Reset message count.
      weather_message_count := 1 }
  else if ctx1.flags.first_sharp_hour_alarm ≠ false then
    -- Get current period.
    let generic_u32_2 := SPSWS_WEATHER_DATA_PERIOD_SECONDS.getD ctx1.weather_data_period 0
    -- Check weather period.
    if generic_u32_1 ≥ (ctx1.weather_last_time_seconds + generic_u32_2) % 2 ^ 32 ∧
        ctx1.weather_message_count < 3600 / generic_u32_2 then
      { ctx1 with
        flags := { ctx1.flags with
          weather_request := ctx1.flags.weather_request_enabled
          weather_request_intermediate := true }
        weather_last_time_seconds := generic_u32_1
        -- Update message count.
        weather_message_count := (ctx1.weather_message_count + 1) % 2 ^ 32 }
    else ctx1
  else ctx1

/-- Embedding of the case `SPSWS_STATE_TASK_CHECK` of `main` (main.c:1291-1384) with
`SIGFOX_EP_BIDIRECTIONAL`, without wind and rainfall measurements. -/
def main_SPSWS_STATE_TASK_CHECK (cfg : SPSWS_config_t) (rtc : RTC_config_t) (inp : MAIN_inputs)
    (ctx : SPSWS_context_t) : SPSWS_context_t × List Event :=
  let ctx_requests := task_check_requests inp.uptime ctx
  -- Go to sleep by default.
  let ctx_sleep := { ctx_requests with state := SPSWS_state_t.SPSWS_STATE_SLEEP }
  -- Check wake-up flags.
  if ctx_sleep.flags.weather_request ≠ false then
    -- Clear flag directly because wakeup is not guaranteed, and update requests.
    let updated := _SPSWS_update_additional_requests cfg rtc inp.additional_requests
      { ctx_sleep with flags := { ctx_sleep.flags with weather_request := false } }
    -- Check hour change flag.
    if updated.1.flags.valid_wakeup ≠ false then
      -- Update last wakeup time.
      let trace_nvm := _SPSWS_update_nvm_data cfg inp.nvm_data
        SPSWS_nvm_data_t.SPSWS_NVM_DATA_LAST_WAKE_UP updated.1
      -- Calibrate clocks and switch to accurate clock.
      let clock := _SPSWS_set_clock inp.set_clock 1 updated.1
      ({ clock.1 with state := SPSWS_state_t.SPSWS_STATE_WEATHER },
        updated.2 ++ trace_nvm ++
        Event.RCC_calibrate_internal_clocks ::
          stack_error ERROR_base_t.ERROR_BASE_RCC inp.rcc_calibrate_status ++ clock.2)
    else updated
  else if ctx_sleep.flags.measure_request ≠ false then
    ({ ctx_sleep with state := SPSWS_state_t.SPSWS_STATE_MEASURE }, [])
  else (ctx_sleep, [])

/-- Embedding of the case `SPSWS_STATE_SLEEP` of `main` (main.c:1385-1398) with
`SIGFOX_EP_BIDIRECTIONAL`. After `PWR_software_reset` the program restarts: there is
no next context, which is `none`. -/
def main_SPSWS_STATE_SLEEP (ctx : SPSWS_context_t) : Option SPSWS_context_t × List Event :=
  -- Check reset request.
  if ctx.flags.reset_request ≠ false then (none, [Event.PWR_software_reset])
  else
    -- Enter sleep mode and check wake-up reason.
    (some { ctx with state := SPSWS_state_t.SPSWS_STATE_TASK_CHECK },
      [Event.PWR_enter_deepsleep_mode])

/-- One iteration of the loop of `main` (main.c:964-1404): the `switch` on the state. The
result is `none` when the iteration ends in a software reset. -/
def main_step (cfg : SPSWS_config_t) (rtc : RTC_config_t) (inp : MAIN_inputs) (m : main_t) :
    Option main_t × List Event :=
  let keep := fun (r : SPSWS_context_t × List Event) =>
    (some { m with spsws_ctx := r.1 }, r.2)
  match m.spsws_ctx.state with
  | SPSWS_state_t.SPSWS_STATE_STARTUP => keep (main_SPSWS_STATE_STARTUP cfg inp m.spsws_ctx)
  | SPSWS_state_t.SPSWS_STATE_MEASURE =>
    keep (main_SPSWS_STATE_MEASURE cfg inp.measure m.spsws_ctx)
  | SPSWS_state_t.SPSWS_STATE_WEATHER =>
    keep (main_SPSWS_STATE_WEATHER cfg inp.math inp.sigfox m.spsws_ctx)
  | SPSWS_state_t.SPSWS_STATE_MONITORING => keep (main_SPSWS_STATE_MONITORING cfg inp m.spsws_ctx)
  | SPSWS_state_t.SPSWS_STATE_GEOLOC => keep (main_SPSWS_STATE_GEOLOC cfg inp m.spsws_ctx)
  | SPSWS_state_t.SPSWS_STATE_ERROR_STACK =>
    keep (main_SPSWS_STATE_ERROR_STACK cfg inp m.spsws_ctx)
  | SPSWS_state_t.SPSWS_STATE_RTC_CALIBRATION =>
    let r := main_SPSWS_STATE_RTC_CALIBRATION cfg inp m
    (some r.1, r.2)
  | SPSWS_state_t.SPSWS_STATE_TASK_END => keep (main_SPSWS_STATE_TASK_END inp m.spsws_ctx)
  | SPSWS_state_t.SPSWS_STATE_TASK_CHECK =>
    keep (main_SPSWS_STATE_TASK_CHECK cfg rtc inp m.spsws_ctx)
  | SPSWS_state_t.SPSWS_STATE_SLEEP =>
    let r := main_SPSWS_STATE_SLEEP m.spsws_ctx
    (r.1.map (fun c => { m with spsws_ctx := c }), r.2)
  | SPSWS_state_t.SPSWS_STATE_LAST =>
    -- Enter standby mode.
    (some { m with spsws_ctx :=
      { m.spsws_ctx with state := SPSWS_state_t.SPSWS_STATE_TASK_END } }, [])

/-! ## The error stack as the specification words it -/

/-- Modelled from the spec: the error stack of `error.h`, outside the application
sources, followed along a trace. "The error stack itself is bounded; once drained into an
error-stack frame it is cleared ... further pushes are dropped": `ERROR_stack_add` pushes
a code unless `depth` codes are stacked, `ERROR_stack_read` takes one code off,
`ERROR_stack_init` empties the stack. The codes that `ERROR_import_sigfox_stack` brings
from the radio library are not followed. -/
def ERROR_stack_replay (depth : Nat) : List ERROR_code_t → List Event → List ERROR_code_t
  | stack, [] => stack
  | stack, Event.ERROR_stack_add code :: rest =>
    ERROR_stack_replay depth (if stack.length < depth then code :: stack else stack) rest
  | stack, Event.ERROR_stack_read :: rest => ERROR_stack_replay depth stack.tail rest
  | _, Event.ERROR_stack_init :: rest => ERROR_stack_replay depth [] rest
  | stack, _ :: rest => ERROR_stack_replay depth stack rest

/-! ## More sample values used by the closed statements -/

/-- Constants of `rtc.h` for the sample runs: offsets of 1 and 2 hours, summer from April
to October, afternoon from 12 h. -/
def rtc_config_sample : RTC_config_t :=
  { RTC_LOCAL_UTC_OFFSET_WINTER := 1, RTC_LOCAL_UTC_OFFSET_SUMMER := 2,
    RTC_WINTER_TIME_LAST_MONTH := 3, RTC_WINTER_TIME_FIRST_MONTH := 11,
    RTC_NUMBER_OF_HOURS_PER_DAY := 24, RTC_AFTERNOON_HOUR_THRESHOLD := 12 }

/-- A store whose three records hold 2024-01-01 (0x07E8 is 2024), the last wake-up at
08:15, read through the sample address map without fault. -/
def nvm_read_sample (address : Nat) : NVM_read_result :=
  { status := 0
    data := [7, 232, 1, 1, 8, 15, 7, 232, 1, 1, 0, 7, 232, 1, 1, 0, 0].getD (address - 24) 0 }

/-- The real-time clock reads `time` and the store is `nvm_read_sample`. -/
def additional_requests_inputs_sample (time : RTC_time_t) : ADDITIONAL_REQUESTS_inputs :=
  { rtc_status := 0, current_time := time, nvm_read := nvm_read_sample }

/-- A radio transaction without fault and without downlink frame. -/
def sigfox_inputs_ok : SIGFOX_EP_API_inputs :=
  { open_status := 0, send_application_message_status := 0, dl_frame := 0,
    get_dl_payload_status := 0, dl_payload := [], close_status := 0, nvm_data := nvm_data_ok }

/-- An iteration in which every driver succeeds, the clock reads 2024-01-02 12:30:00, the
uptime is `uptime` and the error stack is not empty. -/
def main_inputs_sample (uptime : Nat) : MAIN_inputs :=
  { version := ⟨1, 2, 3, 0xABCDEF, 0⟩
    lptim_status := 0
    reset_flags := 4
    set_clock := ⟨0, true, 0, 1, 0, 1⟩
    sigfox := sigfox_inputs_ok
    measure := measure_inputs_ok 3000 100
    math := MATH_spec
    gps := ⟨0, ⟨45, 30, 1000, 1, 1, 20, 2000, 1, 150⟩, ⟨2024, 1, 2, 12, 30, 0⟩, 42, 0, true⟩
    rtc_set_time_status := 0
    nvm_data := nvm_data_ok
    error_stack := { stack_is_empty := 0, error_code := fun idx => 0x0100 + idx }
    uptime := uptime
    additional_requests := additional_requests_inputs_sample ⟨2024, 1, 2, 12, 30, 0⟩
    rcc_calibrate_status := 0 }

/-- The zeroed context in the state `state` and with the flags `flags`. -/
def ctx_in (state : SPSWS_state_t) (flags : SPSWS_flags_t) : SPSWS_context_t :=
  { ctx_zero with state := state, flags := flags }

/-! ## Context initialisation (main.c:234-247, 796-822) -/

/-- What the drivers return to `_SPSWS_init_context`: the result of `NVM_read_byte` and
the status of `NVM_write_byte` for each address. -/
structure INIT_inputs where
  nvm_read : Nat → NVM_read_result
  nvm_write_status : Nat → Nat

/-- Embedding of `_SPSWS_load_weather_data_period` (main.c:234-247); the byte read is a
`uint8_t`. -/
def _SPSWS_load_weather_data_period (cfg : SPSWS_config_t) (nvm_read : Nat → NVM_read_result)
    (ctx : SPSWS_context_t) : SPSWS_context_t × List Event :=
  -- Read monitoring period.
  let read := nvm_read cfg.nvm_address.NVM_ADDRESS_WEATHER_DATA_PERIOD
  let weather_data_period := read.data % 2 ^ 8
  -- Check value.
  let weather_data_period :=
    if weather_data_period ≥ SIGFOX_EP_DL_WEATHER_DATA_PERIOD_LAST then
      -- Reset to default value.
      SIGFOX_EP_DL_WEATHER_DATA_PERIOD_60_MINUTES
    else weather_data_period
  ({ ctx with weather_data_period := weather_data_period },
    stack_error ERROR_base_t.ERROR_BASE_NVM read.status)

/-- Embedding of `_SPSWS_init_context` (main.c:796-822) with `SIGFOX_EP_BIDIRECTIONAL`,
without `SPSWS_MODE_CLI` and without wind and rainfall measurements. `ctx` is the content
of `spsws_ctx` on entry; the function leaves the sample buffers, the supercap channel and
the two frames as they are. -/
def _SPSWS_init_context (cfg : SPSWS_config_t) (inp : INIT_inputs) (ctx : SPSWS_context_t) :
    SPSWS_context_t × List Event :=
  -- Init context.
  let flags : SPSWS_flags_t :=
    { ultimeter_process := false, sen15901_process := false, radio_enabled := true,
      reset_request := false, rtc_calibration_request := true, error_stack_request := false,
      geoloc_request := false, downlink_request := false,
      weather_request_intermediate := false, weather_request_enabled := true,
      weather_request := false, monitoring_request := false, measure_request := false,
      valid_wakeup := false, sharp_hour_alarm := false, first_sharp_hour_alarm := false }
  let ctx1 := { ctx with
    state := SPSWS_state_t.SPSWS_STATE_STARTUP
    flags := flags
    status := ⟨false, false, false, false, false, false, false, false⟩
    measurements_last_time_seconds := 0 }
  let ctx2 := _SPSWS_reset_measurements ctx1
  let ctx3 := { ctx2 with
    sharp_hour_uptime := 0
    weather_last_time_seconds := 0
    weather_message_count := 0 }
  -- Read the weather data period and write it back.
  let loaded := _SPSWS_load_weather_data_period cfg inp.nvm_read ctx3
  let stored := _SPSWS_store_weather_data_period cfg
    (inp.nvm_write_status cfg.nvm_address.NVM_ADDRESS_WEATHER_DATA_PERIOD)
    loaded.1.weather_data_period loaded.1
  -- Set the station mode.
  ({ stored.1 with status := { stored.1.status with station_mode := false } },
    loaded.2 ++ stored.2)

/-! ## Runs of the loop of `main` -/

/-- The sharp-hour alarm interrupts that fire between two iterations of the loop of `main`:
one call of `_SPSWS_sharp_hour_alarm_callback` (main.c:193-203, registered at main.c:889)
per uptime of the list. The callback writes the two alarm flags and `sharp_hour_uptime`
only; the loop reads the alarm flags in TaskCheck and clears them in RtcCalibration and
TaskCheck, so an interrupt that fires during an iteration acts as one that fires right
before or right after it. -/
def alarm_interrupts (uptimes : List Nat) (m : main_t) : main_t :=
  { m with spsws_ctx :=
      uptimes.foldl (fun c uptime => _SPSWS_sharp_hour_alarm_callback uptime c) m.spsws_ctx }

/-- The iterations of the loop of `main` (main.c:964-1404) from `m`, one per element of
the list: the uptimes of the alarm interrupts that fire before the iteration, and what the
drivers return during it. The result lists, for each iteration, the variables on entry
(after the interrupts) and the trace. A software reset ends the run. -/
def main_run (cfg : SPSWS_config_t) (rtc : RTC_config_t) :
    List (List Nat × MAIN_inputs) → main_t → List (main_t × List Event)
  | [], _ => []
  | (alarms, inp) :: rest, m =>
    match (main_step cfg rtc inp (alarm_interrupts alarms m)).1 with
    | some next =>
      (alarm_interrupts alarms m, (main_step cfg rtc inp (alarm_interrupts alarms m)).2) ::
        main_run cfg rtc rest next
    | none => [(alarm_interrupts alarms m, (main_step cfg rtc inp (alarm_interrupts alarms m)).2)]

/-- Whether an event is a call of `NVM_write_byte`. -/
def is_NVM_write_byte : Event → Bool
  | Event.NVM_write_byte _ _ => true
  | _ => false

/-- Whether an iteration of a run is an RtcCalibration step that calls `NVM_write_byte`. -/
def rtc_calibration_writes (iteration : main_t × List Event) : Bool :=
  decide (iteration.1.spsws_ctx.state = SPSWS_state_t.SPSWS_STATE_RTC_CALIBRATION) &&
    iteration.2.any is_NVM_write_byte

/-- The calls that reach one channel: `_SPSWS_measurement_add_sample` with a sample, or
`_SPSWS_reset_measurements`. -/
inductive channel_call where
  | add_sample (sample : Int)
  | reset_measurements
deriving DecidableEq, Repr

/-- The channel after a call: `_SPSWS_reset_measurements` clears `sample_count` and
`full_flag` of a channel that it resets (main.c:288-317). -/
def channel_apply (measurement : SPSWS_measurement_t) : channel_call → SPSWS_measurement_t
  | channel_call.add_sample sample => _SPSWS_measurement_add_sample measurement sample
  | channel_call.reset_measurements => { measurement with sample_count := 0, full_flag := 0 }

/-- The supercap channel after a call: `_SPSWS_reset_measurements` does not touch it. -/
def channel_apply_vcap (measurement : SPSWS_measurement_t) :
    channel_call → SPSWS_measurement_t
  | channel_call.add_sample sample => _SPSWS_measurement_add_sample measurement sample
  | channel_call.reset_measurements => measurement

/-- The scheduling part of consecutive TaskCheck steps, one per uptime of the list. -/
def task_check_run (ctx : SPSWS_context_t) (uptimes : List Nat) : SPSWS_context_t :=
  uptimes.foldl (fun c uptime => task_check_requests uptime c) ctx

/-- Modelled from the spec: "a fault-free byte-addressed store". The content of the
non-volatile memory of `nvm.h`, outside the application sources, followed along a trace:
`NVM_write_byte` puts the byte (a `uint8_t`) at its address, and nothing else changes the
content. -/
def NVM_replay : (Nat → Nat) → List Event → Nat → Nat
  | store, [] => store
  | store, Event.NVM_write_byte address data :: rest =>
    NVM_replay (fun a => if a = address then data % 2 ^ 8 else store a) rest
  | store, _ :: rest => NVM_replay store rest

/-- Modelled from the spec: `NVM_read_byte` over the fault-free store: the status is a
success (0) and the byte is the content at the address. -/
def NVM_read_store (store : Nat → Nat) (address : Nat) : NVM_read_result :=
  { status := 0, data := store address }

/-! ## Sample values of the runs -/

/-- Inputs of `_SPSWS_init_context` over a store that holds `byte` everywhere. -/
def init_inputs_sample (byte : Nat) : INIT_inputs :=
  { nvm_read := fun _ => ⟨0, byte⟩, nvm_write_status := fun _ => 0 }

/-- The variables of `main` before the loop, the store holding `byte` everywhere. -/
def main_init_sample (byte : Nat) : main_t :=
  { spsws_ctx := (_SPSWS_init_context cfg_sample (init_inputs_sample byte) ctx_zero).1
    por_flag := true }

/-- An iteration as `main_inputs_sample` in which the GPS acquisition times out. -/
def main_inputs_gps_timeout (uptime : Nat) : MAIN_inputs :=
  { main_inputs_sample uptime with
    gps := ⟨0, ⟨0, 0, 0, 0, 0, 0, 0, 0, 0⟩, ⟨0, 0, 0, 0, 0, 0⟩, 180, 1, false⟩ }

/-- The variables of `main` on entry of an RtcCalibration step on a later day: the clock
was calibrated the day before, a calibration is requested again and a measurement is
pending. -/
def main_calibration_pending : main_t :=
  { spsws_ctx :=
      { ctx_in SPSWS_state_t.SPSWS_STATE_RTC_CALIBRATION
          { flags_init with measure_request := true } with
        status := { ctx_zero.status with
          daily_rtc_calibration := true
          first_rtc_calibration := true } }
    por_flag := false }

/-- An iteration as `main_inputs_sample` in which the radio transaction receives the
downlink frame `dl_payload`. -/
def main_inputs_downlink (dl_payload : List Nat) : MAIN_inputs :=
  { main_inputs_sample 100 with sigfox := sigfox_inputs_dl dl_payload }

/-- Six iterations with the downlink frame `dl_payload` at hand, a sharp-hour alarm firing
at uptime 3600 before the fourth one. -/
def run_inputs_downlink (dl_payload : List Nat) : List (List Nat × MAIN_inputs) :=
  [([], main_inputs_downlink dl_payload), ([], main_inputs_downlink dl_payload),
    ([], main_inputs_downlink dl_payload), ([3600], main_inputs_downlink dl_payload),
    ([], main_inputs_downlink dl_payload), ([], main_inputs_downlink dl_payload)]

/-- A radio transaction that receives a downlink frame whose read fails with the status
5. -/
def sigfox_inputs_dl_failure : SIGFOX_EP_API_inputs :=
  { sigfox_inputs_dl [0] with get_dl_payload_status := 5 }

/-! ## Intermediate weather slot of TaskCheck (main.c:1322-1336) -/

/-- The test of the intermediate weather slot in TaskCheck (main.c:1322-1336): no
sharp-hour alarm is pending, a first alarm was seen, the period has elapsed and the count
of the hour is not reached. -/
def weather_slot_taken (generic_u32_1 : Nat) (ctx : SPSWS_context_t) : Bool :=
  decide (ctx.flags.sharp_hour_alarm = false ∧ ctx.flags.first_sharp_hour_alarm = true ∧
    generic_u32_1 ≥ (ctx.weather_last_time_seconds +
      SPSWS_WEATHER_DATA_PERIOD_SECONDS.getD ctx.weather_data_period 0) % 2 ^ 32 ∧
    ctx.weather_message_count <
      3600 / SPSWS_WEATHER_DATA_PERIOD_SECONDS.getD ctx.weather_data_period 0)

/-- The number of TaskCheck steps of a run, one per uptime of the list, that take the
intermediate weather slot. -/
def weather_slots_taken (ctx : SPSWS_context_t) : List Nat → Nat
  | [] => 0
  | uptime :: rest =>
    (if weather_slot_taken uptime ctx = true then 1 else 0) +
      weather_slots_taken (task_check_requests uptime ctx) rest

/-- A context in TaskCheck after the sharp-hour alarm of uptime 0 was handled, with the
weather data period `period`. -/
def ctx_after_alarm (period : Nat) : SPSWS_context_t :=
  { ctx_in SPSWS_state_t.SPSWS_STATE_TASK_CHECK
      { flags_init with first_sharp_hour_alarm := true } with
    weather_data_period := period
    weather_message_count := 1 }

/-! ## Theorems: measurement channels -/

theorem add_sample_below (m : SPSWS_measurement_t) (v : Int) (hc : m.sample_count + 1 < 60) :
    _SPSWS_measurement_add_sample m v =
      { sample_buffer := m.sample_buffer.set m.sample_count v
        sample_count := m.sample_count + 1
        last_sample_index := m.sample_count
        full_flag := m.full_flag } := by
  have h1 : (m.sample_count + 1) % 2 ^ 32 = m.sample_count + 1 := Nat.mod_eq_of_lt (by omega)
  simp only [_SPSWS_measurement_add_sample, SPSWS_MEASUREMENT_BUFFER_SIZE,
    SPSWS_MEASUREMENT_PERIOD_SECONDS, h1]
  rw [if_neg (by omega)]

theorem add_sample_wrap (m : SPSWS_measurement_t) (v : Int) (hc : m.sample_count + 1 = 60) :
    _SPSWS_measurement_add_sample m v =
      { sample_buffer := m.sample_buffer.set m.sample_count v
        sample_count := 0
        last_sample_index := m.sample_count
        full_flag := 1 } := by
  have h1 : (m.sample_count + 1) % 2 ^ 32 = m.sample_count + 1 := Nat.mod_eq_of_lt (by omega)
  simp only [_SPSWS_measurement_add_sample, SPSWS_MEASUREMENT_BUFFER_SIZE,
    SPSWS_MEASUREMENT_PERIOD_SECONDS, h1]
  rw [if_pos (by omega)]

theorem add_samples_below (vs : List Int) :
    ∀ m : SPSWS_measurement_t, m.sample_count + vs.length < 60 →
      (add_samples m vs).sample_count = m.sample_count + vs.length ∧
      (add_samples m vs).full_flag = m.full_flag := by
  induction vs with
  | nil => intro m _; simp [add_samples]
  | cons v rest ih =>
    intro m h
    simp only [List.length_cons] at h
    have hstep := add_sample_below m v (by omega)
    have hrec := ih (_SPSWS_measurement_add_sample m v) (by rw [hstep]; simp only; omega)
    simp only [add_samples, List.foldl_cons] at hrec ⊢
    rw [hstep] at hrec ⊢
    simp only [List.length_cons] at hrec ⊢
    exact ⟨by omega, hrec.2⟩

/-- C1: with a cursor `c < 60` in a buffer of 60 entries, `_SPSWS_measurement_add_sample`
stores the sample at `buffer[c]`, sets `last_sample_index` to `c`, sets the cursor to
`(c + 1) mod 60`, sets the full flag when `c + 1 = 60` and leaves it as it was otherwise,
and leaves every other buffer slot unchanged. -/
theorem add_sample_contract (m : SPSWS_measurement_t) (v : Int)
    (hlen : m.sample_buffer.length = SPSWS_MEASUREMENT_BUFFER_SIZE)
    (hc : m.sample_count < 60) :
    (_SPSWS_measurement_add_sample m v).sample_buffer[m.sample_count]? = some v ∧
    (_SPSWS_measurement_add_sample m v).last_sample_index = m.sample_count ∧
    (_SPSWS_measurement_add_sample m v).sample_count = (m.sample_count + 1) % 60 ∧
    (m.sample_count + 1 = 60 → (_SPSWS_measurement_add_sample m v).full_flag = 1) ∧
    (m.sample_count + 1 ≠ 60 →
      (_SPSWS_measurement_add_sample m v).full_flag = m.full_flag) ∧
    (∀ i : Nat, i ≠ m.sample_count →
      (_SPSWS_measurement_add_sample m v).sample_buffer[i]? = m.sample_buffer[i]?) ∧
    (_SPSWS_measurement_add_sample m v).sample_buffer.length = SPSWS_MEASUREMENT_BUFFER_SIZE := by
  have hlen60 : m.sample_buffer.length = 60 := by
    rw [hlen]; decide
  by_cases hw : m.sample_count + 1 = 60
  · rw [add_sample_wrap m v hw]
    refine ⟨?_, rfl, ?_, fun _ => rfl, fun h => absurd hw h, ?_, ?_⟩
    · simp [List.getElem?_set, hlen60, hc]
    · simp only [hw, Nat.mod_self]
    · intro i hi
      simp only [List.getElem?_set]
      rw [if_neg (fun h => hi h.symm)]
    · simp only [List.length_set, hlen]
  · rw [add_sample_below m v (by omega)]
    refine ⟨?_, rfl, ?_, fun h => absurd h hw, fun _ => rfl, ?_, ?_⟩
    · simp [List.getElem?_set, hlen60, hc]
    · simp only
      rw [Nat.mod_eq_of_lt (by omega)]
    · intro i hi
      simp only [List.getElem?_set]
      rw [if_neg (fun h => hi h.symm)]
    · simp only [List.length_set, hlen]

/-- Witness of C1: the last slot of a zeroed channel. -/
theorem add_sample_contract_witness :
    (_SPSWS_measurement_add_sample { measurement_zero with sample_count := 59 } 7).sample_buffer[59]?
        = some 7 ∧
    (_SPSWS_measurement_add_sample { measurement_zero with sample_count := 59 } 7).sample_count
        = 0 ∧
    (_SPSWS_measurement_add_sample { measurement_zero with sample_count := 59 } 7).full_flag
        = 1 :=
  have h := add_sample_contract { measurement_zero with sample_count := 59 } 7
    (by decide) (by decide)
  ⟨h.1, h.2.2.1, h.2.2.2.1 rfl⟩

/-- C2: from a reset channel (cursor 0, full flag 0), exactly 60 calls of
`_SPSWS_measurement_add_sample` leave the full flag set and the cursor at 0, and the
reduction then works on 60 samples, not on the wrapped cursor 0; after `k < 60` calls the
reduction works on `k` samples. -/
theorem add_samples_capacity (m : SPSWS_measurement_t) (vs : List Int)
    (h0 : m.sample_count = 0) (hf : m.full_flag = 0) :
    (vs.length = 60 →
      (add_samples m vs).full_flag = 1 ∧ (add_samples m vs).sample_count = 0 ∧
      final_sample_count (add_samples m vs) = 60) ∧
    (vs.length < 60 → final_sample_count (add_samples m vs) = vs.length) := by
  constructor
  · intro h60
    have hsplit : vs = vs.take 59 ++ vs.drop 59 := (List.take_append_drop 59 vs).symm
    have htake : (vs.take 59).length = 59 := by
      rw [List.length_take]; omega
    have hdrop : (vs.drop 59).length = 1 := by
      rw [List.length_drop]; omega
    obtain ⟨x, hx⟩ := List.length_eq_one.mp hdrop
    have hpre := add_samples_below (vs.take 59) m (by rw [htake, h0]; decide)
    rw [htake, h0] at hpre
    have hrun : add_samples m vs =
        _SPSWS_measurement_add_sample (add_samples m (vs.take 59)) x := by
      conv_lhs => rw [hsplit, hx]
      simp only [add_samples, List.foldl_append, List.foldl_cons, List.foldl_nil]
    rw [hrun, add_sample_wrap _ x (by rw [hpre.1])]
    refine ⟨rfl, rfl, ?_⟩
    simp [final_sample_count, SPSWS_MEASUREMENT_BUFFER_SIZE, SPSWS_MEASUREMENT_PERIOD_SECONDS]
  · intro hlt
    have h := add_samples_below vs m (by rw [h0]; omega)
    rw [h0, hf] at h
    simp only [final_sample_count, h.2, h.1]
    simp

/-- Witness of C2: sixty samples into the zeroed channel. -/
theorem add_samples_capacity_witness :
    (add_samples measurement_zero (List.replicate 60 5)).full_flag = 1 ∧
    (add_samples measurement_zero (List.replicate 60 5)).sample_count = 0 ∧
    final_sample_count (add_samples measurement_zero (List.replicate 60 5)) = 60 :=
  (add_samples_capacity measurement_zero (List.replicate 60 5) rfl rfl).1 (by simp)

/-! ## Theorems: reduction of the channels -/

theorem final_sample_count_zero (m : SPSWS_measurement_t) (hf : m.full_flag = 0)
    (hc : m.sample_count = 0) : final_sample_count m = 0 := by
  simp [final_sample_count, hf, hc]

theorem final_temperature_zero (math : MATH_api) (m : SPSWS_measurement_t)
    (h : final_sample_count m = 0) : final_temperature math m = (0x7F, []) := by
  simp [final_temperature, h, SIGFOX_EP_ERROR_VALUE_TEMPERATURE]

theorem final_median_zero (math : MATH_api) (m : SPSWS_measurement_t) (error_value : Nat)
    (convert : Int → Nat) (h : final_sample_count m = 0) :
    final_median math m error_value convert = (error_value, []) := by
  simp [final_median, h]

theorem final_uv_index_zero (math : MATH_api) (m : SPSWS_measurement_t)
    (h : final_sample_count m = 0) : final_uv_index math m = (0xFF, []) := by
  simp [final_uv_index, h, SIGFOX_EP_ERROR_VALUE_UV_INDEX]

theorem final_vcap_zero (m : SPSWS_measurement_t) (h : final_sample_count m = 0) :
    final_vcap m = (0xFFF, []) := by
  simp [final_vcap, h, SIGFOX_EP_ERROR_VALUE_ANALOG_12BITS]

/-- C3: for each of the eleven channels, when the channel holds no sample (full flag 0 and
cursor 0), `_SPSWS_compute_final_measurements` writes the error value of the quantity in
its frame field and the block of the channel calls nothing (empty trace), whatever the
maths library is: 0x7F for the three temperatures, 0xFF for ambient humidity, PCB
humidity, light and UV index, 0xFFFF for pressure and source voltage, 0xFFF for supercap
voltage and MCU voltage. -/
theorem compute_final_measurements_unavailable (math : MATH_api) (ctx : SPSWS_context_t) :
    (ctx.measurements.tamb_degrees.full_flag = 0 → ctx.measurements.tamb_degrees.sample_count = 0 →
      (_SPSWS_compute_final_measurements math ctx).1.sigfox_ep_ul_payload_weather.tamb_degrees
        = 0x7F ∧
      (final_temperature math ctx.measurements.tamb_degrees).2 = []) ∧
    (ctx.measurements.hamb_percent.full_flag = 0 → ctx.measurements.hamb_percent.sample_count = 0 →
      (_SPSWS_compute_final_measurements math ctx).1.sigfox_ep_ul_payload_weather.hamb_percent
        = 0xFF ∧
      (final_median math ctx.measurements.hamb_percent SIGFOX_EP_ERROR_VALUE_HUMIDITY cast_u8).2
        = []) ∧
    (ctx.measurements.light_percent.full_flag = 0 →
      ctx.measurements.light_percent.sample_count = 0 →
      (_SPSWS_compute_final_measurements math ctx).1.sigfox_ep_ul_payload_weather.light_percent
        = 0xFF ∧
      (final_median math ctx.measurements.light_percent SIGFOX_EP_ERROR_VALUE_LIGHT cast_u8).2
        = []) ∧
    (ctx.measurements.uv_index.full_flag = 0 → ctx.measurements.uv_index.sample_count = 0 →
      (_SPSWS_compute_final_measurements math ctx).1.sigfox_ep_ul_payload_weather.uv_index
        = 0xFF ∧
      (final_uv_index math ctx.measurements.uv_index).2 = []) ∧
    (ctx.measurements.patm_abs_pa.full_flag = 0 → ctx.measurements.patm_abs_pa.sample_count = 0 →
      (_SPSWS_compute_final_measurements math ctx).1.sigfox_ep_ul_payload_weather.patm_abs_tenth_hpa
        = 0xFFFF ∧
      (final_median math ctx.measurements.patm_abs_pa SIGFOX_EP_ERROR_VALUE_PRESSURE cast_patm).2
        = []) ∧
    (ctx.measurements.tmcu_degrees.full_flag = 0 → ctx.measurements.tmcu_degrees.sample_count = 0 →
      (_SPSWS_compute_final_measurements math ctx).1.sigfox_ep_ul_payload_monitoring.tmcu_degrees
        = 0x7F ∧
      (final_temperature math ctx.measurements.tmcu_degrees).2 = []) ∧
    (ctx.measurements.tpcb_degrees.full_flag = 0 → ctx.measurements.tpcb_degrees.sample_count = 0 →
      (_SPSWS_compute_final_measurements math ctx).1.sigfox_ep_ul_payload_monitoring.tpcb_degrees
        = 0x7F ∧
      (final_temperature math ctx.measurements.tpcb_degrees).2 = []) ∧
    (ctx.measurements.hpcb_percent.full_flag = 0 → ctx.measurements.hpcb_percent.sample_count = 0 →
      (_SPSWS_compute_final_measurements math ctx).1.sigfox_ep_ul_payload_monitoring.hpcb_percent
        = 0xFF ∧
      (final_median math ctx.measurements.hpcb_percent SIGFOX_EP_ERROR_VALUE_HUMIDITY cast_u8).2
        = []) ∧
    (ctx.measurements.vsrc_mv.full_flag = 0 → ctx.measurements.vsrc_mv.sample_count = 0 →
      (_SPSWS_compute_final_measurements math ctx).1.sigfox_ep_ul_payload_monitoring.vsrc_mv
        = 0xFFFF ∧
      (final_median math ctx.measurements.vsrc_mv SIGFOX_EP_ERROR_VALUE_ANALOG_16BITS cast_u16).2
        = []) ∧
    (ctx.measurements.vcap_mv.full_flag = 0 → ctx.measurements.vcap_mv.sample_count = 0 →
      (_SPSWS_compute_final_measurements math ctx).1.sigfox_ep_ul_payload_monitoring.vcap_mv
        = 0xFFF ∧
      (final_vcap ctx.measurements.vcap_mv).2 = []) ∧
    (ctx.measurements.vmcu_mv.full_flag = 0 → ctx.measurements.vmcu_mv.sample_count = 0 →
      (_SPSWS_compute_final_measurements math ctx).1.sigfox_ep_ul_payload_monitoring.vmcu_mv
        = 0xFFF ∧
      (final_median math ctx.measurements.vmcu_mv SIGFOX_EP_ERROR_VALUE_ANALOG_12BITS cast_u12).2
        = []) := by
  refine ⟨?_, ?_, ?_, ?_, ?_, ?_, ?_, ?_, ?_, ?_, ?_⟩ <;> intro hf hc <;>
    have hz := final_sample_count_zero _ hf hc
  · simp [_SPSWS_compute_final_measurements, final_temperature_zero math _ hz]
  · simp [_SPSWS_compute_final_measurements, final_median_zero math _ _ _ hz,
      SIGFOX_EP_ERROR_VALUE_HUMIDITY]
  · simp [_SPSWS_compute_final_measurements, final_median_zero math _ _ _ hz,
      SIGFOX_EP_ERROR_VALUE_LIGHT]
  · simp [_SPSWS_compute_final_measurements, final_uv_index_zero math _ hz]
  · simp [_SPSWS_compute_final_measurements, final_median_zero math _ _ _ hz,
      SIGFOX_EP_ERROR_VALUE_PRESSURE]
  · simp [_SPSWS_compute_final_measurements, final_temperature_zero math _ hz]
  · simp [_SPSWS_compute_final_measurements, final_temperature_zero math _ hz]
  · simp [_SPSWS_compute_final_measurements, final_median_zero math _ _ _ hz,
      SIGFOX_EP_ERROR_VALUE_HUMIDITY]
  · simp [_SPSWS_compute_final_measurements, final_median_zero math _ _ _ hz,
      SIGFOX_EP_ERROR_VALUE_ANALOG_16BITS]
  · simp [_SPSWS_compute_final_measurements, final_vcap_zero _ hz]
  · simp [_SPSWS_compute_final_measurements, final_median_zero math _ _ _ hz,
      SIGFOX_EP_ERROR_VALUE_ANALOG_12BITS]

/-- Witness of C3: the ambient temperature and the supercap voltage of the zeroed context,
with the maths library of the specification. -/
theorem compute_final_measurements_unavailable_witness :
    (_SPSWS_compute_final_measurements MATH_spec ctx_zero).1.sigfox_ep_ul_payload_weather.tamb_degrees
      = 0x7F ∧
    (_SPSWS_compute_final_measurements MATH_spec ctx_zero).1.sigfox_ep_ul_payload_monitoring.vcap_mv
      = 0xFFF :=
  have h := compute_final_measurements_unavailable MATH_spec ctx_zero
  ⟨(h.1 rfl rfl).1, (h.2.2.2.2.2.2.2.2.2.1 rfl rfl).1⟩

theorem final_temperature_pos (math : MATH_api) (m : SPSWS_measurement_t) (v : Int) (u : Nat)
    (hn : 0 < final_sample_count m)
    (hmin : math.MATH_min m.sample_buffer (final_sample_count m) = (0, v))
    (hconv : math.MATH_integer_to_signed_magnitude v 7 = (0, u)) :
    final_temperature math m =
      (u % 2 ^ 8, [Event.MATH_min m.sample_buffer (final_sample_count m),
        Event.MATH_integer_to_signed_magnitude v 7]) := by
  simp [final_temperature, hn, hmin, hconv, stack_error, MATH_U8_SIZE_BITS]

theorem final_median_pos (math : MATH_api) (m : SPSWS_measurement_t) (error_value : Nat)
    (convert : Int → Nat) (v : Int) (hn : 0 < final_sample_count m)
    (hmed : math.MATH_median_filter m.sample_buffer (final_sample_count m) 0 = (0, v)) :
    final_median math m error_value convert =
      (convert v, [Event.MATH_median_filter m.sample_buffer (final_sample_count m) 0]) := by
  simp [final_median, hn, hmed, stack_error]

theorem final_uv_index_pos (math : MATH_api) (m : SPSWS_measurement_t) (v : Int)
    (hn : 0 < final_sample_count m)
    (hmax : math.MATH_max m.sample_buffer (final_sample_count m) = (0, v)) :
    final_uv_index math m =
      ((v % 2 ^ 8).toNat, [Event.MATH_max m.sample_buffer (final_sample_count m)]) := by
  simp [final_uv_index, hn, hmax, stack_error]

theorem final_vcap_pos (m : SPSWS_measurement_t) (hn : 0 < final_sample_count m) :
    final_vcap m = ((m.sample_buffer.getD m.last_sample_index 0 % 2 ^ 12).toNat, []) := by
  simp [final_vcap, hn]

/-- C4: for every channel holding `n > 0` samples, `_SPSWS_compute_final_measurements`
hands the buffer and `n` to the reducer designated for the channel and, when the reducer
succeeds, writes its result in the frame field: `MATH_min` then the sign-magnitude
conversion on 7 bits for the ambient, MCU and PCB temperatures; `MATH_max` for the UV
index; `MATH_median_filter` with averaging length 0 for ambient humidity, light, pressure
(divided by 10), PCB humidity, source voltage and MCU voltage, the result `v` being cut to
the width of the field (`v mod 2^8`, `v mod 2^16`, and `v mod 2^16 mod 2^12` for the MCU
voltage); for the supercap voltage the sample at `last_sample_index`, without any call.
The trace of each block holds these calls only. After three Measure steps with ambient temperatures 10, 12 and 11, a Weather
step with the reducers of the specification gives a field that decodes to 10. -/
theorem compute_final_measurements_reducers (math : MATH_api) (ctx : SPSWS_context_t) :
    (∀ (v : Int) (u : Nat), 0 < final_sample_count ctx.measurements.tamb_degrees →
      math.MATH_min ctx.measurements.tamb_degrees.sample_buffer
        (final_sample_count ctx.measurements.tamb_degrees) = (0, v) →
      math.MATH_integer_to_signed_magnitude v 7 = (0, u) →
      (_SPSWS_compute_final_measurements math ctx).1.sigfox_ep_ul_payload_weather.tamb_degrees = u % 2 ^ 8 ∧
      (final_temperature math ctx.measurements.tamb_degrees).2 =
        [Event.MATH_min ctx.measurements.tamb_degrees.sample_buffer
          (final_sample_count ctx.measurements.tamb_degrees),
         Event.MATH_integer_to_signed_magnitude v 7]) ∧
    (∀ v : Int, 0 < final_sample_count ctx.measurements.hamb_percent →
      math.MATH_median_filter ctx.measurements.hamb_percent.sample_buffer
        (final_sample_count ctx.measurements.hamb_percent) 0 = (0, v) →
      (_SPSWS_compute_final_measurements math ctx).1.sigfox_ep_ul_payload_weather.hamb_percent =
        (v % 2 ^ 8).toNat ∧
      (final_median math ctx.measurements.hamb_percent SIGFOX_EP_ERROR_VALUE_HUMIDITY cast_u8).2 =
        [Event.MATH_median_filter ctx.measurements.hamb_percent.sample_buffer
          (final_sample_count ctx.measurements.hamb_percent) 0]) ∧
    (∀ v : Int, 0 < final_sample_count ctx.measurements.light_percent →
      math.MATH_median_filter ctx.measurements.light_percent.sample_buffer
        (final_sample_count ctx.measurements.light_percent) 0 = (0, v) →
      (_SPSWS_compute_final_measurements math ctx).1.sigfox_ep_ul_payload_weather.light_percent =
        (v % 2 ^ 8).toNat ∧
      (final_median math ctx.measurements.light_percent SIGFOX_EP_ERROR_VALUE_LIGHT cast_u8).2 =
        [Event.MATH_median_filter ctx.measurements.light_percent.sample_buffer
          (final_sample_count ctx.measurements.light_percent) 0]) ∧
    (∀ v : Int, 0 < final_sample_count ctx.measurements.uv_index →
      math.MATH_max ctx.measurements.uv_index.sample_buffer
        (final_sample_count ctx.measurements.uv_index) = (0, v) →
      (_SPSWS_compute_final_measurements math ctx).1.sigfox_ep_ul_payload_weather.uv_index = (v % 2 ^ 8).toNat ∧
      (final_uv_index math ctx.measurements.uv_index).2 =
        [Event.MATH_max ctx.measurements.uv_index.sample_buffer
          (final_sample_count ctx.measurements.uv_index)]) ∧
    (∀ v : Int, 0 < final_sample_count ctx.measurements.patm_abs_pa →
      math.MATH_median_filter ctx.measurements.patm_abs_pa.sample_buffer
        (final_sample_count ctx.measurements.patm_abs_pa) 0 = (0, v) →
      (_SPSWS_compute_final_measurements math ctx).1.sigfox_ep_ul_payload_weather.patm_abs_tenth_hpa =
        (Int.tdiv v 10 % 2 ^ 16).toNat ∧
      (final_median math ctx.measurements.patm_abs_pa SIGFOX_EP_ERROR_VALUE_PRESSURE cast_patm).2 =
        [Event.MATH_median_filter ctx.measurements.patm_abs_pa.sample_buffer
          (final_sample_count ctx.measurements.patm_abs_pa) 0]) ∧
    (∀ (v : Int) (u : Nat), 0 < final_sample_count ctx.measurements.tmcu_degrees →
      math.MATH_min ctx.measurements.tmcu_degrees.sample_buffer
        (final_sample_count ctx.measurements.tmcu_degrees) = (0, v) →
      math.MATH_integer_to_signed_magnitude v 7 = (0, u) →
      (_SPSWS_compute_final_measurements math ctx).1.sigfox_ep_ul_payload_monitoring.tmcu_degrees = u % 2 ^ 8 ∧
      (final_temperature math ctx.measurements.tmcu_degrees).2 =
        [Event.MATH_min ctx.measurements.tmcu_degrees.sample_buffer
          (final_sample_count ctx.measurements.tmcu_degrees),
         Event.MATH_integer_to_signed_magnitude v 7]) ∧
    (∀ (v : Int) (u : Nat), 0 < final_sample_count ctx.measurements.tpcb_degrees →
      math.MATH_min ctx.measurements.tpcb_degrees.sample_buffer
        (final_sample_count ctx.measurements.tpcb_degrees) = (0, v) →
      math.MATH_integer_to_signed_magnitude v 7 = (0, u) →
      (_SPSWS_compute_final_measurements math ctx).1.sigfox_ep_ul_payload_monitoring.tpcb_degrees = u % 2 ^ 8 ∧
      (final_temperature math ctx.measurements.tpcb_degrees).2 =
        [Event.MATH_min ctx.measurements.tpcb_degrees.sample_buffer
          (final_sample_count ctx.measurements.tpcb_degrees),
         Event.MATH_integer_to_signed_magnitude v 7]) ∧
    (∀ v : Int, 0 < final_sample_count ctx.measurements.hpcb_percent →
      math.MATH_median_filter ctx.measurements.hpcb_percent.sample_buffer
        (final_sample_count ctx.measurements.hpcb_percent) 0 = (0, v) →
      (_SPSWS_compute_final_measurements math ctx).1.sigfox_ep_ul_payload_monitoring.hpcb_percent =
        (v % 2 ^ 8).toNat ∧
      (final_median math ctx.measurements.hpcb_percent SIGFOX_EP_ERROR_VALUE_HUMIDITY cast_u8).2 =
        [Event.MATH_median_filter ctx.measurements.hpcb_percent.sample_buffer
          (final_sample_count ctx.measurements.hpcb_percent) 0]) ∧
    (∀ v : Int, 0 < final_sample_count ctx.measurements.vsrc_mv →
      math.MATH_median_filter ctx.measurements.vsrc_mv.sample_buffer
        (final_sample_count ctx.measurements.vsrc_mv) 0 = (0, v) →
      (_SPSWS_compute_final_measurements math ctx).1.sigfox_ep_ul_payload_monitoring.vsrc_mv =
        (v % 2 ^ 16).toNat ∧
      (final_median math ctx.measurements.vsrc_mv SIGFOX_EP_ERROR_VALUE_ANALOG_16BITS cast_u16).2 =
        [Event.MATH_median_filter ctx.measurements.vsrc_mv.sample_buffer
          (final_sample_count ctx.measurements.vsrc_mv) 0]) ∧
    (0 < final_sample_count ctx.measurements.vcap_mv →
      (_SPSWS_compute_final_measurements math ctx).1.sigfox_ep_ul_payload_monitoring.vcap_mv =
        (ctx.measurements.vcap_mv.sample_buffer.getD
          ctx.measurements.vcap_mv.last_sample_index 0 % 2 ^ 12).toNat ∧
      (final_vcap ctx.measurements.vcap_mv).2 = []) ∧
    (∀ v : Int, 0 < final_sample_count ctx.measurements.vmcu_mv →
      math.MATH_median_filter ctx.measurements.vmcu_mv.sample_buffer
        (final_sample_count ctx.measurements.vmcu_mv) 0 = (0, v) →
      (_SPSWS_compute_final_measurements math ctx).1.sigfox_ep_ul_payload_monitoring.vmcu_mv =
        (v % 2 ^ 16).toNat % 2 ^ 12 ∧
      (final_median math ctx.measurements.vmcu_mv SIGFOX_EP_ERROR_VALUE_ANALOG_12BITS cast_u12).2 =
        [Event.MATH_median_filter ctx.measurements.vmcu_mv.sample_buffer
          (final_sample_count ctx.measurements.vmcu_mv) 0]) ∧
    (∀ v : Int, cast_u8 v = (v % 2 ^ 8).toNat ∧ cast_patm v = (Int.tdiv v 10 % 2 ^ 16).toNat ∧
      cast_u16 v = (v % 2 ^ 16).toNat ∧ cast_u12 v = (v % 2 ^ 16).toNat % 2 ^ 12) ∧
    (ctx_three_measures.measurements.tamb_degrees.sample_buffer.take 3 = [10, 12, 11] ∧
      final_sample_count ctx_three_measures.measurements.tamb_degrees = 3 ∧
      signed_magnitude_decode
        (main_SPSWS_STATE_WEATHER cfg_sample MATH_spec (sigfox_inputs_dl [0])
          ctx_three_measures).1.sigfox_ep_ul_payload_weather.tamb_degrees 7 = 10) := by
  refine ⟨?_, ?_, ?_, ?_, ?_, ?_, ?_, ?_, ?_, ?_, ?_, fun _ => ⟨rfl, rfl, rfl, rfl⟩, ?_⟩
  · intro v u hn hmin hconv
    simp [_SPSWS_compute_final_measurements, final_temperature_pos math _ v u hn hmin hconv]
  · intro v hn hmed
    simp [_SPSWS_compute_final_measurements, final_median_pos math _ _ _ v hn hmed, cast_u8,
      cast_u16, cast_u12, cast_patm]
  · intro v hn hmed
    simp [_SPSWS_compute_final_measurements, final_median_pos math _ _ _ v hn hmed, cast_u8,
      cast_u16, cast_u12, cast_patm]
  · intro v hn hmax
    simp [_SPSWS_compute_final_measurements, final_uv_index_pos math _ v hn hmax]
  · intro v hn hmed
    simp [_SPSWS_compute_final_measurements, final_median_pos math _ _ _ v hn hmed, cast_u8,
      cast_u16, cast_u12, cast_patm]
  · intro v u hn hmin hconv
    simp [_SPSWS_compute_final_measurements, final_temperature_pos math _ v u hn hmin hconv]
  · intro v u hn hmin hconv
    simp [_SPSWS_compute_final_measurements, final_temperature_pos math _ v u hn hmin hconv]
  · intro v hn hmed
    simp [_SPSWS_compute_final_measurements, final_median_pos math _ _ _ v hn hmed, cast_u8,
      cast_u16, cast_u12, cast_patm]
  · intro v hn hmed
    simp [_SPSWS_compute_final_measurements, final_median_pos math _ _ _ v hn hmed, cast_u8,
      cast_u16, cast_u12, cast_patm]
  · intro hn
    simp [_SPSWS_compute_final_measurements, final_vcap_pos _ hn]
  · intro v hn hmed
    simp [_SPSWS_compute_final_measurements, final_median_pos math _ _ _ v hn hmed, cast_u8,
      cast_u16, cast_u12, cast_patm]
  · decide

/-- Witness of C4: the ambient temperature channel after the three Measure steps, reduced
by the minimum of the specification, and the ambient humidity channel (three samples of 40
percent), reduced by its median filter. -/
theorem compute_final_measurements_reducers_witness :
    (_SPSWS_compute_final_measurements MATH_spec
      ctx_three_measures).1.sigfox_ep_ul_payload_weather.tamb_degrees = 10 % 2 ^ 8 ∧
    (final_temperature MATH_spec ctx_three_measures.measurements.tamb_degrees).2 =
      [Event.MATH_min ctx_three_measures.measurements.tamb_degrees.sample_buffer
        (final_sample_count ctx_three_measures.measurements.tamb_degrees),
       Event.MATH_integer_to_signed_magnitude 10 7] ∧
    (_SPSWS_compute_final_measurements MATH_spec
      ctx_three_measures).1.sigfox_ep_ul_payload_weather.hamb_percent = 40 :=
  ⟨((compute_final_measurements_reducers MATH_spec ctx_three_measures).1 10 10
      (by decide) (by decide) (by decide)).1,
    ((compute_final_measurements_reducers MATH_spec ctx_three_measures).1 10 10
      (by decide) (by decide) (by decide)).2,
    ((compute_final_measurements_reducers MATH_spec ctx_three_measures).2.1 40
      (by decide) (by decide)).1⟩

/-! ## Theorems: reset of the channels -/

/-- C5 on the code: `_SPSWS_reset_measurements` clears the cursor and the full flag of ten
channels and leaves the supercap voltage channel `vcap_mv` as it was. After the three
Measure steps of `ctx_three_measures` and a reset, and likewise after a whole Weather
step, the cursor of `vcap_mv` is 3, not 0. -/
theorem reset_measurements_skips_vcap (ctx : SPSWS_context_t) :
    (_SPSWS_reset_measurements ctx).measurements.tamb_degrees.sample_count = 0 ∧
    (_SPSWS_reset_measurements ctx).measurements.tamb_degrees.full_flag = 0 ∧
    (_SPSWS_reset_measurements ctx).measurements.hamb_percent.sample_count = 0 ∧
    (_SPSWS_reset_measurements ctx).measurements.hamb_percent.full_flag = 0 ∧
    (_SPSWS_reset_measurements ctx).measurements.light_percent.sample_count = 0 ∧
    (_SPSWS_reset_measurements ctx).measurements.light_percent.full_flag = 0 ∧
    (_SPSWS_reset_measurements ctx).measurements.uv_index.sample_count = 0 ∧
    (_SPSWS_reset_measurements ctx).measurements.uv_index.full_flag = 0 ∧
    (_SPSWS_reset_measurements ctx).measurements.patm_abs_pa.sample_count = 0 ∧
    (_SPSWS_reset_measurements ctx).measurements.patm_abs_pa.full_flag = 0 ∧
    (_SPSWS_reset_measurements ctx).measurements.tmcu_degrees.sample_count = 0 ∧
    (_SPSWS_reset_measurements ctx).measurements.tmcu_degrees.full_flag = 0 ∧
    (_SPSWS_reset_measurements ctx).measurements.tpcb_degrees.sample_count = 0 ∧
    (_SPSWS_reset_measurements ctx).measurements.tpcb_degrees.full_flag = 0 ∧
    (_SPSWS_reset_measurements ctx).measurements.hpcb_percent.sample_count = 0 ∧
    (_SPSWS_reset_measurements ctx).measurements.hpcb_percent.full_flag = 0 ∧
    (_SPSWS_reset_measurements ctx).measurements.vsrc_mv.sample_count = 0 ∧
    (_SPSWS_reset_measurements ctx).measurements.vsrc_mv.full_flag = 0 ∧
    (_SPSWS_reset_measurements ctx).measurements.vmcu_mv.sample_count = 0 ∧
    (_SPSWS_reset_measurements ctx).measurements.vmcu_mv.full_flag = 0 ∧
    (_SPSWS_reset_measurements ctx).measurements.vcap_mv = ctx.measurements.vcap_mv ∧
    (_SPSWS_reset_measurements ctx_three_measures).measurements.vcap_mv.sample_count = 3 ∧
    (main_SPSWS_STATE_WEATHER cfg_sample MATH_spec (sigfox_inputs_dl [0])
      ctx_three_measures).1.measurements.vcap_mv.sample_count = 3 := by
  refine ⟨rfl, rfl, rfl, rfl, rfl, rfl, rfl, rfl, rfl, rfl, rfl, rfl, rfl, rfl, rfl, rfl, rfl,
    rfl, rfl, rfl, rfl, ?_, ?_⟩
  · decide
  · decide

/-! ## Theorems: voltage hysteresis -/

theorem vcap_hysteresis_radio (v : Int) (f : SPSWS_flags_t) :
    (vcap_hysteresis v f).radio_enabled =
      if v > 1500 then true else if v < 1000 then false else f.radio_enabled := by
  simp only [vcap_hysteresis, SPSWS_RADIO_OFF_VCAP_THRESHOLD_MV, SPSWS_RADIO_ON_VCAP_THRESHOLD_MV,
    SPSWS_WEATHER_REQUEST_OFF_VCAP_THRESHOLD_MV, SPSWS_WEATHER_REQUEST_ON_VCAP_THRESHOLD_MV]
  split_ifs <;> rfl

theorem vcap_hysteresis_weather (v : Int) (f : SPSWS_flags_t) :
    (vcap_hysteresis v f).weather_request_enabled =
      if v > 2000 then true else if v < 1500 then false else f.weather_request_enabled := by
  simp only [vcap_hysteresis, SPSWS_RADIO_OFF_VCAP_THRESHOLD_MV, SPSWS_RADIO_ON_VCAP_THRESHOLD_MV,
    SPSWS_WEATHER_REQUEST_OFF_VCAP_THRESHOLD_MV, SPSWS_WEATHER_REQUEST_ON_VCAP_THRESHOLD_MV]
  split_ifs <;> rfl

theorem measure_flags (cfg : SPSWS_config_t) (inp : MEASURE_inputs) (ctx : SPSWS_context_t) :
    (main_SPSWS_STATE_MEASURE cfg inp ctx).1.flags =
      { (if inp.vcap_mv.status = 0 then vcap_hysteresis inp.vcap_mv.generic_s32_1 ctx.flags
          else ctx.flags) with measure_request := false } := rfl

theorem measure_radio_ok (cfg : SPSWS_config_t) (inp : MEASURE_inputs) (ctx : SPSWS_context_t)
    (hs : inp.vcap_mv.status = 0) :
    (main_SPSWS_STATE_MEASURE cfg inp ctx).1.flags.radio_enabled =
      if inp.vcap_mv.generic_s32_1 > 1500 then true
      else if inp.vcap_mv.generic_s32_1 < 1000 then false else ctx.flags.radio_enabled := by
  rw [measure_flags, if_pos hs]
  exact vcap_hysteresis_radio _ _

theorem measure_weather_ok (cfg : SPSWS_config_t) (inp : MEASURE_inputs) (ctx : SPSWS_context_t)
    (hs : inp.vcap_mv.status = 0) :
    (main_SPSWS_STATE_MEASURE cfg inp ctx).1.flags.weather_request_enabled =
      if inp.vcap_mv.generic_s32_1 > 2000 then true
      else if inp.vcap_mv.generic_s32_1 < 1500 then false
      else ctx.flags.weather_request_enabled := by
  rw [measure_flags, if_pos hs]
  exact vcap_hysteresis_weather _ _

/-- C6: in a Measure step whose supercap conversion succeeds with `v` mV, the radio gate
becomes disabled if `v < 1000`, enabled if `v > 1500` and keeps its state if
`1000 ≤ v ≤ 1500`; the reporting gate becomes disabled if `v < 1500`, enabled if
`v > 2000` and keeps its state if `1500 ≤ v ≤ 2000`. When the conversion fails, both
gates keep their state. -/
theorem measure_hysteresis (cfg : SPSWS_config_t) (inp : MEASURE_inputs) (ctx : SPSWS_context_t) :
    (inp.vcap_mv.status = 0 →
      (inp.vcap_mv.generic_s32_1 < 1000 →
        (main_SPSWS_STATE_MEASURE cfg inp ctx).1.flags.radio_enabled = false) ∧
      (inp.vcap_mv.generic_s32_1 > 1500 →
        (main_SPSWS_STATE_MEASURE cfg inp ctx).1.flags.radio_enabled = true) ∧
      (1000 ≤ inp.vcap_mv.generic_s32_1 → inp.vcap_mv.generic_s32_1 ≤ 1500 →
        (main_SPSWS_STATE_MEASURE cfg inp ctx).1.flags.radio_enabled
          = ctx.flags.radio_enabled) ∧
      (inp.vcap_mv.generic_s32_1 < 1500 →
        (main_SPSWS_STATE_MEASURE cfg inp ctx).1.flags.weather_request_enabled = false) ∧
      (inp.vcap_mv.generic_s32_1 > 2000 →
        (main_SPSWS_STATE_MEASURE cfg inp ctx).1.flags.weather_request_enabled = true) ∧
      (1500 ≤ inp.vcap_mv.generic_s32_1 → inp.vcap_mv.generic_s32_1 ≤ 2000 →
        (main_SPSWS_STATE_MEASURE cfg inp ctx).1.flags.weather_request_enabled
          = ctx.flags.weather_request_enabled)) ∧
    (inp.vcap_mv.status ≠ 0 →
      (main_SPSWS_STATE_MEASURE cfg inp ctx).1.flags.radio_enabled = ctx.flags.radio_enabled ∧
      (main_SPSWS_STATE_MEASURE cfg inp ctx).1.flags.weather_request_enabled
        = ctx.flags.weather_request_enabled) := by
  constructor
  · intro hs
    rw [measure_radio_ok cfg inp ctx hs, measure_weather_ok cfg inp ctx hs]
    refine ⟨?_, ?_, ?_, ?_, ?_, ?_⟩
    · intro h; rw [if_neg (by omega), if_pos h]
    · intro h; rw [if_pos h]
    · intro h1 h2; rw [if_neg (by omega), if_neg (by omega)]
    · intro h; rw [if_neg (by omega), if_pos h]
    · intro h; rw [if_pos h]
    · intro h1 h2; rw [if_neg (by omega), if_neg (by omega)]
  · intro hs
    rw [measure_flags, if_neg hs]
    exact ⟨rfl, rfl⟩

/-- Witness of C6: 1200 mV on the initial context keeps the radio gate enabled and
disables the reporting gate. -/
theorem measure_hysteresis_witness :
    (main_SPSWS_STATE_MEASURE cfg_sample (measure_inputs_ok 1200 100) ctx_zero).1.flags.radio_enabled
      = ctx_zero.flags.radio_enabled ∧
    (main_SPSWS_STATE_MEASURE cfg_sample (measure_inputs_ok 1200 100)
      ctx_zero).1.flags.weather_request_enabled = false :=
  have h := (measure_hysteresis cfg_sample (measure_inputs_ok 1200 100) ctx_zero).1 rfl
  ⟨h.2.2.1 (by decide) (by decide), h.2.2.2.1 (by decide)⟩

theorem bool_chain_true : ∀ l : List Bool,
    List.Chain' (fun a b : Bool => a = true → b = true) (true :: l) →
      l = List.replicate l.length true := by
  intro l
  induction l with
  | nil => intro _; rfl
  | cons b rest ih =>
    intro h
    rw [List.chain'_cons] at h
    have hb : b = true := h.1 rfl
    subst hb
    rw [List.length_cons, List.replicate_succ, ← ih h.2]

theorem bool_chain_split : ∀ l : List Bool,
    List.Chain' (fun a b : Bool => a = true → b = true) l →
      ∃ k, k ≤ l.length ∧ l = List.replicate k false ++ List.replicate (l.length - k) true := by
  intro l
  induction l with
  | nil => intro _; exact ⟨0, le_refl _, rfl⟩
  | cons a rest ih =>
    intro h
    cases a with
    | true =>
      refine ⟨0, Nat.zero_le _, ?_⟩
      have hrest := bool_chain_true rest h
      simp only [List.replicate_zero, List.nil_append, Nat.sub_zero, List.length_cons,
        List.replicate_succ]
      rw [← hrest]
    | false =>
      obtain ⟨k, hk, hl⟩ := ih (List.Chain'.tail h)
      refine ⟨k + 1, by simp only [List.length_cons]; omega, ?_⟩
      simp only [List.length_cons, List.replicate_succ, List.cons_append, Nat.add_sub_add_right]
      rw [← hl]

theorem measure_run_radio_chain (cfg : SPSWS_config_t) :
    ∀ (ins : List MEASURE_inputs) (ctx : SPSWS_context_t),
      (∀ i ∈ ins, i.vcap_mv.status = 0) →
      List.Chain' (fun a b : Int => a ≤ b) (ins.map (fun i => i.vcap_mv.generic_s32_1)) →
      List.Chain' (fun a b : Bool => a = true → b = true)
        ((measure_run cfg ctx ins).map (fun c => c.flags.radio_enabled)) := by
  intro ins
  induction ins with
  | nil => intro _ _ _; exact List.chain'_nil
  | cons i rest ih =>
    intro ctx hs hv
    cases rest with
    | nil => simp [measure_run]
    | cons j rest2 =>
      have hi : i.vcap_mv.status = 0 := hs i (List.mem_cons_self _ _)
      have hj : j.vcap_mv.status = 0 := hs j (List.mem_cons_of_mem _ (List.mem_cons_self _ _))
      simp only [List.map_cons, List.chain'_cons] at hv
      have hrec := ih (main_SPSWS_STATE_MEASURE cfg i ctx).1
        (fun x hx => hs x (List.mem_cons_of_mem _ hx))
        (by simp only [List.map_cons, List.chain'_cons]; exact hv.2)
      simp only [measure_run, List.map_cons, List.chain'_cons] at hrec ⊢
      refine ⟨?_, hrec⟩
      rw [measure_radio_ok cfg j _ hj, measure_radio_ok cfg i ctx hi]
      intro h
      have h1000 : ¬ i.vcap_mv.generic_s32_1 < 1000 := by
        intro hlt
        rw [if_neg (by omega), if_pos hlt] at h
        exact Bool.noConfusion h
      by_cases h1500 : j.vcap_mv.generic_s32_1 > 1500
      · rw [if_pos h1500]
      · rw [if_neg h1500, if_neg (by have := hv.1; omega)]
        exact h

/-- C7: for every non-decreasing sequence of supercap samples fed to the radio gate by
successive Measure steps, from any context, the gate output never goes from enabled to
disabled between two steps and goes from disabled to enabled at most once: the outputs
are `k` times disabled, then enabled to the end. For the samples 900, 1100, 1400, 1600
the outputs are disabled, disabled, disabled, enabled. -/
theorem radio_gate_no_chatter (cfg : SPSWS_config_t) (ctx : SPSWS_context_t)
    (ins : List MEASURE_inputs) :
    ((∀ i ∈ ins, i.vcap_mv.status = 0) →
      List.Chain' (fun a b : Int => a ≤ b) (ins.map (fun i => i.vcap_mv.generic_s32_1)) →
      List.Chain' (fun a b : Bool => a = true → b = true)
        ((measure_run cfg ctx ins).map (fun c => c.flags.radio_enabled)) ∧
      ∃ k, k ≤ ins.length ∧
        (measure_run cfg ctx ins).map (fun c => c.flags.radio_enabled) =
          List.replicate k false ++ List.replicate (ins.length - k) true) ∧
    (∀ i1 i2 i3 i4 : MEASURE_inputs,
      i1.vcap_mv = ⟨0, 900⟩ → i2.vcap_mv = ⟨0, 1100⟩ → i3.vcap_mv = ⟨0, 1400⟩ →
      i4.vcap_mv = ⟨0, 1600⟩ →
      (measure_run cfg ctx [i1, i2, i3, i4]).map (fun c => c.flags.radio_enabled) =
        [false, false, false, true]) := by
  constructor
  · intro hs hv
    have hchain := measure_run_radio_chain cfg ins ctx hs hv
    refine ⟨hchain, ?_⟩
    obtain ⟨k, hk, hl⟩ := bool_chain_split _ hchain
    have hlen : ∀ (l : List MEASURE_inputs) (c : SPSWS_context_t),
        (measure_run cfg c l).length = l.length := by
      intro l
      induction l with
      | nil => intro _; rfl
      | cons x xs ihx => intro c; simp only [measure_run, List.length_cons, ihx]
    simp only [List.length_map, hlen] at hk hl
    exact ⟨k, hk, hl⟩
  · intro i1 i2 i3 i4 h1 h2 h3 h4
    simp only [measure_run, List.map_cons, List.map_nil]
    rw [measure_radio_ok cfg i4 _ (by rw [h4]), measure_radio_ok cfg i3 _ (by rw [h3]),
      measure_radio_ok cfg i2 _ (by rw [h2]), measure_radio_ok cfg i1 _ (by rw [h1])]
    simp [h1, h2, h3, h4]

/-- Witness of C7: the samples 900, 1100, 1400, 1600 from the initial context. -/
theorem radio_gate_no_chatter_witness :
    ∃ k, k ≤ 4 ∧
      (measure_run cfg_sample ctx_zero
        [measure_inputs_ok 900 100, measure_inputs_ok 1100 100, measure_inputs_ok 1400 100,
          measure_inputs_ok 1600 100]).map (fun c => c.flags.radio_enabled) =
        List.replicate k false ++ List.replicate (4 - k) true :=
  ((radio_gate_no_chatter cfg_sample ctx_zero
    [measure_inputs_ok 900 100, measure_inputs_ok 1100 100, measure_inputs_ok 1400 100,
      measure_inputs_ok 1600 100]).1 (by decide) (by simp [measure_inputs_ok])).2

/-! ## Theorems: radio transaction -/

theorem mem_stack_error (e : Event) (b : ERROR_base_t) (s : Nat) (h : e ∈ stack_error b s) :
    e = Event.ERROR_stack_add (ERROR_code_t.base_plus_status b s) := by
  unfold stack_error at h
  split_ifs at h
  · simpa using h
  · simp at h

theorem mem_nvm_write (e : Event) (st a d : Nat) (h : e ∈ nvm_write st a d) :
    e = Event.NVM_write_byte a d ∨
      e = Event.ERROR_stack_add (ERROR_code_t.base_plus_status ERROR_base_t.ERROR_BASE_NVM st) := by
  unfold nvm_write at h
  rcases List.mem_cons.mp h with h | h
  · exact Or.inl h
  · exact Or.inr (mem_stack_error _ _ _ h)

theorem mem_update_nvm_data_downlink (cfg : SPSWS_config_t) (inp : NVM_data_inputs)
    (c : SPSWS_context_t) (e : Event)
    (h : e ∈ _SPSWS_update_nvm_data cfg inp SPSWS_nvm_data_t.SPSWS_NVM_DATA_LAST_DOWNLINK c) :
    (∃ a d, e = Event.NVM_write_byte a d ∧
      a ∈ [cfg.nvm_address.NVM_ADDRESS_LAST_DOWNLINK_YEAR + 0,
        cfg.nvm_address.NVM_ADDRESS_LAST_DOWNLINK_YEAR + 1,
        cfg.nvm_address.NVM_ADDRESS_LAST_DOWNLINK_MONTH,
        cfg.nvm_address.NVM_ADDRESS_LAST_DOWNLINK_DATE,
        cfg.nvm_address.NVM_ADDRESS_LAST_DOWNLINK_STATUS]) ∨
    (∃ b s, e = Event.ERROR_stack_add (ERROR_code_t.base_plus_status b s)) := by
  simp only [_SPSWS_update_nvm_data, List.mem_append] at h
  rcases h with h | (((((h | h) | h) | h) | h))
  · exact Or.inr ⟨_, _, mem_stack_error _ _ _ h⟩
  all_goals
    rcases mem_nvm_write _ _ _ _ h with h | h
    · exact Or.inl ⟨_, _, h, by simp⟩
    · exact Or.inr ⟨_, _, h⟩

theorem mem_send_sigfox_message_close (inp : SIGFOX_EP_API_inputs) (e : Event)
    (h : e ∈ send_sigfox_message_close inp) :
    e = Event.SIGFOX_EP_API_close ∨ ∃ s, e = Event.SIGFOX_ERROR_stack s := by
  simp only [send_sigfox_message_close, SIGFOX_EP_API_check_status, send_sigfox_message_errors] at h
  split_ifs at h
  · simp at h
    rcases h with h | h | h
    · exact Or.inl h
    · exact Or.inr ⟨_, h⟩
    · exact Or.inl h
  · simp at h
    exact Or.inl h

theorem send_sigfox_message_downlink (cfg : SPSWS_config_t) (inp : SIGFOX_EP_API_inputs)
    (msg : SIGFOX_EP_API_application_message_t) (ctx : SPSWS_context_t)
    (hr : ctx.flags.radio_enabled = true) (ho : inp.open_status = 0)
    (hsend : inp.send_application_message_status = 0) (hb : msg.bidirectional_flag = true)
    (hdl : inp.dl_frame ≠ 0) (hget : inp.get_dl_payload_status = 0) :
    _SPSWS_send_sigfox_message cfg inp msg ctx =
      ({ (parse_dl_payload cfg inp
            { ctx with status := { ctx.status with daily_downlink := true } }).1 with
          flags := { (parse_dl_payload cfg inp
            { ctx with status := { ctx.status with daily_downlink := true } }).1.flags with
            downlink_request := false } },
        [Event.SIGFOX_EP_API_open, Event.SIGFOX_EP_API_send_application_message msg,
          Event.SIGFOX_EP_API_get_message_status, Event.SIGFOX_EP_API_get_dl_payload] ++
        (parse_dl_payload cfg inp
            { ctx with status := { ctx.status with daily_downlink := true } }).2 ++
        _SPSWS_update_nvm_data cfg inp.nvm_data SPSWS_nvm_data_t.SPSWS_NVM_DATA_LAST_DOWNLINK
          (parse_dl_payload cfg inp
            { ctx with status := { ctx.status with daily_downlink := true } }).1 ++
        send_sigfox_message_close inp) := by
  simp [_SPSWS_send_sigfox_message, SIGFOX_EP_API_check_status, hr, ho, hsend, hb, hdl, hget]


/-! ## Theorems: downlink dispatch -/

theorem parse_dl_payload_store (cfg : SPSWS_config_t) (inp : SIGFOX_EP_API_inputs)
    (c : SPSWS_context_t) (hop : dl_payload_op_code inp.dl_payload = 2) :
    parse_dl_payload cfg inp c =
      _SPSWS_store_weather_data_period cfg
        (inp.nvm_data.nvm_write_status cfg.nvm_address.NVM_ADDRESS_WEATHER_DATA_PERIOD)
        (dl_payload_weather_data_period inp.dl_payload) c := by
  simp [parse_dl_payload, hop, SIGFOX_EP_DL_OP_CODE_NOP, SIGFOX_EP_DL_OP_CODE_RESET,
    SIGFOX_EP_DL_OP_CODE_SET_WEATHER_DATA_PERIOD]

theorem store_weather_data_period_reject (cfg : SPSWS_config_t) (st p : Nat)
    (c : SPSWS_context_t) (hp : 6 ≤ p) :
    _SPSWS_store_weather_data_period cfg st p c =
      (c, [Event.ERROR_stack_add ERROR_code_t.ERROR_SIGFOX_EP_DL_WEATHER_DATA_PERIOD]) := by
  unfold _SPSWS_store_weather_data_period SIGFOX_EP_DL_WEATHER_DATA_PERIOD_LAST
  rw [if_neg (by omega)]

theorem store_weather_data_period_accept (cfg : SPSWS_config_t) (st p : Nat)
    (c : SPSWS_context_t) (hp : p < 6) :
    _SPSWS_store_weather_data_period cfg st p c =
      ({ c with weather_data_period := p },
        nvm_write st cfg.nvm_address.NVM_ADDRESS_WEATHER_DATA_PERIOD p) := by
  unfold _SPSWS_store_weather_data_period SIGFOX_EP_DL_WEATHER_DATA_PERIOD_LAST
  rw [if_pos hp]

/-- C8: in a bidirectional transaction that receives a downlink frame with op-code 2 and
a selector `p` in 0..5, `_SPSWS_send_sigfox_message` sets `weather_data_period` to `p` and
calls `NVM_write_byte(NVM_ADDRESS_WEATHER_DATA_PERIOD, p)`; the interval is then entry `p`
of the table 3600, 1800, 1200, 900, 720, 600, and the range check stacks no error. -/
theorem downlink_set_weather_data_period (cfg : SPSWS_config_t) (inp : SIGFOX_EP_API_inputs)
    (msg : SIGFOX_EP_API_application_message_t) (ctx : SPSWS_context_t) (p : Nat)
    (hr : ctx.flags.radio_enabled = true) (ho : inp.open_status = 0)
    (hsend : inp.send_application_message_status = 0) (hb : msg.bidirectional_flag = true)
    (hdl : inp.dl_frame ≠ 0) (hget : inp.get_dl_payload_status = 0)
    (hop : dl_payload_op_code inp.dl_payload = 2)
    (hp : dl_payload_weather_data_period inp.dl_payload = p) (hlt : p < 6) :
    (_SPSWS_send_sigfox_message cfg inp msg ctx).1.weather_data_period = p ∧
    Event.NVM_write_byte cfg.nvm_address.NVM_ADDRESS_WEATHER_DATA_PERIOD p ∈
      (_SPSWS_send_sigfox_message cfg inp msg ctx).2 ∧
    SPSWS_WEATHER_DATA_PERIOD_SECONDS = [3600, 1800, 1200, 900, 720, 600] ∧
    SPSWS_WEATHER_DATA_PERIOD_SECONDS[(_SPSWS_send_sigfox_message cfg inp msg ctx).1.weather_data_period]? =
      [3600, 1800, 1200, 900, 720, 600][p]? ∧
    Event.ERROR_stack_add ERROR_code_t.ERROR_SIGFOX_EP_DL_WEATHER_DATA_PERIOD ∉
      (_SPSWS_send_sigfox_message cfg inp msg ctx).2 ∧
    (∀ c : SPSWS_context_t, parse_dl_payload cfg inp c =
      ({ c with weather_data_period := p },
        nvm_write (inp.nvm_data.nvm_write_status cfg.nvm_address.NVM_ADDRESS_WEATHER_DATA_PERIOD)
          cfg.nvm_address.NVM_ADDRESS_WEATHER_DATA_PERIOD p)) := by
  have hparse : ∀ c : SPSWS_context_t, parse_dl_payload cfg inp c =
      ({ c with weather_data_period := p },
        nvm_write (inp.nvm_data.nvm_write_status cfg.nvm_address.NVM_ADDRESS_WEATHER_DATA_PERIOD)
          cfg.nvm_address.NVM_ADDRESS_WEATHER_DATA_PERIOD p) := by
    intro c
    rw [parse_dl_payload_store cfg inp c hop, hp, store_weather_data_period_accept _ _ _ _ hlt]
  rw [send_sigfox_message_downlink cfg inp msg ctx hr ho hsend hb hdl hget, hparse]
  refine ⟨rfl, ?_, rfl, rfl, ?_, hparse⟩
  · simp [nvm_write]
  · intro hmem
    simp only [List.mem_append] at hmem
    rcases hmem with ((hmem | hmem) | hmem) | hmem
    · simp at hmem
    · rcases mem_nvm_write _ _ _ _ hmem with h | h <;> simp at h
    · rcases mem_update_nvm_data_downlink _ _ _ _ hmem with ⟨a, d, h, _⟩ | ⟨b, s, h⟩
      · exact Event.noConfusion h
      · simp at h
    · rcases mem_send_sigfox_message_close _ _ hmem with h | ⟨s, h⟩ <;> exact Event.noConfusion h

/-- Witness of C8: the downlink frame `[2, 1]` selects the period of 1800 seconds. -/
theorem downlink_set_weather_data_period_witness :
    (_SPSWS_send_sigfox_message cfg_sample (sigfox_inputs_dl [2, 1]) message_bidirectional
      ctx_zero).1.weather_data_period = 1 ∧
    SPSWS_WEATHER_DATA_PERIOD_SECONDS[(_SPSWS_send_sigfox_message cfg_sample
      (sigfox_inputs_dl [2, 1]) message_bidirectional ctx_zero).1.weather_data_period]? =
        some 1800 :=
  have h := downlink_set_weather_data_period cfg_sample (sigfox_inputs_dl [2, 1])
    message_bidirectional ctx_zero 1 rfl rfl rfl rfl (by decide) rfl (by decide) (by decide)
    (by decide)
  ⟨h.1, h.2.2.2.1⟩

/-- C9: in a bidirectional transaction that receives a downlink frame with op-code 2 and
a selector `p ≥ 6`, the dispatch leaves the context as it is, `weather_data_period`
included, and its only call is `ERROR_stack_add(ERROR_SIGFOX_EP_DL_WEATHER_DATA_PERIOD)`:
no `NVM_write_byte`. In the whole of `_SPSWS_send_sigfox_message` that call stands between
the read of the downlink frame and the update of the last-downlink time stamp, and no
byte is written at `NVM_ADDRESS_WEATHER_DATA_PERIOD` when this address is none of the five
addresses of the time stamp. -/
theorem downlink_reject_weather_data_period (cfg : SPSWS_config_t) (inp : SIGFOX_EP_API_inputs)
    (msg : SIGFOX_EP_API_application_message_t) (ctx : SPSWS_context_t) (p : Nat)
    (hr : ctx.flags.radio_enabled = true) (ho : inp.open_status = 0)
    (hsend : inp.send_application_message_status = 0) (hb : msg.bidirectional_flag = true)
    (hdl : inp.dl_frame ≠ 0) (hget : inp.get_dl_payload_status = 0)
    (hop : dl_payload_op_code inp.dl_payload = 2)
    (hp : dl_payload_weather_data_period inp.dl_payload = p) (hge : 6 ≤ p) :
    (∀ (st : Nat) (c : SPSWS_context_t), _SPSWS_store_weather_data_period cfg st p c =
      (c, [Event.ERROR_stack_add ERROR_code_t.ERROR_SIGFOX_EP_DL_WEATHER_DATA_PERIOD])) ∧
    (∀ c : SPSWS_context_t, parse_dl_payload cfg inp c =
      (c, [Event.ERROR_stack_add ERROR_code_t.ERROR_SIGFOX_EP_DL_WEATHER_DATA_PERIOD])) ∧
    (_SPSWS_send_sigfox_message cfg inp msg ctx).1.weather_data_period = ctx.weather_data_period ∧
    (_SPSWS_send_sigfox_message cfg inp msg ctx).2 =
      [Event.SIGFOX_EP_API_open, Event.SIGFOX_EP_API_send_application_message msg,
          Event.SIGFOX_EP_API_get_message_status, Event.SIGFOX_EP_API_get_dl_payload] ++
        [Event.ERROR_stack_add ERROR_code_t.ERROR_SIGFOX_EP_DL_WEATHER_DATA_PERIOD] ++
        _SPSWS_update_nvm_data cfg inp.nvm_data SPSWS_nvm_data_t.SPSWS_NVM_DATA_LAST_DOWNLINK
          { ctx with status := { ctx.status with daily_downlink := true } } ++
        send_sigfox_message_close inp ∧
    (cfg.nvm_address.NVM_ADDRESS_WEATHER_DATA_PERIOD ∉
        [cfg.nvm_address.NVM_ADDRESS_LAST_DOWNLINK_YEAR + 0,
          cfg.nvm_address.NVM_ADDRESS_LAST_DOWNLINK_YEAR + 1,
          cfg.nvm_address.NVM_ADDRESS_LAST_DOWNLINK_MONTH,
          cfg.nvm_address.NVM_ADDRESS_LAST_DOWNLINK_DATE,
          cfg.nvm_address.NVM_ADDRESS_LAST_DOWNLINK_STATUS] →
      ∀ d : Nat, Event.NVM_write_byte cfg.nvm_address.NVM_ADDRESS_WEATHER_DATA_PERIOD d ∉
        (_SPSWS_send_sigfox_message cfg inp msg ctx).2) := by
  have hparse : ∀ c : SPSWS_context_t, parse_dl_payload cfg inp c =
      (c, [Event.ERROR_stack_add ERROR_code_t.ERROR_SIGFOX_EP_DL_WEATHER_DATA_PERIOD]) := by
    intro c
    rw [parse_dl_payload_store cfg inp c hop, hp, store_weather_data_period_reject _ _ _ _ hge]
  rw [send_sigfox_message_downlink cfg inp msg ctx hr ho hsend hb hdl hget, hparse]
  refine ⟨fun st c => store_weather_data_period_reject cfg st p c hge, hparse, rfl, rfl, ?_⟩
  intro hdist d hmem
  simp only [List.mem_append] at hmem
  rcases hmem with ((hmem | hmem) | hmem) | hmem
  · simp at hmem
  · simp at hmem
  · rcases mem_update_nvm_data_downlink _ _ _ _ hmem with ⟨a, d2, h, ha⟩ | ⟨b, s, h⟩
    · have ha2 : cfg.nvm_address.NVM_ADDRESS_WEATHER_DATA_PERIOD = a := by
        injection h
      exact hdist (ha2 ▸ ha)
    · exact Event.noConfusion h
  · rcases mem_send_sigfox_message_close _ _ hmem with h | ⟨s, h⟩ <;> exact Event.noConfusion h

/-- Witness of C9: the downlink frame `[2, 9]` leaves the period of the context. -/
theorem downlink_reject_weather_data_period_witness :
    (_SPSWS_send_sigfox_message cfg_sample (sigfox_inputs_dl [2, 9]) message_bidirectional
      ctx_zero).1.weather_data_period = ctx_zero.weather_data_period ∧
    ∀ d : Nat, Event.NVM_write_byte cfg_sample.nvm_address.NVM_ADDRESS_WEATHER_DATA_PERIOD d ∉
      (_SPSWS_send_sigfox_message cfg_sample (sigfox_inputs_dl [2, 9]) message_bidirectional
        ctx_zero).2 :=
  have h := downlink_reject_weather_data_period cfg_sample (sigfox_inputs_dl [2, 9])
    message_bidirectional ctx_zero 9 rfl rfl rfl rfl (by decide) rfl (by decide) (by decide)
    (by decide)
  ⟨h.2.2.1, h.2.2.2.2 (by decide)⟩

/-- C10: in a bidirectional transaction that receives a downlink frame, the dispatch of
op-code 0 leaves the context as it is and calls nothing, and the dispatch of an op-code
other than 0, 1 and 2 leaves the context as it is and its only call is
`ERROR_stack_add(ERROR_DL_OP_CODE)`. In both cases `_SPSWS_send_sigfox_message` changes
neither `weather_data_period` nor `reset_request`. -/
theorem downlink_nop_and_unknown (cfg : SPSWS_config_t) (inp : SIGFOX_EP_API_inputs)
    (msg : SIGFOX_EP_API_application_message_t) (ctx : SPSWS_context_t)
    (hr : ctx.flags.radio_enabled = true) (ho : inp.open_status = 0)
    (hsend : inp.send_application_message_status = 0) (hb : msg.bidirectional_flag = true)
    (hdl : inp.dl_frame ≠ 0) (hget : inp.get_dl_payload_status = 0) :
    (dl_payload_op_code inp.dl_payload = 0 →
      (∀ c : SPSWS_context_t, parse_dl_payload cfg inp c = (c, [])) ∧
      (_SPSWS_send_sigfox_message cfg inp msg ctx).1.weather_data_period = ctx.weather_data_period ∧
      (_SPSWS_send_sigfox_message cfg inp msg ctx).1.flags.reset_request = ctx.flags.reset_request ∧
      (_SPSWS_send_sigfox_message cfg inp msg ctx).2 =
        [Event.SIGFOX_EP_API_open, Event.SIGFOX_EP_API_send_application_message msg,
          Event.SIGFOX_EP_API_get_message_status, Event.SIGFOX_EP_API_get_dl_payload] ++
        _SPSWS_update_nvm_data cfg inp.nvm_data SPSWS_nvm_data_t.SPSWS_NVM_DATA_LAST_DOWNLINK
          { ctx with status := { ctx.status with daily_downlink := true } } ++
        send_sigfox_message_close inp) ∧
    (dl_payload_op_code inp.dl_payload ≠ 0 → dl_payload_op_code inp.dl_payload ≠ 1 →
      dl_payload_op_code inp.dl_payload ≠ 2 →
      (∀ c : SPSWS_context_t, parse_dl_payload cfg inp c =
        (c, [Event.ERROR_stack_add ERROR_code_t.ERROR_DL_OP_CODE])) ∧
      (_SPSWS_send_sigfox_message cfg inp msg ctx).1.weather_data_period = ctx.weather_data_period ∧
      (_SPSWS_send_sigfox_message cfg inp msg ctx).1.flags.reset_request = ctx.flags.reset_request ∧
      (_SPSWS_send_sigfox_message cfg inp msg ctx).2 =
        [Event.SIGFOX_EP_API_open, Event.SIGFOX_EP_API_send_application_message msg,
          Event.SIGFOX_EP_API_get_message_status, Event.SIGFOX_EP_API_get_dl_payload] ++
        [Event.ERROR_stack_add ERROR_code_t.ERROR_DL_OP_CODE] ++
        _SPSWS_update_nvm_data cfg inp.nvm_data SPSWS_nvm_data_t.SPSWS_NVM_DATA_LAST_DOWNLINK
          { ctx with status := { ctx.status with daily_downlink := true } } ++
        send_sigfox_message_close inp) := by
  constructor
  · intro hop
    have hparse : ∀ c : SPSWS_context_t, parse_dl_payload cfg inp c = (c, []) := by
      intro c
      simp [parse_dl_payload, hop, SIGFOX_EP_DL_OP_CODE_NOP]
    rw [send_sigfox_message_downlink cfg inp msg ctx hr ho hsend hb hdl hget, hparse]
    exact ⟨hparse, rfl, rfl, by simp⟩
  · intro h0 h1 h2
    have hparse : ∀ c : SPSWS_context_t, parse_dl_payload cfg inp c =
        (c, [Event.ERROR_stack_add ERROR_code_t.ERROR_DL_OP_CODE]) := by
      intro c
      simp [parse_dl_payload, h0, h1, h2, SIGFOX_EP_DL_OP_CODE_NOP, SIGFOX_EP_DL_OP_CODE_RESET,
        SIGFOX_EP_DL_OP_CODE_SET_WEATHER_DATA_PERIOD]
    rw [send_sigfox_message_downlink cfg inp msg ctx hr ho hsend hb hdl hget, hparse]
    exact ⟨hparse, rfl, rfl, rfl⟩

/-- Witness of C10: the downlink frame `[7]` stacks `ERROR_DL_OP_CODE` and changes neither
the period nor the reset request. -/
theorem downlink_nop_and_unknown_witness :
    parse_dl_payload cfg_sample (sigfox_inputs_dl [7]) ctx_zero =
      (ctx_zero, [Event.ERROR_stack_add ERROR_code_t.ERROR_DL_OP_CODE]) ∧
    (_SPSWS_send_sigfox_message cfg_sample (sigfox_inputs_dl [7]) message_bidirectional
      ctx_zero).1.flags.reset_request = ctx_zero.flags.reset_request :=
  have h := (downlink_nop_and_unknown cfg_sample (sigfox_inputs_dl [7]) message_bidirectional
    ctx_zero rfl rfl rfl rfl (by decide) rfl).2 (by decide) (by decide) (by decide)
  ⟨h.1 ctx_zero, h.2.2.1⟩


/-! ## Theorems: software reset -/

theorem reset_not_mem_stack_error (b : ERROR_base_t) (s : Nat) :
    Event.PWR_software_reset ∉ stack_error b s := by
  intro h
  have := mem_stack_error _ _ _ h
  exact Event.noConfusion this

theorem reset_not_mem_nvm_write (st a d : Nat) :
    Event.PWR_software_reset ∉ nvm_write st a d := by
  intro h
  rcases mem_nvm_write _ _ _ _ h with h | h <;> exact Event.noConfusion h

theorem reset_not_mem_update_nvm_data (cfg : SPSWS_config_t) (inp : NVM_data_inputs)
    (k : SPSWS_nvm_data_t) (c : SPSWS_context_t) :
    Event.PWR_software_reset ∉ _SPSWS_update_nvm_data cfg inp k c := by
  cases k <;>
    simp [_SPSWS_update_nvm_data, reset_not_mem_stack_error, reset_not_mem_nvm_write]

theorem parse_dl_payload_trace (cfg : SPSWS_config_t) (inp : SIGFOX_EP_API_inputs)
    (c : SPSWS_context_t) : Event.PWR_software_reset ∉ (parse_dl_payload cfg inp c).2 := by
  unfold parse_dl_payload _SPSWS_store_weather_data_period
  simp only []
  split_ifs <;> simp [reset_not_mem_nvm_write]

theorem reset_not_mem_close (inp : SIGFOX_EP_API_inputs) :
    Event.PWR_software_reset ∉ send_sigfox_message_close inp := by
  intro h
  rcases mem_send_sigfox_message_close _ _ h with h | ⟨s, h⟩ <;> exact Event.noConfusion h

theorem reset_not_mem_send (cfg : SPSWS_config_t) (inp : SIGFOX_EP_API_inputs)
    (msg : SIGFOX_EP_API_application_message_t) (c : SPSWS_context_t) :
    Event.PWR_software_reset ∉ (_SPSWS_send_sigfox_message cfg inp msg c).2 := by
  unfold _SPSWS_send_sigfox_message SIGFOX_EP_API_check_status send_sigfox_message_errors
  simp only []
  split_ifs <;>
    simp [reset_not_mem_update_nvm_data, reset_not_mem_close, parse_dl_payload_trace]


theorem reset_not_mem_set_clock (inp : SET_CLOCK_inputs) (d : Nat) (c : SPSWS_context_t) :
    Event.PWR_software_reset ∉ (_SPSWS_set_clock inp d c).2 := by
  unfold _SPSWS_set_clock
  simp only []
  split_ifs <;> simp [reset_not_mem_stack_error]

theorem reset_not_mem_final_temperature (math : MATH_api) (m : SPSWS_measurement_t) :
    Event.PWR_software_reset ∉ (final_temperature math m).2 := by
  unfold final_temperature
  simp only []
  split_ifs <;> simp [reset_not_mem_stack_error]

theorem reset_not_mem_final_median (math : MATH_api) (m : SPSWS_measurement_t) (e : Nat)
    (conv : Int → Nat) : Event.PWR_software_reset ∉ (final_median math m e conv).2 := by
  unfold final_median
  simp only []
  split_ifs <;> simp [reset_not_mem_stack_error]

theorem reset_not_mem_final_uv_index (math : MATH_api) (m : SPSWS_measurement_t) :
    Event.PWR_software_reset ∉ (final_uv_index math m).2 := by
  unfold final_uv_index
  simp only []
  split_ifs <;> simp [reset_not_mem_stack_error]

theorem reset_not_mem_final_vcap (m : SPSWS_measurement_t) :
    Event.PWR_software_reset ∉ (final_vcap m).2 := by
  unfold final_vcap
  simp only []
  split_ifs <;> simp

theorem reset_not_mem_compute (math : MATH_api) (c : SPSWS_context_t) :
    Event.PWR_software_reset ∉ (_SPSWS_compute_final_measurements math c).2 := by
  simp [_SPSWS_compute_final_measurements, reset_not_mem_final_temperature,
    reset_not_mem_final_median, reset_not_mem_final_uv_index, reset_not_mem_final_vcap]

theorem reset_not_mem_additional (cfg : SPSWS_config_t) (rtc : RTC_config_t)
    (inp : ADDITIONAL_REQUESTS_inputs) (c : SPSWS_context_t) :
    Event.PWR_software_reset ∉ (_SPSWS_update_additional_requests cfg rtc inp c).2 := by
  simp [_SPSWS_update_additional_requests, reset_not_mem_stack_error]

theorem reset_not_mem_measure (cfg : SPSWS_config_t) (inp : MEASURE_inputs)
    (c : SPSWS_context_t) :
    Event.PWR_software_reset ∉ (main_SPSWS_STATE_MEASURE cfg inp c).2 := by
  unfold main_SPSWS_STATE_MEASURE
  simp only []
  split_ifs <;> simp [reset_not_mem_stack_error]

theorem reset_not_mem_weather (cfg : SPSWS_config_t) (math : MATH_api)
    (inp : SIGFOX_EP_API_inputs) (c : SPSWS_context_t) :
    Event.PWR_software_reset ∉ (main_SPSWS_STATE_WEATHER cfg math inp c).2 := by
  simp [main_SPSWS_STATE_WEATHER, reset_not_mem_compute, reset_not_mem_send]

theorem reset_not_mem_startup (cfg : SPSWS_config_t) (inp : MAIN_inputs) (c : SPSWS_context_t) :
    Event.PWR_software_reset ∉ (main_SPSWS_STATE_STARTUP cfg inp c).2 := by
  simp [main_SPSWS_STATE_STARTUP, reset_not_mem_stack_error, reset_not_mem_set_clock,
    reset_not_mem_send]

theorem reset_not_mem_monitoring (cfg : SPSWS_config_t) (inp : MAIN_inputs)
    (c : SPSWS_context_t) :
    Event.PWR_software_reset ∉ (main_SPSWS_STATE_MONITORING cfg inp c).2 := by
  unfold main_SPSWS_STATE_MONITORING
  split_ifs <;> simp [reset_not_mem_send]

theorem reset_not_mem_geoloc (cfg : SPSWS_config_t) (inp : MAIN_inputs) (c : SPSWS_context_t) :
    Event.PWR_software_reset ∉ (main_SPSWS_STATE_GEOLOC cfg inp c).2 := by
  unfold main_SPSWS_STATE_GEOLOC
  split_ifs <;>
    simp [reset_not_mem_send, reset_not_mem_stack_error, reset_not_mem_update_nvm_data]

theorem reset_not_mem_error_stack (cfg : SPSWS_config_t) (inp : MAIN_inputs)
    (c : SPSWS_context_t) :
    Event.PWR_software_reset ∉ (main_SPSWS_STATE_ERROR_STACK cfg inp c).2 := by
  unfold main_SPSWS_STATE_ERROR_STACK
  split_ifs <;> simp [reset_not_mem_send]

theorem reset_not_mem_rtc_calibration (cfg : SPSWS_config_t) (inp : MAIN_inputs) (m : main_t) :
    Event.PWR_software_reset ∉ (main_SPSWS_STATE_RTC_CALIBRATION cfg inp m).2 := by
  unfold main_SPSWS_STATE_RTC_CALIBRATION
  simp only []
  split_ifs <;> simp [reset_not_mem_stack_error, reset_not_mem_update_nvm_data]

theorem reset_not_mem_task_end (inp : MAIN_inputs) (c : SPSWS_context_t) :
    Event.PWR_software_reset ∉ (main_SPSWS_STATE_TASK_END inp c).2 := by
  simp [main_SPSWS_STATE_TASK_END, reset_not_mem_set_clock]

theorem reset_not_mem_task_check (cfg : SPSWS_config_t) (rtc : RTC_config_t) (inp : MAIN_inputs)
    (c : SPSWS_context_t) :
    Event.PWR_software_reset ∉ (main_SPSWS_STATE_TASK_CHECK cfg rtc inp c).2 := by
  unfold main_SPSWS_STATE_TASK_CHECK
  generalize task_check_requests inp.uptime c = c1
  simp only []
  split_ifs
  · intro h
    simp only [List.mem_append, List.mem_cons] at h
    rcases h with ((h | h) | h | h) | h
    · exact reset_not_mem_additional _ _ _ _ h
    · exact reset_not_mem_update_nvm_data _ _ _ _ h
    · exact Event.noConfusion h
    · exact reset_not_mem_stack_error _ _ h
    · exact reset_not_mem_set_clock _ _ _ h
  · exact reset_not_mem_additional _ _ _ _
  · exact List.not_mem_nil _
  · exact List.not_mem_nil _

theorem main_step_reset_iff (cfg : SPSWS_config_t) (rtc : RTC_config_t) (inp : MAIN_inputs)
    (m : main_t) :
    Event.PWR_software_reset ∈ (main_step cfg rtc inp m).2 ↔
      m.spsws_ctx.state = SPSWS_state_t.SPSWS_STATE_SLEEP ∧
        m.spsws_ctx.flags.reset_request = true := by
  unfold main_step
  cases hs : m.spsws_ctx.state <;>
    simp [reset_not_mem_startup, reset_not_mem_measure, reset_not_mem_weather,
      reset_not_mem_monitoring, reset_not_mem_geoloc, reset_not_mem_error_stack,
      reset_not_mem_rtc_calibration, reset_not_mem_task_end, reset_not_mem_task_check,
      main_SPSWS_STATE_SLEEP]
  split_ifs with h <;> simp_all


theorem parse_dl_payload_keeps_reset (cfg : SPSWS_config_t) (inp : SIGFOX_EP_API_inputs)
    (c : SPSWS_context_t) (h : c.flags.reset_request = true) :
    (parse_dl_payload cfg inp c).1.flags.reset_request = true := by
  unfold parse_dl_payload _SPSWS_store_weather_data_period
  simp only []
  split_ifs <;> first | exact h | rfl

theorem send_keeps_reset (cfg : SPSWS_config_t) (inp : SIGFOX_EP_API_inputs)
    (msg : SIGFOX_EP_API_application_message_t) (c : SPSWS_context_t)
    (h : c.flags.reset_request = true) :
    (_SPSWS_send_sigfox_message cfg inp msg c).1.flags.reset_request = true := by
  unfold _SPSWS_send_sigfox_message SIGFOX_EP_API_check_status
  simp only []
  split_ifs <;> first | exact h | exact parse_dl_payload_keeps_reset _ _ _ h

theorem additional_keeps_reset (cfg : SPSWS_config_t) (rtc : RTC_config_t)
    (inp : ADDITIONAL_REQUESTS_inputs) (c : SPSWS_context_t) :
    (_SPSWS_update_additional_requests cfg rtc inp c).1.flags.reset_request
      = c.flags.reset_request := by
  unfold _SPSWS_update_additional_requests
  simp only []
  split_ifs <;> rfl

theorem task_check_requests_keeps_reset (u : Nat) (c : SPSWS_context_t) :
    (task_check_requests u c).flags.reset_request = c.flags.reset_request := by
  unfold task_check_requests
  simp only []
  split_ifs <;> rfl

theorem measure_keeps_reset (cfg : SPSWS_config_t) (inp : MEASURE_inputs)
    (c : SPSWS_context_t) :
    (main_SPSWS_STATE_MEASURE cfg inp c).1.flags.reset_request = c.flags.reset_request := by
  rw [measure_flags]
  unfold vcap_hysteresis
  simp only []
  split_ifs <;> rfl

theorem monitoring_keeps_reset (cfg : SPSWS_config_t) (inp : MAIN_inputs) (c : SPSWS_context_t)
    (h : c.flags.reset_request = true) :
    (main_SPSWS_STATE_MONITORING cfg inp c).1.flags.reset_request = true := by
  by_cases hreq : c.flags.monitoring_request ≠ false
  · rw [main_SPSWS_STATE_MONITORING, if_pos hreq]
    exact send_keeps_reset _ _ _ _ h
  · rw [main_SPSWS_STATE_MONITORING, if_neg hreq]
    exact h

theorem geoloc_keeps_reset (cfg : SPSWS_config_t) (inp : MAIN_inputs) (c : SPSWS_context_t)
    (h : c.flags.reset_request = true) :
    (main_SPSWS_STATE_GEOLOC cfg inp c).1.flags.reset_request = true := by
  by_cases hreq : c.flags.geoloc_request ≠ false
  · rw [main_SPSWS_STATE_GEOLOC, if_pos hreq]
    exact send_keeps_reset _ _ _ _ h
  · rw [main_SPSWS_STATE_GEOLOC, if_neg hreq]
    exact h

theorem error_stack_keeps_reset (cfg : SPSWS_config_t) (inp : MAIN_inputs) (c : SPSWS_context_t)
    (h : c.flags.reset_request = true) :
    (main_SPSWS_STATE_ERROR_STACK cfg inp c).1.flags.reset_request = true := by
  by_cases hreq : c.flags.error_stack_request ≠ false
  · rw [main_SPSWS_STATE_ERROR_STACK, if_pos hreq]
    by_cases hempty : inp.error_stack.stack_is_empty = 0
    · simp only [if_pos hempty]
      exact send_keeps_reset _ _ _ _ h
    · simp only [if_neg hempty]
      exact h
  · rw [main_SPSWS_STATE_ERROR_STACK, if_neg hreq]
    exact h

theorem rtc_calibration_keeps_reset (cfg : SPSWS_config_t) (inp : MAIN_inputs) (m : main_t) :
    (main_SPSWS_STATE_RTC_CALIBRATION cfg inp m).1.spsws_ctx.flags.reset_request
      = m.spsws_ctx.flags.reset_request := by
  by_cases hreq : m.spsws_ctx.flags.rtc_calibration_request ≠ false
  · rw [main_SPSWS_STATE_RTC_CALIBRATION]
    simp only [if_pos hreq]
    by_cases hpor : m.por_flag ≠ false
    · simp only [if_pos hpor]
    · simp only [if_neg hpor]
  · rw [main_SPSWS_STATE_RTC_CALIBRATION]
    simp only [if_neg hreq]

theorem task_check_keeps_reset (cfg : SPSWS_config_t) (rtc : RTC_config_t) (inp : MAIN_inputs)
    (c : SPSWS_context_t) :
    (main_SPSWS_STATE_TASK_CHECK cfg rtc inp c).1.flags.reset_request
      = c.flags.reset_request := by
  unfold main_SPSWS_STATE_TASK_CHECK
  have h1 := task_check_requests_keeps_reset inp.uptime c
  generalize task_check_requests inp.uptime c = c1 at h1
  simp only []
  split_ifs
  · show (_SPSWS_update_additional_requests _ _ _ _).1.flags.reset_request = _
    rw [additional_keeps_reset]; exact h1
  · rw [additional_keeps_reset]; exact h1
  · exact h1
  · exact h1

theorem main_step_keeps_reset (cfg : SPSWS_config_t) (rtc : RTC_config_t) (inp : MAIN_inputs)
    (m m2 : main_t) (hstep : (main_step cfg rtc inp m).1 = some m2)
    (h : m.spsws_ctx.flags.reset_request = true) :
    m2.spsws_ctx.flags.reset_request = true := by
  unfold main_step at hstep
  cases hs : m.spsws_ctx.state <;> rw [hs] at hstep <;>
    simp only [Option.some.injEq] at hstep <;> try subst hstep
  · exact send_keeps_reset _ _ _ _ h
  · show (main_SPSWS_STATE_MEASURE cfg inp.measure m.spsws_ctx).1.flags.reset_request = true
    rw [measure_keeps_reset]; exact h
  · exact send_keeps_reset _ _ _ _ h
  · exact monitoring_keeps_reset _ _ _ h
  · exact geoloc_keeps_reset _ _ _ h
  · exact error_stack_keeps_reset _ _ _ h
  · show (main_SPSWS_STATE_RTC_CALIBRATION cfg inp m).1.spsws_ctx.flags.reset_request = true
    rw [rtc_calibration_keeps_reset]; exact h
  · exact h
  · show (main_SPSWS_STATE_TASK_CHECK cfg rtc inp m.spsws_ctx).1.flags.reset_request = true
    rw [task_check_keeps_reset]; exact h
  · simp only [main_SPSWS_STATE_SLEEP] at hstep
    split_ifs at hstep
    · simp at hstep
    · simp only [Option.map_some', Option.some.injEq] at hstep
      subst hstep
      exact h
  · exact h


/-- C11: a software reset is never executed from the downlink handler:
`_SPSWS_send_sigfox_message` never calls `PWR_software_reset`, and the dispatch of op-code
1 only sets `reset_request`. In an iteration of the loop of `main`, `PWR_software_reset` is
called exactly when the state is Sleep and `reset_request` is set on entry, and an
iteration that does not reset never clears `reset_request`. -/
theorem software_reset_only_in_sleep (cfg : SPSWS_config_t) (rtc : RTC_config_t)
    (inp : MAIN_inputs) (m : main_t) (msg : SIGFOX_EP_API_application_message_t)
    (c : SPSWS_context_t) :
    Event.PWR_software_reset ∉ (_SPSWS_send_sigfox_message cfg inp.sigfox msg c).2 ∧
    (dl_payload_op_code inp.sigfox.dl_payload = 1 →
      parse_dl_payload cfg inp.sigfox c =
        ({ c with flags := { c.flags with reset_request := true } }, [])) ∧
    (Event.PWR_software_reset ∈ (main_step cfg rtc inp m).2 ↔
      m.spsws_ctx.state = SPSWS_state_t.SPSWS_STATE_SLEEP ∧
        m.spsws_ctx.flags.reset_request = true) ∧
    ((main_step cfg rtc inp m).1 = none ↔
      m.spsws_ctx.state = SPSWS_state_t.SPSWS_STATE_SLEEP ∧
        m.spsws_ctx.flags.reset_request = true) ∧
    (∀ m2 : main_t, (main_step cfg rtc inp m).1 = some m2 →
      m.spsws_ctx.flags.reset_request = true → m2.spsws_ctx.flags.reset_request = true) := by
  refine ⟨reset_not_mem_send _ _ _ _, ?_, main_step_reset_iff _ _ _ _, ?_,
    fun m2 hstep h => main_step_keeps_reset cfg rtc inp m m2 hstep h⟩
  · intro hop
    simp [parse_dl_payload, hop, SIGFOX_EP_DL_OP_CODE_NOP, SIGFOX_EP_DL_OP_CODE_RESET]
  · unfold main_step
    cases hs : m.spsws_ctx.state <;> simp [main_SPSWS_STATE_SLEEP]
    split_ifs with h <;> simp_all

/-- Witness of C11: the Sleep step with a pending reset request calls
`PWR_software_reset`, and the downlink frame `[1]` only sets the request. -/
theorem software_reset_only_in_sleep_witness :
    Event.PWR_software_reset ∈
      (main_step cfg_sample rtc_config_sample
        { main_inputs_sample 0 with sigfox := sigfox_inputs_dl [1] }
        ⟨ctx_in SPSWS_state_t.SPSWS_STATE_SLEEP { flags_init with reset_request := true },
          false⟩).2 ∧
    parse_dl_payload cfg_sample (sigfox_inputs_dl [1]) ctx_zero =
      ({ ctx_zero with flags := { ctx_zero.flags with reset_request := true } }, []) :=
  have h := software_reset_only_in_sleep cfg_sample rtc_config_sample
    { main_inputs_sample 0 with sigfox := sigfox_inputs_dl [1] }
    ⟨ctx_in SPSWS_state_t.SPSWS_STATE_SLEEP { flags_init with reset_request := true }, false⟩
    message_bidirectional ctx_zero
  ⟨h.2.2.1.mpr ⟨rfl, rfl⟩, h.2.1 (by decide)⟩


/-! ## Theorems: bidirectional transaction -/

theorem parse_dl_payload_status (cfg : SPSWS_config_t) (inp : SIGFOX_EP_API_inputs)
    (c : SPSWS_context_t) : (parse_dl_payload cfg inp c).1.status = c.status := by
  unfold parse_dl_payload _SPSWS_store_weather_data_period
  simp only []
  split_ifs <;> rfl

theorem send_sigfox_message_no_downlink (cfg : SPSWS_config_t) (inp : SIGFOX_EP_API_inputs)
    (msg : SIGFOX_EP_API_application_message_t) (ctx : SPSWS_context_t)
    (hr : ctx.flags.radio_enabled = true) (ho : inp.open_status = 0)
    (hsend : inp.send_application_message_status = 0) (hb : msg.bidirectional_flag = true)
    (hdl : inp.dl_frame = 0) :
    _SPSWS_send_sigfox_message cfg inp msg ctx =
      ({ ctx with
          status := { ctx.status with daily_downlink := false }
          flags := { ctx.flags with downlink_request := false } },
        [Event.SIGFOX_EP_API_open, Event.SIGFOX_EP_API_send_application_message msg,
          Event.SIGFOX_EP_API_get_message_status] ++
        _SPSWS_update_nvm_data cfg inp.nvm_data SPSWS_nvm_data_t.SPSWS_NVM_DATA_LAST_DOWNLINK
          { ctx with status := { ctx.status with daily_downlink := false } } ++
        send_sigfox_message_close inp) := by
  simp [_SPSWS_send_sigfox_message, SIGFOX_EP_API_check_status, hr, ho, hsend, hb, hdl]

theorem update_nvm_data_downlink_writes (cfg : SPSWS_config_t) (inp : NVM_data_inputs)
    (c : SPSWS_context_t) (e : Event)
    (he : e ∈ [Event.NVM_write_byte (cfg.nvm_address.NVM_ADDRESS_LAST_DOWNLINK_YEAR + 0)
          (inp.current_time.year / 2 ^ 8 % 2 ^ 8),
        Event.NVM_write_byte (cfg.nvm_address.NVM_ADDRESS_LAST_DOWNLINK_YEAR + 1)
          (inp.current_time.year % 2 ^ 8),
        Event.NVM_write_byte cfg.nvm_address.NVM_ADDRESS_LAST_DOWNLINK_MONTH
          inp.current_time.month,
        Event.NVM_write_byte cfg.nvm_address.NVM_ADDRESS_LAST_DOWNLINK_DATE
          inp.current_time.date,
        Event.NVM_write_byte cfg.nvm_address.NVM_ADDRESS_LAST_DOWNLINK_STATUS
          c.status.daily_downlink.toNat]) :
    e ∈ _SPSWS_update_nvm_data cfg inp SPSWS_nvm_data_t.SPSWS_NVM_DATA_LAST_DOWNLINK c := by
  simp only [List.mem_cons, List.mem_singleton, List.not_mem_nil, or_false] at he
  simp only [_SPSWS_update_nvm_data, nvm_write, List.mem_append, List.mem_cons]
  rcases he with h | h | h | h | h <;> subst h <;> simp

theorem send_sigfox_message_downlink_failure (cfg : SPSWS_config_t)
    (inp : SIGFOX_EP_API_inputs) (msg : SIGFOX_EP_API_application_message_t)
    (ctx : SPSWS_context_t)
    (hr : ctx.flags.radio_enabled = true) (ho : inp.open_status = 0)
    (hsend : inp.send_application_message_status = 0) (hb : msg.bidirectional_flag = true)
    (hdl : inp.dl_frame ≠ 0) (hget : inp.get_dl_payload_status ≠ 0) :
    _SPSWS_send_sigfox_message cfg inp msg ctx =
      ({ ctx with status := { ctx.status with daily_downlink := true } },
        [Event.SIGFOX_EP_API_open, Event.SIGFOX_EP_API_send_application_message msg,
          Event.SIGFOX_EP_API_get_message_status, Event.SIGFOX_EP_API_get_dl_payload,
          Event.SIGFOX_ERROR_stack inp.get_dl_payload_status, Event.SIGFOX_EP_API_close]) := by
  simp [_SPSWS_send_sigfox_message, SIGFOX_EP_API_check_status, send_sigfox_message_errors, hr,
    ho, hsend, hb, hdl, hget]

/-- C12 refuted as worded: the message is sent with the bidirectional flag and a downlink
frame is received, but `SIGFOX_EP_API_get_dl_payload` fails with the status 5: the
function leaves through `errors:`, `downlink_request` is still set and the trace holds no
call of `NVM_write_byte`. -/
theorem bidirectional_transaction_failure_counterexample :
    sigfox_inputs_dl_failure.open_status = 0 ∧
    sigfox_inputs_dl_failure.send_application_message_status = 0 ∧
    message_bidirectional.bidirectional_flag = true ∧
    sigfox_inputs_dl_failure.dl_frame = 1 ∧
    (_SPSWS_send_sigfox_message cfg_sample sigfox_inputs_dl_failure message_bidirectional
      { ctx_zero with flags := { flags_init with downlink_request := true } }
      ).1.flags.downlink_request = true ∧
    (_SPSWS_send_sigfox_message cfg_sample sigfox_inputs_dl_failure message_bidirectional
      { ctx_zero with flags := { flags_init with downlink_request := true } }).2 =
      [Event.SIGFOX_EP_API_open,
        Event.SIGFOX_EP_API_send_application_message message_bidirectional,
        Event.SIGFOX_EP_API_get_message_status, Event.SIGFOX_EP_API_get_dl_payload,
        Event.SIGFOX_ERROR_stack 5, Event.SIGFOX_EP_API_close] :=
  ⟨rfl, rfl, rfl, rfl, rfl, rfl⟩

/-- C12 amended: when `_SPSWS_send_sigfox_message` sends a message with the bidirectional
flag (radio enabled, library opened, message sent), then either no downlink frame is
received or the received frame is read without failure, and the function writes the
last-downlink record (two bytes of year, month, date, status) to NVM and clears
`downlink_request`, the status bit `daily_downlink`, in the context and in the byte
written, being 1 exactly when a downlink frame was received; or the read of the received
frame fails, and the function leaves through `errors:` with `daily_downlink` set in the
context, `downlink_request` as it was and no call of `NVM_write_byte`. -/
theorem bidirectional_transaction_completion (cfg : SPSWS_config_t)
    (inp : SIGFOX_EP_API_inputs) (msg : SIGFOX_EP_API_application_message_t)
    (ctx : SPSWS_context_t)
    (hr : ctx.flags.radio_enabled = true) (ho : inp.open_status = 0)
    (hsend : inp.send_application_message_status = 0) (hb : msg.bidirectional_flag = true) :
    ((inp.dl_frame ≠ 0 → inp.get_dl_payload_status = 0) →
      (_SPSWS_send_sigfox_message cfg inp msg ctx).1.flags.downlink_request = false ∧
      (_SPSWS_send_sigfox_message cfg inp msg ctx).1.status.daily_downlink
        = decide (inp.dl_frame ≠ 0) ∧
      (∀ e ∈ [Event.NVM_write_byte (cfg.nvm_address.NVM_ADDRESS_LAST_DOWNLINK_YEAR + 0)
            (inp.nvm_data.current_time.year / 2 ^ 8 % 2 ^ 8),
          Event.NVM_write_byte (cfg.nvm_address.NVM_ADDRESS_LAST_DOWNLINK_YEAR + 1)
            (inp.nvm_data.current_time.year % 2 ^ 8),
          Event.NVM_write_byte cfg.nvm_address.NVM_ADDRESS_LAST_DOWNLINK_MONTH
            inp.nvm_data.current_time.month,
          Event.NVM_write_byte cfg.nvm_address.NVM_ADDRESS_LAST_DOWNLINK_DATE
            inp.nvm_data.current_time.date,
          Event.NVM_write_byte cfg.nvm_address.NVM_ADDRESS_LAST_DOWNLINK_STATUS
            (decide (inp.dl_frame ≠ 0)).toNat],
        e ∈ (_SPSWS_send_sigfox_message cfg inp msg ctx).2)) ∧
    (inp.dl_frame ≠ 0 → inp.get_dl_payload_status ≠ 0 →
      (_SPSWS_send_sigfox_message cfg inp msg ctx).1.flags.downlink_request =
        ctx.flags.downlink_request ∧
      (_SPSWS_send_sigfox_message cfg inp msg ctx).1.status.daily_downlink = true ∧
      (_SPSWS_send_sigfox_message cfg inp msg ctx).2 =
        [Event.SIGFOX_EP_API_open, Event.SIGFOX_EP_API_send_application_message msg,
          Event.SIGFOX_EP_API_get_message_status, Event.SIGFOX_EP_API_get_dl_payload,
          Event.SIGFOX_ERROR_stack inp.get_dl_payload_status, Event.SIGFOX_EP_API_close] ∧
      ∀ address data : Nat, Event.NVM_write_byte address data ∉
        (_SPSWS_send_sigfox_message cfg inp msg ctx).2) := by
  constructor
  · intro hget
    by_cases hdl : inp.dl_frame = 0
    · rw [send_sigfox_message_no_downlink cfg inp msg ctx hr ho hsend hb hdl]
      refine ⟨rfl, by simp [hdl], ?_⟩
      intro e he
      simp only [List.mem_append]
      refine Or.inl (Or.inr (update_nvm_data_downlink_writes cfg inp.nvm_data _ e ?_))
      simpa [hdl] using he
    · rw [send_sigfox_message_downlink cfg inp msg ctx hr ho hsend hb hdl (hget hdl)]
      refine ⟨rfl, ?_, ?_⟩
      · simp [parse_dl_payload_status, hdl]
      · intro e he
        simp only [List.mem_append]
        refine Or.inl (Or.inr (update_nvm_data_downlink_writes cfg inp.nvm_data _ e ?_))
        simpa [parse_dl_payload_status, hdl] using he
  · intro hdl hget
    rw [send_sigfox_message_downlink_failure cfg inp msg ctx hr ho hsend hb hdl hget]
    refine ⟨rfl, rfl, rfl, ?_⟩
    intro address data h
    simp at h

/-- Witness of C12 amended: a bidirectional message answered by a downlink frame that is
read without failure: the request is cleared and the status byte written is 1. -/
theorem bidirectional_transaction_completion_witness :
    (_SPSWS_send_sigfox_message cfg_sample (sigfox_inputs_dl [0]) message_bidirectional
      { ctx_zero with flags := { flags_init with downlink_request := true } }
      ).1.flags.downlink_request = false ∧
    Event.NVM_write_byte cfg_sample.nvm_address.NVM_ADDRESS_LAST_DOWNLINK_STATUS 1 ∈
      (_SPSWS_send_sigfox_message cfg_sample (sigfox_inputs_dl [0]) message_bidirectional
        { ctx_zero with flags := { flags_init with downlink_request := true } }).2 :=
  have h := (bidirectional_transaction_completion cfg_sample (sigfox_inputs_dl [0])
    message_bidirectional { ctx_zero with flags := { flags_init with downlink_request := true } }
    rfl rfl rfl rfl).1 (fun _ => rfl)
  ⟨h.1, h.2.2 _ (by simp [sigfox_inputs_dl])⟩


/-! ## Theorems: additional requests -/

theorem additional_requests_valid_wakeup (cfg : SPSWS_config_t) (rtc : RTC_config_t)
    (inp : ADDITIONAL_REQUESTS_inputs) (ctx : SPSWS_context_t) :
    (_SPSWS_update_additional_requests cfg rtc inp ctx).1.flags.valid_wakeup =
      (date_differs inp.current_time (previous_wake_up_time cfg inp) ||
        decide (inp.current_time.hours ≠ (previous_wake_up_time cfg inp).hours ∨
          inp.current_time.minutes ≠ (previous_wake_up_time cfg inp).minutes)) := by
  unfold _SPSWS_update_additional_requests
  simp only []
  split_ifs <;> simp_all

theorem additional_requests_rtc_calibration (cfg : SPSWS_config_t) (rtc : RTC_config_t)
    (inp : ADDITIONAL_REQUESTS_inputs) (ctx : SPSWS_context_t) :
    (_SPSWS_update_additional_requests cfg rtc inp ctx).1.flags.rtc_calibration_request =
      (date_differs inp.current_time (previous_wake_up_time cfg inp) ||
        ctx.flags.rtc_calibration_request) := by
  unfold _SPSWS_update_additional_requests
  simp only []
  split_ifs <;> simp_all


/-- C14: after `_SPSWS_update_additional_requests`, `valid_wakeup` is set if and only if at
least one of year, month, date, hours, minutes differs between the RTC time and the
stored last wake-up record, whatever the context was before the call; a difference of
hours or of minutes alone suffices. -/
theorem additional_requests_valid_wakeup_iff (cfg : SPSWS_config_t) (rtc : RTC_config_t)
    (inp : ADDITIONAL_REQUESTS_inputs) (ctx : SPSWS_context_t) :
    ((_SPSWS_update_additional_requests cfg rtc inp ctx).1.flags.valid_wakeup = true ↔
      (inp.current_time.year ≠ (previous_wake_up_time cfg inp).year ∨
        inp.current_time.month ≠ (previous_wake_up_time cfg inp).month ∨
        inp.current_time.date ≠ (previous_wake_up_time cfg inp).date ∨
        inp.current_time.hours ≠ (previous_wake_up_time cfg inp).hours ∨
        inp.current_time.minutes ≠ (previous_wake_up_time cfg inp).minutes)) ∧
    (inp.current_time.hours ≠ (previous_wake_up_time cfg inp).hours ∨
        inp.current_time.minutes ≠ (previous_wake_up_time cfg inp).minutes →
      (_SPSWS_update_additional_requests cfg rtc inp ctx).1.flags.valid_wakeup = true) := by
  rw [additional_requests_valid_wakeup]
  constructor
  · simp only [date_differs, Bool.or_eq_true, decide_eq_true_eq]
    tauto
  · intro h
    simp [h]

/-- Witness of C14: the clock one minute after the stored wake-up time. -/
theorem additional_requests_valid_wakeup_iff_witness :
    (_SPSWS_update_additional_requests cfg_sample rtc_config_sample
      (additional_requests_inputs_sample ⟨2024, 1, 1, 8, 16, 0⟩)
      ctx_zero).1.flags.valid_wakeup = true :=
  (additional_requests_valid_wakeup_iff cfg_sample rtc_config_sample
    (additional_requests_inputs_sample ⟨2024, 1, 1, 8, 16, 0⟩) ctx_zero).2
    (Or.inr (by decide))


/-! ## Theorems: uplink frames -/

theorem frame_bytes_length (size : Nat) (widths values : List Nat) :
    (frame_bytes size widths values).length = size := by
  simp [frame_bytes]

/-- C15: for each uplink frame layout of sigfox_ep_frames.h the bit-field widths sum to 8
times the declared payload size: startup 64 bits for 8 bytes, weather 48 bits for 6 bytes
(80 bits for 10 bytes with wind and rainfall), monitoring 72 bits for 9 bytes,
geolocation 88 bits for 11 bytes, geolocation timeout 16 bits for 2 bytes. The frame
built from a layout has its declared number of bytes for every list of field values,
error values included. -/
theorem uplink_frame_sizes :
    SIGFOX_EP_ul_payload_startup_widths.sum = 64 ∧
    SIGFOX_EP_ul_payload_startup_widths.sum = 8 * SIGFOX_EP_UL_PAYLOAD_SIZE_STARTUP ∧
    (SPSWS_EP_ul_payload_weather_widths false).sum = 48 ∧
    (SPSWS_EP_ul_payload_weather_widths false).sum = 8 * SIGFOX_EP_UL_PAYLOAD_SIZE_WEATHER ∧
    (SPSWS_EP_ul_payload_weather_widths true).sum = 80 ∧
    (SPSWS_EP_ul_payload_weather_widths true).sum
      = 8 * SIGFOX_EP_UL_PAYLOAD_SIZE_WEATHER_WIND_RAINFALL ∧
    SIGFOX_EP_ul_payload_monitoring_widths.sum = 72 ∧
    SIGFOX_EP_ul_payload_monitoring_widths.sum = 8 * SIGFOX_EP_UL_PAYLOAD_SIZE_MONITORING ∧
    SIGFOX_EP_ul_payload_geoloc_widths.sum = 88 ∧
    SIGFOX_EP_ul_payload_geoloc_widths.sum = 8 * SIGFOX_EP_UL_PAYLOAD_SIZE_GEOLOC ∧
    SIGFOX_EP_ul_payload_geoloc_timeout_widths.sum = 16 ∧
    SIGFOX_EP_ul_payload_geoloc_timeout_widths.sum
      = 8 * SIGFOX_EP_UL_PAYLOAD_SIZE_GEOLOC_TIMEOUT ∧
    (∀ values : List Nat,
      (frame_bytes SIGFOX_EP_UL_PAYLOAD_SIZE_STARTUP SIGFOX_EP_ul_payload_startup_widths
        values).length = 8 ∧
      (frame_bytes SIGFOX_EP_UL_PAYLOAD_SIZE_WEATHER (SPSWS_EP_ul_payload_weather_widths false)
        values).length = 6 ∧
      (frame_bytes SIGFOX_EP_UL_PAYLOAD_SIZE_WEATHER_WIND_RAINFALL
        (SPSWS_EP_ul_payload_weather_widths true) values).length = 10 ∧
      (frame_bytes SIGFOX_EP_UL_PAYLOAD_SIZE_MONITORING SIGFOX_EP_ul_payload_monitoring_widths
        values).length = 9 ∧
      (frame_bytes SIGFOX_EP_UL_PAYLOAD_SIZE_GEOLOC SIGFOX_EP_ul_payload_geoloc_widths
        values).length = 11 ∧
      (frame_bytes SIGFOX_EP_UL_PAYLOAD_SIZE_GEOLOC_TIMEOUT
        SIGFOX_EP_ul_payload_geoloc_timeout_widths values).length = 2) ∧
    (∀ payload : SPSWS_EP_ul_payload_weather_t, (weather_frame payload).length = 6) ∧
    (∀ payload : SIGFOX_EP_ul_payload_monitoring_t, (monitoring_frame payload).length = 9) ∧
    weather_frame ⟨0x7F, 0xFF, 0xFF, 0xFF, 0xFFFF⟩ =
      frame_bytes SIGFOX_EP_UL_PAYLOAD_SIZE_WEATHER (SPSWS_EP_ul_payload_weather_widths false)
        [0x7F, 0xFF, 0xFF, 0xFF, 0xFFFF] ∧
    monitoring_frame ⟨0x7F, 0x7F, 0xFF, 0xFFFF, 0xFFF, 0xFFF, 0⟩ =
      [0x7F, 0x7F, 0xFF, 0xFF, 0xFF, 0xFF, 0xFF, 0xFF, 0] := by
  refine ⟨by decide, by decide, by decide, by decide, by decide, by decide, by decide,
    by decide, by decide, by decide, by decide, by decide, ?_, fun _ => rfl, ?_, by decide,
    by decide⟩
  · intro values
    simp only [frame_bytes_length]
    decide
  · intro payload
    simp only [monitoring_frame, frame_bytes_length]
    decide

/-! ## Theorems: temperature coding -/

theorem signed_magnitude_round_trip (t : Int) (h : t.natAbs < 2 ^ 7) :
    (MATH_integer_to_signed_magnitude_spec t 7).1 = 0 ∧
    (MATH_integer_to_signed_magnitude_spec t 7).2 < 2 ^ 8 ∧
    signed_magnitude_decode (MATH_integer_to_signed_magnitude_spec t 7).2 7 = t := by
  unfold MATH_integer_to_signed_magnitude_spec signed_magnitude_decode
  rw [if_pos h]
  have e7 : (2 : Nat) ^ 7 = 128 := rfl
  have e8 : (2 : Nat) ^ 8 = 256 := rfl
  rw [e7] at h
  simp only [e7, e8]
  by_cases hneg : t < 0
  · have h1 : (128 + t.natAbs) / 128 % 2 = 1 := by omega
    have h2 : (128 + t.natAbs) % 128 = t.natAbs := by omega
    simp only [if_pos hneg, h1, h2, if_true]
    refine ⟨trivial, by omega, by omega⟩
  · have h1 : ¬ ((0 + t.natAbs) / 128 % 2 = 1) := by omega
    have h2 : (0 + t.natAbs) % 128 = t.natAbs := by omega
    simp only [if_neg hneg, if_neg h1, h2]
    refine ⟨trivial, by omega, by omega⟩

/-- C16: for every temperature `t` in [-64, 63], the sign-magnitude coding on 8 bits (sign
at bit 7, magnitude on 7 bits, as `MATH_integer_to_signed_magnitude(t, 7, .)` gives it)
succeeds, fits in 8 bits and decodes back to `t`; -12 is coded 0x8C and decodes to -12. -/
theorem temperature_round_trip (t : Int) (hlo : -64 ≤ t) (hhi : t ≤ 63) :
    (MATH_integer_to_signed_magnitude_spec t (MATH_U8_SIZE_BITS - 1)).1 = 0 ∧
    (MATH_integer_to_signed_magnitude_spec t (MATH_U8_SIZE_BITS - 1)).2 < 2 ^ 8 ∧
    signed_magnitude_decode (MATH_integer_to_signed_magnitude_spec t (MATH_U8_SIZE_BITS - 1)).2
      (MATH_U8_SIZE_BITS - 1) = t ∧
    (MATH_integer_to_signed_magnitude_spec (-12) 7).2 = 0x8C ∧
    signed_magnitude_decode 0x8C 7 = -12 := by
  have h := signed_magnitude_round_trip t (by rw [show (2 : Nat) ^ 7 = 128 from rfl]; omega)
  exact ⟨h.1, h.2.1, h.2.2, by decide, by decide⟩

/-- Witness of C16: the two ends of the interval are coded 0xC0 and 0x3F. -/
theorem temperature_round_trip_witness :
    signed_magnitude_decode (MATH_integer_to_signed_magnitude_spec (-64) (MATH_U8_SIZE_BITS - 1)).2
      (MATH_U8_SIZE_BITS - 1) = -64 ∧
    signed_magnitude_decode (MATH_integer_to_signed_magnitude_spec 63 (MATH_U8_SIZE_BITS - 1)).2
      (MATH_U8_SIZE_BITS - 1) = 63 :=
  ⟨(temperature_round_trip (-64) (by decide) (by decide)).2.2.1,
    (temperature_round_trip 63 (by decide) (by decide)).2.2.1⟩

/-! ## Theorems: radio gate -/

/-- C17: when the radio gate is disabled, `_SPSWS_send_sigfox_message` returns the context
as it received it (status, flags with `downlink_request`, weather period) and its only
call is the `SIGFOX_EP_API_close` of the label `errors:`: the library is not opened, no
message is sent, no downlink is read and nothing is written to NVM. -/
theorem send_sigfox_message_radio_disabled (cfg : SPSWS_config_t) (inp : SIGFOX_EP_API_inputs)
    (msg : SIGFOX_EP_API_application_message_t) (ctx : SPSWS_context_t)
    (hr : ctx.flags.radio_enabled = false) :
    (_SPSWS_send_sigfox_message cfg inp msg ctx).1 = ctx ∧
    (_SPSWS_send_sigfox_message cfg inp msg ctx).2 = [Event.SIGFOX_EP_API_close] ∧
    Event.SIGFOX_EP_API_open ∉ (_SPSWS_send_sigfox_message cfg inp msg ctx).2 ∧
    (∀ sent : SIGFOX_EP_API_application_message_t,
      Event.SIGFOX_EP_API_send_application_message sent ∉
        (_SPSWS_send_sigfox_message cfg inp msg ctx).2) ∧
    Event.SIGFOX_EP_API_get_message_status ∉ (_SPSWS_send_sigfox_message cfg inp msg ctx).2 ∧
    Event.SIGFOX_EP_API_get_dl_payload ∉ (_SPSWS_send_sigfox_message cfg inp msg ctx).2 ∧
    (∀ address data : Nat,
      Event.NVM_write_byte address data ∉ (_SPSWS_send_sigfox_message cfg inp msg ctx).2) := by
  have h : _SPSWS_send_sigfox_message cfg inp msg ctx = (ctx, [Event.SIGFOX_EP_API_close]) := by
    simp [_SPSWS_send_sigfox_message, hr, send_sigfox_message_errors]
  rw [h]
  simp

/-- Witness of C17: a bidirectional message with the radio gate disabled. -/
theorem send_sigfox_message_radio_disabled_witness :
    (_SPSWS_send_sigfox_message cfg_sample (sigfox_inputs_dl [1]) message_bidirectional
      { ctx_zero with flags := { flags_init with radio_enabled := false } }).2
      = [Event.SIGFOX_EP_API_close] :=
  (send_sigfox_message_radio_disabled cfg_sample (sigfox_inputs_dl [1]) message_bidirectional
    { ctx_zero with flags := { flags_init with radio_enabled := false } } rfl).2.1


/-! ## Theorems: error stack -/

theorem ERROR_stack_replay_append (depth : Nat) (t1 t2 : List Event) :
    ∀ stack : List ERROR_code_t,
      ERROR_stack_replay depth stack (t1 ++ t2) =
        ERROR_stack_replay depth (ERROR_stack_replay depth stack t1) t2 := by
  induction t1 with
  | nil => intro stack; simp [ERROR_stack_replay]
  | cons e rest ih =>
    intro stack
    cases e <;> simp [ERROR_stack_replay, ih]

theorem error_stack_step_trace (cfg : SPSWS_config_t) (inp : MAIN_inputs)
    (ctx : SPSWS_context_t) (hreq : ctx.flags.error_stack_request = true)
    (hempty : inp.error_stack.stack_is_empty = 0) :
    ∃ sent : SPSWS_context_t × List Event,
      sent = _SPSWS_send_sigfox_message cfg inp.sigfox
        { number_of_frames := 3
          ul_bit_rate := SIGFOX_ul_bit_rate_t.SIGFOX_UL_BIT_RATE_600BPS
          ul_payload := error_stack_frame inp.error_stack.error_code
          ul_payload_size_bytes := SIGFOX_EP_UL_PAYLOAD_SIZE_ERROR_STACK
          bidirectional_flag := false } ctx ∧
      (main_SPSWS_STATE_ERROR_STACK cfg inp ctx).2 =
        (Event.ERROR_import_sigfox_stack ::
          List.replicate 6 Event.ERROR_stack_read ++ sent.2) ++ [Event.ERROR_stack_init] ∧
      (main_SPSWS_STATE_ERROR_STACK cfg inp ctx).1.flags.error_stack_request = false := by
  refine ⟨_, rfl, ?_, ?_⟩
  · rw [main_SPSWS_STATE_ERROR_STACK, if_pos (by simp [hreq])]
    simp only [if_pos hempty]
    simp [SIGFOX_EP_UL_PAYLOAD_SIZE_ERROR_STACK]
  · rw [main_SPSWS_STATE_ERROR_STACK, if_pos (by simp [hreq])]

/-- C18 as stated fails: an ErrorStack step with `error_stack_request` set, the radio gate
disabled and one code in the error stack reads six codes, sends nothing (the only radio
call is the `SIGFOX_EP_API_close` of the label `errors:`) and calls `ERROR_stack_init`:
the stack is empty after the step, the code is not left in it. -/
theorem error_stack_drained_radio_disabled_counterexample :
    (main_SPSWS_STATE_ERROR_STACK cfg_sample (main_inputs_sample 0)
      (ctx_in SPSWS_state_t.SPSWS_STATE_ERROR_STACK
        { flags_init with error_stack_request := true, radio_enabled := false })).2 =
      [Event.ERROR_import_sigfox_stack, Event.ERROR_stack_read, Event.ERROR_stack_read,
        Event.ERROR_stack_read, Event.ERROR_stack_read, Event.ERROR_stack_read,
        Event.ERROR_stack_read, Event.SIGFOX_EP_API_close, Event.ERROR_stack_init] ∧
    ERROR_stack_replay 32 [ERROR_code_t.ERROR_DL_OP_CODE]
      (main_SPSWS_STATE_ERROR_STACK cfg_sample (main_inputs_sample 0)
      (ctx_in SPSWS_state_t.SPSWS_STATE_ERROR_STACK
        { flags_init with error_stack_request := true, radio_enabled := false })).2 = [] ∧
    ¬ (ERROR_stack_replay 32 [ERROR_code_t.ERROR_DL_OP_CODE]
      (main_SPSWS_STATE_ERROR_STACK cfg_sample (main_inputs_sample 0)
      (ctx_in SPSWS_state_t.SPSWS_STATE_ERROR_STACK
        { flags_init with error_stack_request := true, radio_enabled := false })).2 = [ERROR_code_t.ERROR_DL_OP_CODE]) := by
  decide

/-- C18 amended: an ErrorStack step taken with `error_stack_request` set and an error stack
that is not empty reads six codes, hands the frame to `_SPSWS_send_sigfox_message` and
calls `ERROR_stack_init`, whether the radio gate is enabled or not: the error stack is
empty after the step and the request is cleared. With the radio gate disabled nothing is
sent, so the codes read are dropped with the frame, not kept. -/
theorem error_stack_step_clears_stack (cfg : SPSWS_config_t) (inp : MAIN_inputs)
    (ctx : SPSWS_context_t) (depth : Nat) (stack : List ERROR_code_t)
    (hreq : ctx.flags.error_stack_request = true)
    (hempty : inp.error_stack.stack_is_empty = 0) :
    ERROR_stack_replay depth stack (main_SPSWS_STATE_ERROR_STACK cfg inp ctx).2 = [] ∧
    Event.ERROR_stack_init ∈ (main_SPSWS_STATE_ERROR_STACK cfg inp ctx).2 ∧
    (main_SPSWS_STATE_ERROR_STACK cfg inp ctx).1.flags.error_stack_request = false ∧
    (ctx.flags.radio_enabled = false →
      (main_SPSWS_STATE_ERROR_STACK cfg inp ctx).2 =
        Event.ERROR_import_sigfox_stack :: List.replicate 6 Event.ERROR_stack_read ++
          [Event.SIGFOX_EP_API_close, Event.ERROR_stack_init]) := by
  obtain ⟨sent, hsent, htrace, hflag⟩ := error_stack_step_trace cfg inp ctx hreq hempty
  rw [htrace]
  refine ⟨?_, by simp, hflag, ?_⟩
  · rw [ERROR_stack_replay_append]
    simp [ERROR_stack_replay]
  · intro hr
    have h : sent.2 = [Event.SIGFOX_EP_API_close] := by
      rw [hsent]
      simp [_SPSWS_send_sigfox_message, hr, send_sigfox_message_errors]
    rw [h]
    simp

/-- Witness of C18 amended: the same step with the radio gate enabled. -/
theorem error_stack_step_clears_stack_witness :
    ERROR_stack_replay 32 [ERROR_code_t.ERROR_DL_OP_CODE]
      (main_SPSWS_STATE_ERROR_STACK cfg_sample (main_inputs_sample 0)
        (ctx_in SPSWS_state_t.SPSWS_STATE_ERROR_STACK
          { flags_init with error_stack_request := true })).2 = [] :=
  (error_stack_step_clears_stack cfg_sample (main_inputs_sample 0)
    (ctx_in SPSWS_state_t.SPSWS_STATE_ERROR_STACK
      { flags_init with error_stack_request := true }) 32 [ERROR_code_t.ERROR_DL_OP_CODE]
    rfl rfl).1


/-! ## Theorems: weather requests of TaskCheck -/

/-- C19: in the scheduling part of TaskCheck, a sharp-hour alarm raises the weather request
and the monitoring request and sets the hourly message count to 1 whatever the reporting
gate `weather_request_enabled` is; without alarm, an elapsed intermediate period with
messages left in the hour sets the weather request to the value of the reporting gate, so
the request is raised only if the gate is enabled. -/
theorem task_check_weather_requests (uptime : Nat) (ctx : SPSWS_context_t) :
    (ctx.flags.sharp_hour_alarm = true →
      (task_check_requests uptime ctx).flags.weather_request = true ∧
      (task_check_requests uptime ctx).flags.monitoring_request = true ∧
      (task_check_requests uptime ctx).weather_message_count = 1 ∧
      (task_check_requests uptime ctx).flags.weather_request_intermediate = false ∧
      (task_check_requests uptime ctx).flags.sharp_hour_alarm = false ∧
      (task_check_requests uptime ctx).flags.weather_request_enabled = ctx.flags.weather_request_enabled) ∧
    (ctx.flags.sharp_hour_alarm = false → ctx.flags.first_sharp_hour_alarm = true →
      uptime ≥ (ctx.weather_last_time_seconds +
        SPSWS_WEATHER_DATA_PERIOD_SECONDS.getD ctx.weather_data_period 0) % 2 ^ 32 →
      ctx.weather_message_count <
        3600 / SPSWS_WEATHER_DATA_PERIOD_SECONDS.getD ctx.weather_data_period 0 →
      (task_check_requests uptime ctx).flags.weather_request = ctx.flags.weather_request_enabled ∧
      (task_check_requests uptime ctx).flags.weather_request_intermediate = true ∧
      (task_check_requests uptime ctx).flags.monitoring_request = ctx.flags.monitoring_request ∧
      (task_check_requests uptime ctx).weather_message_count = (ctx.weather_message_count + 1) % 2 ^ 32) := by
  constructor
  · intro halarm
    unfold task_check_requests
    simp only []
    split_ifs <;> simp_all
  · intro halarm hfirst helapsed hcount
    unfold task_check_requests
    simp only []
    split_ifs <;> simp_all

/-- Witness of C19: a sharp-hour alarm with the reporting gate disabled, and an elapsed
intermediate period of 30 minutes with the reporting gate disabled. -/
theorem task_check_weather_requests_witness :
    (task_check_requests 7200
      (ctx_in SPSWS_state_t.SPSWS_STATE_TASK_CHECK
        { flags_init with sharp_hour_alarm := true, weather_request_enabled := false })
      ).flags.weather_request = true ∧
    (task_check_requests 1800
      { ctx_in SPSWS_state_t.SPSWS_STATE_TASK_CHECK
          { flags_init with first_sharp_hour_alarm := true, weather_request_enabled := false }
        with weather_data_period := 1, weather_message_count := 1 }
      ).flags.weather_request = false :=
  ⟨((task_check_weather_requests 7200
      (ctx_in SPSWS_state_t.SPSWS_STATE_TASK_CHECK
        { flags_init with sharp_hour_alarm := true, weather_request_enabled := false })).1
      rfl).1,
    ((task_check_weather_requests 1800
      { ctx_in SPSWS_state_t.SPSWS_STATE_TASK_CHECK
          { flags_init with first_sharp_hour_alarm := true, weather_request_enabled := false }
        with weather_data_period := 1, weather_message_count := 1 }).2
      rfl rfl (by decide) (by decide)).1⟩

/-! ## Theorems: address map of nvm_address.h -/

/-- C20 on the code: in nvm_address.h the three records follow one another without gap or
overlap, but the last wake-up record takes 5 bytes (year on 2 bytes, month, date, hour):
the enumerator after `NVM_ADDRESS_LAST_WAKE_UP_HOUR` is `NVM_ADDRESS_LAST_GEOLOC_YEAR`, so
the last geolocation year starts 5 bytes after the last wake-up year, not 6, and the byte
after the hour, where a minute would be stored, is the first byte of the last geolocation
year. The header has no enumerator for the minutes that main.c reads and writes
(main.c:589, 684). -/
theorem nvm_address_header_layout (sz : SIGFOX_sizes_t) :
    nvm_record_addresses sz = List.range' (NVM_ADDRESS_LAST_WAKE_UP_YEAR sz) 15 ∧
    (nvm_record_addresses sz).Nodup ∧
    NVM_ADDRESS_LAST_GEOLOC_YEAR sz = NVM_ADDRESS_LAST_WAKE_UP_YEAR sz + 5 ∧
    NVM_ADDRESS_LAST_GEOLOC_YEAR sz ≠ NVM_ADDRESS_LAST_WAKE_UP_YEAR sz + 6 ∧
    NVM_ADDRESS_LAST_WAKE_UP_HOUR sz + 1 = NVM_ADDRESS_LAST_GEOLOC_YEAR sz + 0 ∧
    NVM_ADDRESS_LAST_DOWNLINK_YEAR sz = NVM_ADDRESS_LAST_GEOLOC_YEAR sz + 5 ∧
    NVM_ADDRESS_LAST_DOWNLINK_STATUS sz = NVM_ADDRESS_LAST_DOWNLINK_YEAR sz + 4 := by
  have hlist : nvm_record_addresses sz = List.range' (NVM_ADDRESS_LAST_WAKE_UP_YEAR sz) 15 := by
    simp only [nvm_record_addresses, NVM_ADDRESS_LAST_DOWNLINK_STATUS,
      NVM_ADDRESS_LAST_DOWNLINK_DATE, NVM_ADDRESS_LAST_DOWNLINK_MONTH,
      NVM_ADDRESS_LAST_DOWNLINK_YEAR, NVM_ADDRESS_LAST_GEOLOC_STATUS,
      NVM_ADDRESS_LAST_GEOLOC_DATE, NVM_ADDRESS_LAST_GEOLOC_MONTH, NVM_ADDRESS_LAST_GEOLOC_YEAR,
      NVM_ADDRESS_LAST_WAKE_UP_HOUR, NVM_ADDRESS_LAST_WAKE_UP_DATE,
      NVM_ADDRESS_LAST_WAKE_UP_MONTH]
    simp [List.range', Nat.add_assoc]
  refine ⟨hlist, ?_, ?_, ?_, ?_, ?_, ?_⟩
  · rw [hlist]
    exact List.nodup_range' _ _
  all_goals
    simp only [NVM_ADDRESS_LAST_DOWNLINK_STATUS,
      NVM_ADDRESS_LAST_DOWNLINK_DATE, NVM_ADDRESS_LAST_DOWNLINK_MONTH,
      NVM_ADDRESS_LAST_DOWNLINK_YEAR, NVM_ADDRESS_LAST_GEOLOC_STATUS,
      NVM_ADDRESS_LAST_GEOLOC_DATE, NVM_ADDRESS_LAST_GEOLOC_MONTH, NVM_ADDRESS_LAST_GEOLOC_YEAR,
      NVM_ADDRESS_LAST_WAKE_UP_HOUR, NVM_ADDRESS_LAST_WAKE_UP_DATE,
      NVM_ADDRESS_LAST_WAKE_UP_MONTH] <;> omega

/-! ## Theorems: dispatch of TaskCheck -/

theorem additional_keeps_weather_request (cfg : SPSWS_config_t) (rtc : RTC_config_t)
    (inp : ADDITIONAL_REQUESTS_inputs) (c : SPSWS_context_t) :
    (_SPSWS_update_additional_requests cfg rtc inp c).1.flags.weather_request
      = c.flags.weather_request := by
  unfold _SPSWS_update_additional_requests
  simp only []
  split_ifs <;> rfl

theorem additional_valid_wakeup_any (cfg : SPSWS_config_t) (rtc : RTC_config_t)
    (inp : ADDITIONAL_REQUESTS_inputs) (c d : SPSWS_context_t) :
    (_SPSWS_update_additional_requests cfg rtc inp c).1.flags.valid_wakeup =
      (_SPSWS_update_additional_requests cfg rtc inp d).1.flags.valid_wakeup := by
  rw [additional_requests_valid_wakeup, additional_requests_valid_wakeup]

theorem task_check_state (cfg : SPSWS_config_t) (rtc : RTC_config_t) (inp : MAIN_inputs)
    (ctx : SPSWS_context_t) :
    (main_SPSWS_STATE_TASK_CHECK cfg rtc inp ctx).1.state =
      if (task_check_requests inp.uptime ctx).flags.weather_request = true then
        if (_SPSWS_update_additional_requests cfg rtc inp.additional_requests
            ctx).1.flags.valid_wakeup = true then SPSWS_state_t.SPSWS_STATE_WEATHER
        else SPSWS_state_t.SPSWS_STATE_SLEEP
      else if (task_check_requests inp.uptime ctx).flags.measure_request = true then
        SPSWS_state_t.SPSWS_STATE_MEASURE
      else SPSWS_state_t.SPSWS_STATE_SLEEP := by
  unfold main_SPSWS_STATE_TASK_CHECK
  generalize task_check_requests inp.uptime ctx = c1
  simp only []
  split_ifs with h1 h2 h3 h4 h5 h6 h7
  all_goals first
    | rfl
    | (exfalso; rw [additional_valid_wakeup_any cfg rtc inp.additional_requests _ ctx] at h2;
       simp_all)
    | (exfalso; simp_all)

theorem task_check_weather_request (cfg : SPSWS_config_t) (rtc : RTC_config_t)
    (inp : MAIN_inputs) (ctx : SPSWS_context_t) :
    (main_SPSWS_STATE_TASK_CHECK cfg rtc inp ctx).1.flags.weather_request = false := by
  unfold main_SPSWS_STATE_TASK_CHECK
  generalize task_check_requests inp.uptime ctx = c1
  simp only []
  split_ifs with h1 h2 h3
  · show (_SPSWS_update_additional_requests _ _ _ _).1.flags.weather_request = false
    rw [additional_keeps_weather_request]
  · rw [additional_keeps_weather_request]
  · simpa using h1
  · simpa using h1

/-- C21: in every TaskCheck step, with `c1` the context after the scheduling updates of
the step and `valid` the wake-up flag that `_SPSWS_update_additional_requests` refreshes
(the clock differs from the stored last wake-up in date, hours or minutes, whatever the
context): the next state is Weather exactly when `weather_request` is set in `c1` and
`valid` holds; it is Measure exactly when `weather_request` is clear and `measure_request`
is set in `c1`; it is Sleep in every other case, among them a set `weather_request` with an
invalid wake-up whatever `measure_request`. After the step `weather_request` is clear. -/
theorem task_check_dispatch (cfg : SPSWS_config_t) (rtc : RTC_config_t) (inp : MAIN_inputs)
    (ctx : SPSWS_context_t) :
    let c1 := task_check_requests inp.uptime ctx
    let valid :=
      (_SPSWS_update_additional_requests cfg rtc inp.additional_requests ctx).1.flags.valid_wakeup
    let r := (main_SPSWS_STATE_TASK_CHECK cfg rtc inp ctx).1
    (∀ c : SPSWS_context_t,
      (_SPSWS_update_additional_requests cfg rtc inp.additional_requests c).1.flags.valid_wakeup
        = valid) ∧
    (valid = (date_differs inp.additional_requests.current_time
        (previous_wake_up_time cfg inp.additional_requests) ||
      decide (inp.additional_requests.current_time.hours ≠
          (previous_wake_up_time cfg inp.additional_requests).hours ∨
        inp.additional_requests.current_time.minutes ≠
          (previous_wake_up_time cfg inp.additional_requests).minutes))) ∧
    (r.state = SPSWS_state_t.SPSWS_STATE_WEATHER ↔
      c1.flags.weather_request = true ∧ valid = true) ∧
    (r.state = SPSWS_state_t.SPSWS_STATE_MEASURE ↔
      c1.flags.weather_request = false ∧ c1.flags.measure_request = true) ∧
    (r.state = SPSWS_state_t.SPSWS_STATE_SLEEP ↔
      ¬ (c1.flags.weather_request = true ∧ valid = true) ∧
      ¬ (c1.flags.weather_request = false ∧ c1.flags.measure_request = true)) ∧
    (c1.flags.weather_request = true → valid = false →
      r.state = SPSWS_state_t.SPSWS_STATE_SLEEP) ∧
    r.flags.weather_request = false := by
  intro c1 valid r
  have hs : r.state = _ := task_check_state cfg rtc inp ctx
  have hf : r.flags.weather_request = false := task_check_weather_request cfg rtc inp ctx
  refine ⟨fun c => additional_valid_wakeup_any cfg rtc inp.additional_requests c ctx,
    additional_requests_valid_wakeup cfg rtc inp.additional_requests ctx, ?_, ?_, ?_, ?_, hf⟩
  all_goals rw [hs]
  all_goals by_cases hw : c1.flags.weather_request = true
  all_goals by_cases hval : valid = true
  all_goals by_cases hm : c1.flags.measure_request = true
  all_goals simp_all [c1, valid]

/-- Witness of C21: a TaskCheck step after 100 seconds of uptime, without pending weather
request, goes to Measure and leaves `weather_request` clear. -/
theorem task_check_dispatch_witness :
    (main_SPSWS_STATE_TASK_CHECK cfg_sample rtc_config_sample (main_inputs_sample 100)
      ctx_zero).1.state = SPSWS_state_t.SPSWS_STATE_MEASURE ∧
    (main_SPSWS_STATE_TASK_CHECK cfg_sample rtc_config_sample (main_inputs_sample 100)
      ctx_zero).1.flags.weather_request = false :=
  have h := task_check_dispatch cfg_sample rtc_config_sample (main_inputs_sample 100) ctx_zero
  ⟨h.2.2.2.1.mpr ⟨rfl, rfl⟩, h.2.2.2.2.2.2⟩

/-! ## Theorems: successors of the states -/

theorem startup_state (cfg : SPSWS_config_t) (inp : MAIN_inputs) (c : SPSWS_context_t) :
    (main_SPSWS_STATE_STARTUP cfg inp c).1.state = SPSWS_state_t.SPSWS_STATE_RTC_CALIBRATION :=
  rfl

theorem measure_state (cfg : SPSWS_config_t) (inp : MEASURE_inputs) (c : SPSWS_context_t) :
    (main_SPSWS_STATE_MEASURE cfg inp c).1.state = SPSWS_state_t.SPSWS_STATE_TASK_CHECK := rfl

theorem weather_state (cfg : SPSWS_config_t) (math : MATH_api) (inp : SIGFOX_EP_API_inputs)
    (c : SPSWS_context_t) :
    (main_SPSWS_STATE_WEATHER cfg math inp c).1.state = SPSWS_state_t.SPSWS_STATE_MONITORING :=
  rfl

theorem monitoring_state (cfg : SPSWS_config_t) (inp : MAIN_inputs) (c : SPSWS_context_t) :
    (main_SPSWS_STATE_MONITORING cfg inp c).1.state = SPSWS_state_t.SPSWS_STATE_GEOLOC := by
  by_cases hreq : c.flags.monitoring_request ≠ false
  · rw [main_SPSWS_STATE_MONITORING, if_pos hreq]
  · rw [main_SPSWS_STATE_MONITORING, if_neg hreq]

theorem geoloc_state (cfg : SPSWS_config_t) (inp : MAIN_inputs) (c : SPSWS_context_t) :
    (main_SPSWS_STATE_GEOLOC cfg inp c).1.state = SPSWS_state_t.SPSWS_STATE_ERROR_STACK := by
  by_cases hreq : c.flags.geoloc_request ≠ false
  · rw [main_SPSWS_STATE_GEOLOC, if_pos hreq]
  · rw [main_SPSWS_STATE_GEOLOC, if_neg hreq]

theorem error_stack_state (cfg : SPSWS_config_t) (inp : MAIN_inputs) (c : SPSWS_context_t) :
    (main_SPSWS_STATE_ERROR_STACK cfg inp c).1.state =
      SPSWS_state_t.SPSWS_STATE_RTC_CALIBRATION := by
  by_cases hreq : c.flags.error_stack_request ≠ false
  · rw [main_SPSWS_STATE_ERROR_STACK, if_pos hreq]
  · rw [main_SPSWS_STATE_ERROR_STACK, if_neg hreq]

theorem rtc_calibration_state (cfg : SPSWS_config_t) (inp : MAIN_inputs) (m : main_t) :
    (main_SPSWS_STATE_RTC_CALIBRATION cfg inp m).1.spsws_ctx.state =
      SPSWS_state_t.SPSWS_STATE_TASK_END := by
  by_cases hreq : m.spsws_ctx.flags.rtc_calibration_request ≠ false
  · rw [main_SPSWS_STATE_RTC_CALIBRATION]
    simp only [if_pos hreq]
  · rw [main_SPSWS_STATE_RTC_CALIBRATION]
    simp only [if_neg hreq]

theorem task_end_state (inp : MAIN_inputs) (c : SPSWS_context_t) :
    (main_SPSWS_STATE_TASK_END inp c).1.state = SPSWS_state_t.SPSWS_STATE_TASK_CHECK := rfl

theorem task_check_state_cases (cfg : SPSWS_config_t) (rtc : RTC_config_t) (inp : MAIN_inputs)
    (c : SPSWS_context_t) :
    (main_SPSWS_STATE_TASK_CHECK cfg rtc inp c).1.state = SPSWS_state_t.SPSWS_STATE_WEATHER ∨
    (main_SPSWS_STATE_TASK_CHECK cfg rtc inp c).1.state = SPSWS_state_t.SPSWS_STATE_MEASURE ∨
    (main_SPSWS_STATE_TASK_CHECK cfg rtc inp c).1.state = SPSWS_state_t.SPSWS_STATE_SLEEP := by
  rw [task_check_state]
  split_ifs <;> simp

/-- The state that follows each state other than TaskCheck in the `switch` of `main`
(main.c:969-1403); TaskCheck is mapped to itself. -/
theorem main_step_state (cfg : SPSWS_config_t) (rtc : RTC_config_t) (inp : MAIN_inputs)
    (m m2 : main_t) (hstep : (main_step cfg rtc inp m).1 = some m2) :
    m2.spsws_ctx.state =
      match m.spsws_ctx.state with
      | SPSWS_state_t.SPSWS_STATE_STARTUP => SPSWS_state_t.SPSWS_STATE_RTC_CALIBRATION
      | SPSWS_state_t.SPSWS_STATE_MEASURE => SPSWS_state_t.SPSWS_STATE_TASK_CHECK
      | SPSWS_state_t.SPSWS_STATE_WEATHER => SPSWS_state_t.SPSWS_STATE_MONITORING
      | SPSWS_state_t.SPSWS_STATE_MONITORING => SPSWS_state_t.SPSWS_STATE_GEOLOC
      | SPSWS_state_t.SPSWS_STATE_GEOLOC => SPSWS_state_t.SPSWS_STATE_ERROR_STACK
      | SPSWS_state_t.SPSWS_STATE_ERROR_STACK => SPSWS_state_t.SPSWS_STATE_RTC_CALIBRATION
      | SPSWS_state_t.SPSWS_STATE_RTC_CALIBRATION => SPSWS_state_t.SPSWS_STATE_TASK_END
      | SPSWS_state_t.SPSWS_STATE_TASK_END => SPSWS_state_t.SPSWS_STATE_TASK_CHECK
      | SPSWS_state_t.SPSWS_STATE_TASK_CHECK =>
        (main_SPSWS_STATE_TASK_CHECK cfg rtc inp m.spsws_ctx).1.state
      | SPSWS_state_t.SPSWS_STATE_SLEEP => SPSWS_state_t.SPSWS_STATE_TASK_CHECK
      | SPSWS_state_t.SPSWS_STATE_LAST => SPSWS_state_t.SPSWS_STATE_TASK_END := by
  unfold main_step at hstep
  cases hs : m.spsws_ctx.state <;> rw [hs] at hstep <;>
    simp only [Option.some.injEq] at hstep <;> try subst hstep
  · rfl
  · rfl
  · rfl
  · exact monitoring_state _ _ _
  · exact geoloc_state _ _ _
  · exact error_stack_state _ _ _
  · exact rtc_calibration_state _ _ _
  · rfl
  · rfl
  · simp only [main_SPSWS_STATE_SLEEP] at hstep
    split_ifs at hstep
    · simp at hstep
    · simp only [Option.map_some', Option.some.injEq] at hstep
      subst hstep
      rfl
  · rfl

theorem main_step_none_iff (cfg : SPSWS_config_t) (rtc : RTC_config_t) (inp : MAIN_inputs)
    (m : main_t) :
    (main_step cfg rtc inp m).1 = none ↔
      m.spsws_ctx.state = SPSWS_state_t.SPSWS_STATE_SLEEP ∧
        m.spsws_ctx.flags.reset_request = true := by
  unfold main_step
  cases hs : m.spsws_ctx.state <;> simp [main_SPSWS_STATE_SLEEP]
  split_ifs with h <;> simp_all

theorem main_step_state_operating (cfg : SPSWS_config_t) (rtc : RTC_config_t)
    (inp : MAIN_inputs) (m m2 : main_t) (hstep : (main_step cfg rtc inp m).1 = some m2) :
    m2.spsws_ctx.state ≠ SPSWS_state_t.SPSWS_STATE_STARTUP ∧
      m2.spsws_ctx.state ≠ SPSWS_state_t.SPSWS_STATE_LAST := by
  have h := main_step_state cfg rtc inp m m2 hstep
  have ht := task_check_state_cases cfg rtc inp m.spsws_ctx
  cases hs : m.spsws_ctx.state <;> rw [hs] at h <;> simp only [] at h
  all_goals first
    | (rw [h]; exact ⟨by decide, by decide⟩)
    | (rcases ht with ht | ht | ht <;> rw [ht] at h <;> rw [h] <;>
        exact ⟨by decide, by decide⟩)

/-- The alarm interrupts write the two alarm flags and `sharp_hour_uptime` only. -/
theorem alarm_callbacks_keep (uptimes : List Nat) :
    ∀ c : SPSWS_context_t,
      (uptimes.foldl (fun c uptime => _SPSWS_sharp_hour_alarm_callback uptime c) c).state
        = c.state ∧
      (uptimes.foldl (fun c uptime => _SPSWS_sharp_hour_alarm_callback uptime c) c).status
        = c.status ∧
      (uptimes.foldl (fun c uptime => _SPSWS_sharp_hour_alarm_callback uptime c)
        c).weather_data_period = c.weather_data_period ∧
      (uptimes.foldl (fun c uptime => _SPSWS_sharp_hour_alarm_callback uptime c)
        c).flags.rtc_calibration_request = c.flags.rtc_calibration_request := by
  induction uptimes with
  | nil => intro c; exact ⟨rfl, rfl, rfl, rfl⟩
  | cons u rest ih =>
    intro c
    simp only [List.foldl_cons]
    have h := ih (_SPSWS_sharp_hour_alarm_callback u c)
    exact ⟨h.1, h.2.1, h.2.2.1, h.2.2.2⟩

theorem alarm_interrupts_state (uptimes : List Nat) (m : main_t) :
    (alarm_interrupts uptimes m).spsws_ctx.state = m.spsws_ctx.state :=
  (alarm_callbacks_keep uptimes m.spsws_ctx).1

theorem alarm_interrupts_status (uptimes : List Nat) (m : main_t) :
    (alarm_interrupts uptimes m).spsws_ctx.status = m.spsws_ctx.status :=
  (alarm_callbacks_keep uptimes m.spsws_ctx).2.1

theorem alarm_interrupts_weather_data_period (uptimes : List Nat) (m : main_t) :
    (alarm_interrupts uptimes m).spsws_ctx.weather_data_period =
      m.spsws_ctx.weather_data_period :=
  (alarm_callbacks_keep uptimes m.spsws_ctx).2.2.1

theorem alarm_interrupts_rtc_calibration_request (uptimes : List Nat) (m : main_t) :
    (alarm_interrupts uptimes m).spsws_ctx.flags.rtc_calibration_request =
      m.spsws_ctx.flags.rtc_calibration_request :=
  (alarm_callbacks_keep uptimes m.spsws_ctx).2.2.2

theorem main_run_cons (cfg : SPSWS_config_t) (rtc : RTC_config_t)
    (i : List Nat × MAIN_inputs) (rest : List (List Nat × MAIN_inputs)) (m : main_t) :
    main_run cfg rtc (i :: rest) m =
      (alarm_interrupts i.1 m, (main_step cfg rtc i.2 (alarm_interrupts i.1 m)).2) ::
        (match (main_step cfg rtc i.2 (alarm_interrupts i.1 m)).1 with
          | some next => main_run cfg rtc rest next
          | none => []) := by
  obtain ⟨alarms, inp⟩ := i
  rw [main_run]
  cases (main_step cfg rtc inp (alarm_interrupts alarms m)).1 <;> rfl

theorem main_run_operating (cfg : SPSWS_config_t) (rtc : RTC_config_t) :
    ∀ (ins : List (List Nat × MAIN_inputs)) (m : main_t),
      m.spsws_ctx.state ≠ SPSWS_state_t.SPSWS_STATE_STARTUP →
      m.spsws_ctx.state ≠ SPSWS_state_t.SPSWS_STATE_LAST →
      ∀ x ∈ main_run cfg rtc ins m,
        x.1.spsws_ctx.state ≠ SPSWS_state_t.SPSWS_STATE_STARTUP ∧
          x.1.spsws_ctx.state ≠ SPSWS_state_t.SPSWS_STATE_LAST := by
  intro ins
  induction ins with
  | nil => intro m _ _ x hx; simp [main_run] at hx
  | cons i rest ih =>
    intro m h1 h2 x hx
    rw [main_run_cons] at hx
    rcases List.mem_cons.mp hx with hx | hx
    · rw [hx]
      show (alarm_interrupts i.1 m).spsws_ctx.state ≠ _ ∧
        (alarm_interrupts i.1 m).spsws_ctx.state ≠ _
      rw [alarm_interrupts_state]; exact ⟨h1, h2⟩
    · cases hstep : (main_step cfg rtc i.2 (alarm_interrupts i.1 m)).1 with
      | none => rw [hstep] at hx; simp at hx
      | some next =>
        rw [hstep] at hx
        have hn := main_step_state_operating cfg rtc i.2 _ next hstep
        exact ih next hn.1 hn.2 x hx

/-- C22 refuted as worded: a Sleep step that finds `reset_request` set calls
`PWR_software_reset` and has no next state, so Sleep is not followed by TaskCheck whatever
the flags; the program then restarts. -/
theorem sleep_successor_counterexample :
    main_step cfg_sample rtc_config_sample (main_inputs_sample 0)
      ⟨ctx_in SPSWS_state_t.SPSWS_STATE_SLEEP { flags_init with reset_request := true },
        false⟩ = (none, [Event.PWR_software_reset]) := rfl

/-- C22 amended: in an iteration of the loop of `main` that does not end in a software
reset, every state other than TaskCheck has one successor whatever the flags and the
results of the hardware: Startup to RtcCalibration, RtcCalibration to TaskEnd, TaskEnd to
TaskCheck, Measure to TaskCheck, Weather to Monitoring, Monitoring to Geoloc, Geoloc to
ErrorStack, ErrorStack to RtcCalibration, Sleep to TaskCheck. An iteration ends in a
software reset, without next state, exactly when the state is Sleep and `reset_request` is
set. Hence in a run from Startup, which a software reset ends, the state is always one of
the ten operating states and Startup is never entered again. -/
theorem state_successors (cfg : SPSWS_config_t) (rtc : RTC_config_t) (inp : MAIN_inputs)
    (ins : List (List Nat × MAIN_inputs)) (m : main_t) :
    (∀ m2 : main_t, (main_step cfg rtc inp m).1 = some m2 →
      (m.spsws_ctx.state = SPSWS_state_t.SPSWS_STATE_STARTUP →
        m2.spsws_ctx.state = SPSWS_state_t.SPSWS_STATE_RTC_CALIBRATION) ∧
      (m.spsws_ctx.state = SPSWS_state_t.SPSWS_STATE_RTC_CALIBRATION →
        m2.spsws_ctx.state = SPSWS_state_t.SPSWS_STATE_TASK_END) ∧
      (m.spsws_ctx.state = SPSWS_state_t.SPSWS_STATE_TASK_END →
        m2.spsws_ctx.state = SPSWS_state_t.SPSWS_STATE_TASK_CHECK) ∧
      (m.spsws_ctx.state = SPSWS_state_t.SPSWS_STATE_MEASURE →
        m2.spsws_ctx.state = SPSWS_state_t.SPSWS_STATE_TASK_CHECK) ∧
      (m.spsws_ctx.state = SPSWS_state_t.SPSWS_STATE_WEATHER →
        m2.spsws_ctx.state = SPSWS_state_t.SPSWS_STATE_MONITORING) ∧
      (m.spsws_ctx.state = SPSWS_state_t.SPSWS_STATE_MONITORING →
        m2.spsws_ctx.state = SPSWS_state_t.SPSWS_STATE_GEOLOC) ∧
      (m.spsws_ctx.state = SPSWS_state_t.SPSWS_STATE_GEOLOC →
        m2.spsws_ctx.state = SPSWS_state_t.SPSWS_STATE_ERROR_STACK) ∧
      (m.spsws_ctx.state = SPSWS_state_t.SPSWS_STATE_ERROR_STACK →
        m2.spsws_ctx.state = SPSWS_state_t.SPSWS_STATE_RTC_CALIBRATION) ∧
      (m.spsws_ctx.state = SPSWS_state_t.SPSWS_STATE_SLEEP →
        m2.spsws_ctx.state = SPSWS_state_t.SPSWS_STATE_TASK_CHECK)) ∧
    ((main_step cfg rtc inp m).1 = none ↔
      m.spsws_ctx.state = SPSWS_state_t.SPSWS_STATE_SLEEP ∧
        m.spsws_ctx.flags.reset_request = true) ∧
    (m.spsws_ctx.state = SPSWS_state_t.SPSWS_STATE_STARTUP →
      (∀ x ∈ main_run cfg rtc ins m,
        x.1.spsws_ctx.state ≠ SPSWS_state_t.SPSWS_STATE_LAST) ∧
      (∀ x ∈ (main_run cfg rtc ins m).tail,
        x.1.spsws_ctx.state ≠ SPSWS_state_t.SPSWS_STATE_STARTUP)) := by
  refine ⟨?_, main_step_none_iff cfg rtc inp m, ?_⟩
  · intro m2 hstep
    have h := main_step_state cfg rtc inp m m2 hstep
    refine ⟨?_, ?_, ?_, ?_, ?_, ?_, ?_, ?_, ?_⟩ <;> intro hs <;> rw [hs] at h <;> exact h
  · intro hs
    cases ins with
    | nil => simp [main_run]
    | cons i rest =>
      rw [main_run_cons]
      have he : (alarm_interrupts i.1 m).spsws_ctx.state =
          SPSWS_state_t.SPSWS_STATE_STARTUP := by
        rw [alarm_interrupts_state]; exact hs
      cases hstep : (main_step cfg rtc i.2 (alarm_interrupts i.1 m)).1 with
      | none => simp [he]
      | some next =>
        have hn := main_step_state_operating cfg rtc i.2 _ next hstep
        have hrun := main_run_operating cfg rtc rest next hn.1 hn.2
        refine ⟨?_, ?_⟩
        · intro x hx
          rcases List.mem_cons.mp hx with hx | hx
          · rw [hx]
            show (alarm_interrupts i.1 m).spsws_ctx.state ≠ _
            rw [he]; decide
          · exact (hrun x hx).2
        · intro x hx
          exact (hrun x (by simpa using hx)).1

/-- Witness of C22 amended: the first five iterations from the initial context, every
driver succeeding and no alarm firing, visit Startup, RtcCalibration, TaskEnd, TaskCheck
and Measure: Startup is not entered again. -/
theorem state_successors_witness :
    (main_run cfg_sample rtc_config_sample
        (List.replicate 5 ([], main_inputs_sample 100)) (main_init_sample 0)).tail.all
      (fun x => decide (x.1.spsws_ctx.state ≠ SPSWS_state_t.SPSWS_STATE_STARTUP)) = true :=
  List.all_eq_true.mpr (fun x hx => decide_eq_true
    (((state_successors cfg_sample rtc_config_sample (main_inputs_sample 100)
      (List.replicate 5 ([], main_inputs_sample 100)) (main_init_sample 0)).2.2 rfl).2 x hx))

/-! ## Theorems: request bits -/

theorem measure_clears_request (cfg : SPSWS_config_t) (inp : MEASURE_inputs)
    (c : SPSWS_context_t) :
    (main_SPSWS_STATE_MEASURE cfg inp c).1.flags.measure_request = false := by
  rw [measure_flags]

theorem monitoring_clears_request (cfg : SPSWS_config_t) (inp : MAIN_inputs)
    (c : SPSWS_context_t) :
    (main_SPSWS_STATE_MONITORING cfg inp c).1.flags.monitoring_request = false := by
  by_cases hreq : c.flags.monitoring_request ≠ false
  · rw [main_SPSWS_STATE_MONITORING, if_pos hreq]
  · rw [main_SPSWS_STATE_MONITORING, if_neg hreq]
    simpa using hreq

theorem geoloc_clears_request (cfg : SPSWS_config_t) (inp : MAIN_inputs)
    (c : SPSWS_context_t) :
    (main_SPSWS_STATE_GEOLOC cfg inp c).1.flags.geoloc_request = false := by
  by_cases hreq : c.flags.geoloc_request ≠ false
  · rw [main_SPSWS_STATE_GEOLOC, if_pos hreq]
  · rw [main_SPSWS_STATE_GEOLOC, if_neg hreq]
    simpa using hreq

theorem error_stack_clears_request (cfg : SPSWS_config_t) (inp : MAIN_inputs)
    (c : SPSWS_context_t) :
    (main_SPSWS_STATE_ERROR_STACK cfg inp c).1.flags.error_stack_request = false := by
  by_cases hreq : c.flags.error_stack_request ≠ false
  · rw [main_SPSWS_STATE_ERROR_STACK, if_pos hreq]
  · rw [main_SPSWS_STATE_ERROR_STACK, if_neg hreq]
    simpa using hreq

theorem rtc_calibration_clears_request (cfg : SPSWS_config_t) (inp : MAIN_inputs)
    (m : main_t) :
    (main_SPSWS_STATE_RTC_CALIBRATION cfg inp m).1.spsws_ctx.flags.rtc_calibration_request
      = false := by
  by_cases hreq : m.spsws_ctx.flags.rtc_calibration_request ≠ false
  · rw [main_SPSWS_STATE_RTC_CALIBRATION]
    simp only [if_pos hreq]
  · rw [main_SPSWS_STATE_RTC_CALIBRATION]
    simp only [if_neg hreq]
    simpa using hreq

/-- C23: the request bit of each task is clear after the state step that consumes it,
whatever the drivers and the radio library return: `measure_request` after a Measure
step, `monitoring_request` after a Monitoring step, `geoloc_request` after a Geoloc step,
`error_stack_request` after an ErrorStack step and `rtc_calibration_request` after an
RtcCalibration step; the same holds for the iteration of the loop of `main` in each of
these states. -/
theorem request_clear_after_step (cfg : SPSWS_config_t) (rtc : RTC_config_t)
    (inp : MAIN_inputs) (m : main_t) :
    (main_SPSWS_STATE_MEASURE cfg inp.measure m.spsws_ctx).1.flags.measure_request = false ∧
    (main_SPSWS_STATE_MONITORING cfg inp m.spsws_ctx).1.flags.monitoring_request = false ∧
    (main_SPSWS_STATE_GEOLOC cfg inp m.spsws_ctx).1.flags.geoloc_request = false ∧
    (main_SPSWS_STATE_ERROR_STACK cfg inp m.spsws_ctx).1.flags.error_stack_request = false ∧
    (main_SPSWS_STATE_RTC_CALIBRATION cfg inp m).1.spsws_ctx.flags.rtc_calibration_request
      = false ∧
    (∀ m2 : main_t, (main_step cfg rtc inp m).1 = some m2 →
      (m.spsws_ctx.state = SPSWS_state_t.SPSWS_STATE_MEASURE →
        m2.spsws_ctx.flags.measure_request = false) ∧
      (m.spsws_ctx.state = SPSWS_state_t.SPSWS_STATE_MONITORING →
        m2.spsws_ctx.flags.monitoring_request = false) ∧
      (m.spsws_ctx.state = SPSWS_state_t.SPSWS_STATE_GEOLOC →
        m2.spsws_ctx.flags.geoloc_request = false) ∧
      (m.spsws_ctx.state = SPSWS_state_t.SPSWS_STATE_ERROR_STACK →
        m2.spsws_ctx.flags.error_stack_request = false) ∧
      (m.spsws_ctx.state = SPSWS_state_t.SPSWS_STATE_RTC_CALIBRATION →
        m2.spsws_ctx.flags.rtc_calibration_request = false)) := by
  refine ⟨measure_clears_request _ _ _, monitoring_clears_request _ _ _,
    geoloc_clears_request _ _ _, error_stack_clears_request _ _ _,
    rtc_calibration_clears_request _ _ _, ?_⟩
  intro m2 hstep
  unfold main_step at hstep
  refine ⟨?_, ?_, ?_, ?_, ?_⟩ <;> intro hs <;> rw [hs] at hstep <;>
    simp only [Option.some.injEq] at hstep <;> subst hstep
  · exact measure_clears_request _ _ _
  · exact monitoring_clears_request _ _ _
  · exact geoloc_clears_request _ _ _
  · exact error_stack_clears_request _ _ _
  · exact rtc_calibration_clears_request _ _ _

/-- Witness of C23: a Monitoring iteration with a pending request and every driver
succeeding leaves `monitoring_request` clear. -/
theorem request_clear_after_step_witness :
    (main_SPSWS_STATE_MONITORING cfg_sample (main_inputs_sample 100)
      (ctx_in SPSWS_state_t.SPSWS_STATE_MONITORING
        { flags_init with monitoring_request := true })).1.flags.monitoring_request = false :=
  (request_clear_after_step cfg_sample rtc_config_sample (main_inputs_sample 100)
    ⟨ctx_in SPSWS_state_t.SPSWS_STATE_MONITORING
      { flags_init with monitoring_request := true }, false⟩).2.1

/-! ## Theorems: RTC calibration -/

/-- C24 refuted as worded: an RtcCalibration step with a pending request whose GPS
acquisition times out changes the status register (`daily_rtc_calibration` goes from 1 to
0) and the flags (`rtc_calibration_request` goes from 1 to 0). -/
theorem rtc_calibration_timeout_counterexample :
    (main_inputs_gps_timeout 0).gps.gps_acquisition_success = false ∧
    main_calibration_pending.spsws_ctx.flags.rtc_calibration_request = true ∧
    main_calibration_pending.spsws_ctx.status.daily_rtc_calibration = true ∧
    (main_SPSWS_STATE_RTC_CALIBRATION cfg_sample (main_inputs_gps_timeout 0)
      main_calibration_pending).1.spsws_ctx.status.daily_rtc_calibration = false ∧
    (main_SPSWS_STATE_RTC_CALIBRATION cfg_sample (main_inputs_gps_timeout 0)
      main_calibration_pending).1.spsws_ctx.flags.rtc_calibration_request = false :=
  ⟨rfl, rfl, rfl, rfl, rfl⟩

/-- C24 amended: in an RtcCalibration step with a pending calibration request whose time
acquisition does not succeed, the clock is not set and nothing is written to non-volatile
storage: the trace is the call of `GPS_get_time` and its error report. Of the status
register only `daily_rtc_calibration` changes, to 0; of the flags
`rtc_calibration_request` is cleared and, when `por_flag` is set, so are
`first_sharp_hour_alarm`, `sharp_hour_alarm`, `weather_request` and `measure_request`;
`por_flag` is cleared and the next state is TaskEnd. -/
theorem rtc_calibration_timeout (cfg : SPSWS_config_t) (inp : MAIN_inputs) (m : main_t)
    (hreq : m.spsws_ctx.flags.rtc_calibration_request = true)
    (htimeout : inp.gps.gps_acquisition_success = false) :
    let r := main_SPSWS_STATE_RTC_CALIBRATION cfg inp m
    r.2 = Event.GPS_get_time SPSWS_RTC_CALIBRATION_TIMEOUT_SECONDS ::
      stack_error ERROR_base_t.ERROR_BASE_GPS inp.gps.gps_status ∧
    (∀ y mo d h mi s : Nat, Event.RTC_set_time y mo d h mi s ∉ r.2) ∧
    (∀ address data : Nat, Event.NVM_write_byte address data ∉ r.2) ∧
    r.1.spsws_ctx.status = { m.spsws_ctx.status with daily_rtc_calibration := false } ∧
    r.1.spsws_ctx.flags =
      (if m.por_flag = true then
        { m.spsws_ctx.flags with
          first_sharp_hour_alarm := false
          sharp_hour_alarm := false
          weather_request := false
          measure_request := false
          rtc_calibration_request := false }
      else { m.spsws_ctx.flags with rtc_calibration_request := false }) ∧
    r.1.por_flag = false ∧
    r.1.spsws_ctx =
      { m.spsws_ctx with
        status := r.1.spsws_ctx.status
        flags := r.1.spsws_ctx.flags
        state := SPSWS_state_t.SPSWS_STATE_TASK_END } := by
  intro r
  have hr : r = main_SPSWS_STATE_RTC_CALIBRATION cfg inp m := rfl
  rw [main_SPSWS_STATE_RTC_CALIBRATION] at hr
  have h1 : m.spsws_ctx.flags.rtc_calibration_request ≠ false := by simp [hreq]
  simp only [if_pos h1, htimeout] at hr
  have h2 : r.2 = Event.GPS_get_time SPSWS_RTC_CALIBRATION_TIMEOUT_SECONDS ::
      stack_error ERROR_base_t.ERROR_BASE_GPS inp.gps.gps_status := by
    rw [hr]; simp
  refine ⟨h2, ?_, ?_, ?_, ?_, ?_, ?_⟩
  · intro y mo d h mi s hmem
    rw [h2] at hmem
    rcases List.mem_cons.mp hmem with hmem | hmem
    · simp at hmem
    · have := mem_stack_error _ _ _ hmem
      simp at this
  · intro address data hmem
    rw [h2] at hmem
    rcases List.mem_cons.mp hmem with hmem | hmem
    · simp at hmem
    · have := mem_stack_error _ _ _ hmem
      simp at this
  · rw [hr]; simp
  · rw [hr]
    by_cases hpor : m.por_flag = true
    · simp [hpor]
    · simp [hpor]
  · rw [hr]
  · rw [hr]

/-- Witness of C24 amended: the step on a later day with a GPS timeout only calls
`GPS_get_time` and resets `daily_rtc_calibration`. -/
theorem rtc_calibration_timeout_witness :
    (main_SPSWS_STATE_RTC_CALIBRATION cfg_sample (main_inputs_gps_timeout 0)
      main_calibration_pending).2 =
      Event.GPS_get_time SPSWS_RTC_CALIBRATION_TIMEOUT_SECONDS ::
        stack_error ERROR_base_t.ERROR_BASE_GPS (main_inputs_gps_timeout 0).gps.gps_status ∧
    (main_SPSWS_STATE_RTC_CALIBRATION cfg_sample (main_inputs_gps_timeout 0)
      main_calibration_pending).1.spsws_ctx.status =
      { main_calibration_pending.spsws_ctx.status with daily_rtc_calibration := false } :=
  have h := rtc_calibration_timeout cfg_sample (main_inputs_gps_timeout 0)
    main_calibration_pending rfl rfl
  ⟨h.1, h.2.2.2.1⟩

/-! ## Theorems: first RTC calibration -/

theorem parse_dl_payload_keeps_status (cfg : SPSWS_config_t) (inp : SIGFOX_EP_API_inputs)
    (c : SPSWS_context_t) : (parse_dl_payload cfg inp c).1.status = c.status := by
  unfold parse_dl_payload _SPSWS_store_weather_data_period
  simp only []
  split_ifs <;> rfl

theorem send_keeps_first_rtc_calibration (cfg : SPSWS_config_t) (inp : SIGFOX_EP_API_inputs)
    (msg : SIGFOX_EP_API_application_message_t) (c : SPSWS_context_t) :
    (_SPSWS_send_sigfox_message cfg inp msg c).1.status.first_rtc_calibration =
      c.status.first_rtc_calibration := by
  unfold _SPSWS_send_sigfox_message SIGFOX_EP_API_check_status
  simp only []
  split_ifs <;> first
    | rfl
    | (show (parse_dl_payload _ _ _).1.status.first_rtc_calibration = _
       rw [parse_dl_payload_keeps_status])

theorem monitoring_keeps_first_rtc_calibration (cfg : SPSWS_config_t) (inp : MAIN_inputs)
    (c : SPSWS_context_t) :
    (main_SPSWS_STATE_MONITORING cfg inp c).1.status.first_rtc_calibration =
      c.status.first_rtc_calibration := by
  by_cases hreq : c.flags.monitoring_request ≠ false
  · rw [main_SPSWS_STATE_MONITORING, if_pos hreq]
    exact send_keeps_first_rtc_calibration _ _ _ _
  · rw [main_SPSWS_STATE_MONITORING, if_neg hreq]

theorem geoloc_keeps_first_rtc_calibration (cfg : SPSWS_config_t) (inp : MAIN_inputs)
    (c : SPSWS_context_t) :
    (main_SPSWS_STATE_GEOLOC cfg inp c).1.status.first_rtc_calibration =
      c.status.first_rtc_calibration := by
  by_cases hreq : c.flags.geoloc_request ≠ false
  · rw [main_SPSWS_STATE_GEOLOC, if_pos hreq]
    exact send_keeps_first_rtc_calibration _ _ _ _
  · rw [main_SPSWS_STATE_GEOLOC, if_neg hreq]

theorem error_stack_keeps_first_rtc_calibration (cfg : SPSWS_config_t) (inp : MAIN_inputs)
    (c : SPSWS_context_t) :
    (main_SPSWS_STATE_ERROR_STACK cfg inp c).1.status.first_rtc_calibration =
      c.status.first_rtc_calibration := by
  by_cases hreq : c.flags.error_stack_request ≠ false
  · rw [main_SPSWS_STATE_ERROR_STACK, if_pos hreq]
    by_cases hempty : inp.error_stack.stack_is_empty = 0
    · simp only [if_pos hempty]
      exact send_keeps_first_rtc_calibration _ _ _ _
    · simp only [if_neg hempty]
  · rw [main_SPSWS_STATE_ERROR_STACK, if_neg hreq]

theorem rtc_calibration_keeps_first_rtc_calibration (cfg : SPSWS_config_t)
    (inp : MAIN_inputs) (m : main_t) (h : m.spsws_ctx.status.first_rtc_calibration = true) :
    (main_SPSWS_STATE_RTC_CALIBRATION cfg inp m).1.spsws_ctx.status.first_rtc_calibration
      = true := by
  rw [main_SPSWS_STATE_RTC_CALIBRATION]
  simp only []
  split_ifs <;> first | rfl | exact h

theorem task_check_requests_keeps_status (u : Nat) (c : SPSWS_context_t) :
    (task_check_requests u c).status = c.status := by
  unfold task_check_requests
  simp only []
  split_ifs <;> rfl

theorem task_check_keeps_first_rtc_calibration (cfg : SPSWS_config_t) (rtc : RTC_config_t)
    (inp : MAIN_inputs) (c : SPSWS_context_t) :
    (main_SPSWS_STATE_TASK_CHECK cfg rtc inp c).1.status.first_rtc_calibration =
      c.status.first_rtc_calibration := by
  unfold main_SPSWS_STATE_TASK_CHECK
  have h1 := task_check_requests_keeps_status inp.uptime c
  generalize task_check_requests inp.uptime c = c1 at h1
  simp only []
  split_ifs
  · show c1.status.first_rtc_calibration = _
    rw [h1]
  · show c1.status.first_rtc_calibration = _
    rw [h1]
  · show c1.status.first_rtc_calibration = _
    rw [h1]
  · show c1.status.first_rtc_calibration = _
    rw [h1]

theorem main_step_keeps_first_rtc_calibration (cfg : SPSWS_config_t) (rtc : RTC_config_t)
    (inp : MAIN_inputs) (m m2 : main_t) (hstep : (main_step cfg rtc inp m).1 = some m2)
    (h : m.spsws_ctx.status.first_rtc_calibration = true) :
    m2.spsws_ctx.status.first_rtc_calibration = true := by
  unfold main_step at hstep
  cases hs : m.spsws_ctx.state <;> rw [hs] at hstep <;>
    simp only [Option.some.injEq] at hstep <;> try subst hstep
  · show (_SPSWS_send_sigfox_message _ _ _ _).1.status.first_rtc_calibration = true
    rw [send_keeps_first_rtc_calibration]; exact h
  · exact h
  · show (_SPSWS_send_sigfox_message _ _ _ _).1.status.first_rtc_calibration = true
    rw [send_keeps_first_rtc_calibration]; exact h
  · show (main_SPSWS_STATE_MONITORING cfg inp m.spsws_ctx).1.status.first_rtc_calibration = true
    rw [monitoring_keeps_first_rtc_calibration]; exact h
  · show (main_SPSWS_STATE_GEOLOC cfg inp m.spsws_ctx).1.status.first_rtc_calibration = true
    rw [geoloc_keeps_first_rtc_calibration]; exact h
  · show (main_SPSWS_STATE_ERROR_STACK cfg inp m.spsws_ctx).1.status.first_rtc_calibration
      = true
    rw [error_stack_keeps_first_rtc_calibration]; exact h
  · exact rtc_calibration_keeps_first_rtc_calibration _ _ _ h
  · exact h
  · show (main_SPSWS_STATE_TASK_CHECK cfg rtc inp m.spsws_ctx).1.status.first_rtc_calibration
      = true
    rw [task_check_keeps_first_rtc_calibration]; exact h
  · simp only [main_SPSWS_STATE_SLEEP] at hstep
    split_ifs at hstep
    · simp at hstep
    · simp only [Option.map_some', Option.some.injEq] at hstep
      subst hstep
      exact h
  · exact h

theorem not_write_stack_error (e : Event) (b : ERROR_base_t) (s : Nat)
    (h : e ∈ stack_error b s) : is_NVM_write_byte e = false := by
  rw [mem_stack_error e b s h]; rfl

theorem update_nvm_data_wake_up_any (cfg : SPSWS_config_t) (inp : NVM_data_inputs)
    (c d : SPSWS_context_t) :
    _SPSWS_update_nvm_data cfg inp SPSWS_nvm_data_t.SPSWS_NVM_DATA_LAST_WAKE_UP c =
      _SPSWS_update_nvm_data cfg inp SPSWS_nvm_data_t.SPSWS_NVM_DATA_LAST_WAKE_UP d := rfl

theorem update_nvm_data_wake_up_writes (cfg : SPSWS_config_t) (inp : NVM_data_inputs)
    (c : SPSWS_context_t) :
    Event.NVM_write_byte (cfg.nvm_address.NVM_ADDRESS_LAST_WAKE_UP_YEAR + 0)
        (inp.current_time.year / 2 ^ 8 % 2 ^ 8) ∈
      _SPSWS_update_nvm_data cfg inp SPSWS_nvm_data_t.SPSWS_NVM_DATA_LAST_WAKE_UP c := by
  simp [_SPSWS_update_nvm_data, nvm_write]

/-- The trace of an RtcCalibration step that sets the clock for the first time. -/
theorem rtc_calibration_first_trace (cfg : SPSWS_config_t) (inp : MAIN_inputs) (m : main_t)
    (hreq : m.spsws_ctx.flags.rtc_calibration_request = true)
    (hgps : inp.gps.gps_acquisition_success = true) (hrtc : inp.rtc_set_time_status = 0)
    (hfirst : m.spsws_ctx.status.first_rtc_calibration = false) :
    (main_SPSWS_STATE_RTC_CALIBRATION cfg inp m).2 =
      Event.GPS_get_time SPSWS_RTC_CALIBRATION_TIMEOUT_SECONDS ::
        stack_error ERROR_base_t.ERROR_BASE_GPS inp.gps.gps_status ++
      (Event.RTC_set_time inp.gps.gps_time.year inp.gps.gps_time.month inp.gps.gps_time.date
          inp.gps.gps_time.hours inp.gps.gps_time.minutes inp.gps.gps_time.seconds ::
        stack_error ERROR_base_t.ERROR_BASE_RTC inp.rtc_set_time_status ++
      _SPSWS_update_nvm_data cfg inp.nvm_data SPSWS_nvm_data_t.SPSWS_NVM_DATA_LAST_WAKE_UP
        m.spsws_ctx) ∧
    (main_SPSWS_STATE_RTC_CALIBRATION cfg inp m).1.spsws_ctx.status.first_rtc_calibration
      = true := by
  rw [main_SPSWS_STATE_RTC_CALIBRATION]
  have h1 : m.spsws_ctx.flags.rtc_calibration_request ≠ false := by simp [hreq]
  simp only [if_pos h1, hgps, hrtc, hfirst, if_true]
  exact ⟨rfl, trivial⟩

theorem rtc_calibration_trace (cfg : SPSWS_config_t) (inp : MAIN_inputs) (m : main_t) :
    (main_SPSWS_STATE_RTC_CALIBRATION cfg inp m).2 =
      if m.spsws_ctx.flags.rtc_calibration_request ≠ false then
        (Event.GPS_get_time SPSWS_RTC_CALIBRATION_TIMEOUT_SECONDS ::
          stack_error ERROR_base_t.ERROR_BASE_GPS inp.gps.gps_status) ++
        (if inp.gps.gps_acquisition_success = true then
          (Event.RTC_set_time inp.gps.gps_time.year inp.gps.gps_time.month
              inp.gps.gps_time.date inp.gps.gps_time.hours inp.gps.gps_time.minutes
              inp.gps.gps_time.seconds ::
            stack_error ERROR_base_t.ERROR_BASE_RTC inp.rtc_set_time_status) ++
          (if inp.rtc_set_time_status = 0 then
            if m.spsws_ctx.status.first_rtc_calibration = false then
              _SPSWS_update_nvm_data cfg inp.nvm_data
                SPSWS_nvm_data_t.SPSWS_NVM_DATA_LAST_WAKE_UP m.spsws_ctx
            else []
          else [])
        else [])
      else [] := by
  by_cases h1 : m.spsws_ctx.flags.rtc_calibration_request ≠ false
  · rw [main_SPSWS_STATE_RTC_CALIBRATION]
    simp only [if_pos h1]
    by_cases h2 : inp.gps.gps_acquisition_success = true
    · simp only [if_pos h2]
      by_cases h3 : inp.rtc_set_time_status = 0
      · simp only [if_pos h3]
        by_cases h4 : m.spsws_ctx.status.first_rtc_calibration = false
        · simp only [if_pos h4]
          rfl
        · simp only [if_neg h4]
      · simp only [if_neg h3, List.append_nil]
    · simp only [if_neg h2]
  · rw [main_SPSWS_STATE_RTC_CALIBRATION]
    simp only [if_neg h1]

/-- An RtcCalibration step calls `NVM_write_byte` only when it sets the clock for the
first time. -/
theorem rtc_calibration_no_write (cfg : SPSWS_config_t) (inp : MAIN_inputs) (m : main_t)
    (h : ¬ (m.spsws_ctx.flags.rtc_calibration_request = true ∧
      inp.gps.gps_acquisition_success = true ∧ inp.rtc_set_time_status = 0 ∧
      m.spsws_ctx.status.first_rtc_calibration = false)) :
    ∀ e ∈ (main_SPSWS_STATE_RTC_CALIBRATION cfg inp m).2, is_NVM_write_byte e = false := by
  intro e he
  rw [rtc_calibration_trace] at he
  by_cases h1 : m.spsws_ctx.flags.rtc_calibration_request ≠ false
  · rw [if_pos h1] at he
    have hgps : ∀ x ∈ Event.GPS_get_time SPSWS_RTC_CALIBRATION_TIMEOUT_SECONDS ::
        stack_error ERROR_base_t.ERROR_BASE_GPS inp.gps.gps_status,
        is_NVM_write_byte x = false := by
      intro x hx
      rcases List.mem_cons.mp hx with hx | hx
      · rw [hx]; rfl
      · exact not_write_stack_error _ _ _ hx
    rcases List.mem_append.mp he with he | he
    · exact hgps e he
    · by_cases h2 : inp.gps.gps_acquisition_success = true
      · rw [if_pos h2] at he
        rcases List.mem_append.mp he with he | he
        · rcases List.mem_cons.mp he with he | he
          · rw [he]; rfl
          · exact not_write_stack_error _ _ _ he
        · by_cases h3 : inp.rtc_set_time_status = 0
          · rw [if_pos h3] at he
            by_cases h4 : m.spsws_ctx.status.first_rtc_calibration = false
            · exact absurd ⟨by simpa using h1, h2, h3, h4⟩ h
            · rw [if_neg h4] at he; simp at he
          · rw [if_neg h3] at he; simp at he
      · rw [if_neg h2] at he; simp at he
  · rw [if_neg h1] at he; simp at he

theorem main_step_rtc_calibration (cfg : SPSWS_config_t) (rtc : RTC_config_t)
    (inp : MAIN_inputs) (m : main_t)
    (hs : m.spsws_ctx.state = SPSWS_state_t.SPSWS_STATE_RTC_CALIBRATION) :
    main_step cfg rtc inp m =
      (some (main_SPSWS_STATE_RTC_CALIBRATION cfg inp m).1,
        (main_SPSWS_STATE_RTC_CALIBRATION cfg inp m).2) := by
  unfold main_step
  rw [hs]

/-- An iteration that is an RtcCalibration step calling `NVM_write_byte` starts with
`first_rtc_calibration` clear and ends with it set. -/
theorem rtc_calibration_writes_first (cfg : SPSWS_config_t) (rtc : RTC_config_t)
    (inp : MAIN_inputs) (m : main_t)
    (h : rtc_calibration_writes (m, (main_step cfg rtc inp m).2) = true) :
    m.spsws_ctx.status.first_rtc_calibration = false ∧
      ∃ next, (main_step cfg rtc inp m).1 = some next ∧
        next.spsws_ctx.status.first_rtc_calibration = true := by
  unfold rtc_calibration_writes at h
  simp only [Bool.and_eq_true, decide_eq_true_eq, List.any_eq_true] at h
  obtain ⟨hs, e, he, hw⟩ := h
  rw [main_step_rtc_calibration cfg rtc inp m hs] at he ⊢
  by_cases hc : m.spsws_ctx.flags.rtc_calibration_request = true ∧
      inp.gps.gps_acquisition_success = true ∧ inp.rtc_set_time_status = 0 ∧
      m.spsws_ctx.status.first_rtc_calibration = false
  · exact ⟨hc.2.2.2, _, rfl,
      (rtc_calibration_first_trace cfg inp m hc.1 hc.2.1 hc.2.2.1 hc.2.2.2).2⟩
  · have := rtc_calibration_no_write cfg inp m hc e he
    rw [this] at hw
    exact absurd hw (by decide)

theorem main_run_writes_zero (cfg : SPSWS_config_t) (rtc : RTC_config_t) :
    ∀ (ins : List (List Nat × MAIN_inputs)) (m : main_t),
      m.spsws_ctx.status.first_rtc_calibration = true →
      (main_run cfg rtc ins m).countP rtc_calibration_writes = 0 := by
  intro ins
  induction ins with
  | nil => intro m _; simp [main_run]
  | cons i rest ih =>
    intro m h
    rw [main_run_cons, List.countP_cons]
    have he : (alarm_interrupts i.1 m).spsws_ctx.status.first_rtc_calibration = true := by
      rw [alarm_interrupts_status]; exact h
    generalize alarm_interrupts i.1 m = entry at he ⊢
    have hw : rtc_calibration_writes (entry, (main_step cfg rtc i.2 entry).2) = false := by
      by_contra hne
      have := (rtc_calibration_writes_first cfg rtc i.2 entry (by simpa using hne)).1
      rw [he] at this
      exact absurd this (by decide)
    rw [hw]
    cases hstep : (main_step cfg rtc i.2 entry).1 with
    | none => simp
    | some next =>
      simp only [Bool.false_eq_true, if_false, add_zero]
      exact ih next (main_step_keeps_first_rtc_calibration cfg rtc i.2 entry next hstep he)

theorem main_run_writes_le_one (cfg : SPSWS_config_t) (rtc : RTC_config_t) :
    ∀ (ins : List (List Nat × MAIN_inputs)) (m : main_t),
      (main_run cfg rtc ins m).countP rtc_calibration_writes ≤ 1 := by
  intro ins
  induction ins with
  | nil => intro m; simp [main_run]
  | cons i rest ih =>
    intro m
    rw [main_run_cons, List.countP_cons]
    generalize alarm_interrupts i.1 m = entry
    by_cases hw : rtc_calibration_writes (entry, (main_step cfg rtc i.2 entry).2) = true
    · obtain ⟨_, next, hstep, hnext⟩ := rtc_calibration_writes_first cfg rtc i.2 entry hw
      rw [hstep, hw]
      simp only [if_true]
      rw [main_run_writes_zero cfg rtc rest next hnext]
    · have hw2 : rtc_calibration_writes (entry, (main_step cfg rtc i.2 entry).2) = false := by
        simpa using hw
      rw [hw2]
      cases hstep : (main_step cfg rtc i.2 entry).1 with
      | none => simp
      | some next =>
        simp only [Bool.false_eq_true, if_false, add_zero]
        exact ih next

/-- C25: an RtcCalibration step writes the last-wake-up record exactly when a calibration
request is pending, the time acquisition succeeds, `RTC_set_time` succeeds and
`first_rtc_calibration` is still 0: then the trace ends with the writes of
`_SPSWS_update_nvm_data(SPSWS_NVM_DATA_LAST_WAKE_UP)` and the step sets
`first_rtc_calibration`; otherwise the step calls `NVM_write_byte` not at all. No iteration
of the loop of `main` clears `first_rtc_calibration`, so in every run at most one
RtcCalibration step writes to the store, and none once `first_rtc_calibration` is set. -/
theorem rtc_calibration_wake_up_record (cfg : SPSWS_config_t) (rtc : RTC_config_t)
    (inp : MAIN_inputs) (ins : List (List Nat × MAIN_inputs)) (m : main_t) :
    let r := main_SPSWS_STATE_RTC_CALIBRATION cfg inp m
    let first := m.spsws_ctx.flags.rtc_calibration_request = true ∧
      inp.gps.gps_acquisition_success = true ∧ inp.rtc_set_time_status = 0 ∧
      m.spsws_ctx.status.first_rtc_calibration = false
    (first →
      r.2 = Event.GPS_get_time SPSWS_RTC_CALIBRATION_TIMEOUT_SECONDS ::
          stack_error ERROR_base_t.ERROR_BASE_GPS inp.gps.gps_status ++
        (Event.RTC_set_time inp.gps.gps_time.year inp.gps.gps_time.month
            inp.gps.gps_time.date inp.gps.gps_time.hours inp.gps.gps_time.minutes
            inp.gps.gps_time.seconds ::
          stack_error ERROR_base_t.ERROR_BASE_RTC inp.rtc_set_time_status ++
        _SPSWS_update_nvm_data cfg inp.nvm_data SPSWS_nvm_data_t.SPSWS_NVM_DATA_LAST_WAKE_UP
          m.spsws_ctx) ∧
      r.1.spsws_ctx.status.first_rtc_calibration = true) ∧
    ((∃ e ∈ r.2, is_NVM_write_byte e = true) ↔ first) ∧
    (∀ m2 : main_t, (main_step cfg rtc inp m).1 = some m2 →
      m.spsws_ctx.status.first_rtc_calibration = true →
      m2.spsws_ctx.status.first_rtc_calibration = true) ∧
    (main_run cfg rtc ins m).countP rtc_calibration_writes ≤ 1 ∧
    (m.spsws_ctx.status.first_rtc_calibration = true →
      (main_run cfg rtc ins m).countP rtc_calibration_writes = 0) := by
  intro r first
  refine ⟨fun h => rtc_calibration_first_trace cfg inp m h.1 h.2.1 h.2.2.1 h.2.2.2, ?_,
    fun m2 hstep h => main_step_keeps_first_rtc_calibration cfg rtc inp m m2 hstep h,
    main_run_writes_le_one cfg rtc ins m, main_run_writes_zero cfg rtc ins m⟩
  constructor
  · rintro ⟨e, he, hw⟩
    by_contra hc
    have := rtc_calibration_no_write cfg inp m hc e he
    rw [this] at hw
    exact absurd hw (by decide)
  · intro h
    refine ⟨Event.NVM_write_byte (cfg.nvm_address.NVM_ADDRESS_LAST_WAKE_UP_YEAR + 0)
      (inp.nvm_data.current_time.year / 2 ^ 8 % 2 ^ 8), ?_, rfl⟩
    show _ ∈ (main_SPSWS_STATE_RTC_CALIBRATION cfg inp m).2
    rw [(rtc_calibration_first_trace cfg inp m h.1 h.2.1 h.2.2.1 h.2.2.2).1]
    simp only [List.cons_append, List.mem_cons, List.mem_append]
    exact Or.inr (Or.inr (Or.inr (Or.inr (update_nvm_data_wake_up_writes _ _ _))))

/-- Witness of C25: in the first twelve iterations from the initial context, every driver
succeeding and an alarm firing before each iteration, at most one RtcCalibration step
writes to the store. -/
theorem rtc_calibration_wake_up_record_witness :
    (main_run cfg_sample rtc_config_sample (List.replicate 12 ([50], main_inputs_sample 100))
      (main_init_sample 0)).countP rtc_calibration_writes ≤ 1 :=
  (rtc_calibration_wake_up_record cfg_sample rtc_config_sample (main_inputs_sample 100)
    (List.replicate 12 ([50], main_inputs_sample 100)) (main_init_sample 0)).2.2.2.1

/-! ## Theorems: indices of the measurement channels -/

theorem add_sample_in_bounds (m : SPSWS_measurement_t) (v : Int)
    (h : m.sample_count < 60 ∧ m.last_sample_index < 60 ∧ m.sample_buffer.length = 60) :
    (_SPSWS_measurement_add_sample m v).sample_count < 60 ∧
      (_SPSWS_measurement_add_sample m v).last_sample_index < 60 ∧
      (_SPSWS_measurement_add_sample m v).sample_buffer.length = 60 := by
  by_cases hc : m.sample_count + 1 < 60
  · rw [add_sample_below m v hc]
    exact ⟨hc, h.1, by simp [h.2.2]⟩
  · rw [add_sample_wrap m v (by omega)]
    exact ⟨by show 0 < 60; decide, h.1, by simp [h.2.2]⟩

theorem channel_apply_in_bounds (m : SPSWS_measurement_t) (call : channel_call)
    (h : m.sample_count < 60 ∧ m.last_sample_index < 60 ∧ m.sample_buffer.length = 60) :
    (channel_apply m call).sample_count < 60 ∧ (channel_apply m call).last_sample_index < 60 ∧
      (channel_apply m call).sample_buffer.length = 60 := by
  cases call with
  | add_sample v => exact add_sample_in_bounds m v h
  | reset_measurements => exact ⟨by show 0 < 60; decide, h.2.1, h.2.2⟩

theorem channel_apply_vcap_in_bounds (m : SPSWS_measurement_t) (call : channel_call)
    (h : m.sample_count < 60 ∧ m.last_sample_index < 60 ∧ m.sample_buffer.length = 60) :
    (channel_apply_vcap m call).sample_count < 60 ∧
      (channel_apply_vcap m call).last_sample_index < 60 ∧
      (channel_apply_vcap m call).sample_buffer.length = 60 := by
  cases call with
  | add_sample v => exact add_sample_in_bounds m v h
  | reset_measurements => exact h

theorem channel_run_in_bounds (calls : List channel_call) :
    ∀ m : SPSWS_measurement_t,
      (m.sample_count < 60 ∧ m.last_sample_index < 60 ∧ m.sample_buffer.length = 60) →
      ((calls.foldl channel_apply m).sample_count < 60 ∧
        (calls.foldl channel_apply m).last_sample_index < 60 ∧
        (calls.foldl channel_apply m).sample_buffer.length = 60) ∧
      ((calls.foldl channel_apply_vcap m).sample_count < 60 ∧
        (calls.foldl channel_apply_vcap m).last_sample_index < 60 ∧
        (calls.foldl channel_apply_vcap m).sample_buffer.length = 60) := by
  induction calls with
  | nil => intro m h; exact ⟨h, h⟩
  | cons call rest ih =>
    intro m h
    simp only [List.foldl_cons]
    exact ⟨(ih _ (channel_apply_in_bounds m call h)).1,
      (ih _ (channel_apply_vcap_in_bounds m call h)).2⟩

/-- C26: from the zero-initialised channel, after every sequence of calls of
`_SPSWS_measurement_add_sample` and `_SPSWS_reset_measurements`, `sample_count` and
`last_sample_index` are below 60 and the buffer has 60 entries, for a channel that
`_SPSWS_reset_measurements` resets and for the supercap channel that it leaves as it is;
so the write of `_SPSWS_measurement_add_sample` at `sample_count` and the read of the
supercap value at `last_sample_index` are inside the buffer. `_SPSWS_reset_measurements`
acts on each of the eleven channels of the context as in these sequences. -/
theorem measurement_indices_in_bounds (calls : List channel_call) (ctx : SPSWS_context_t) :
    let m := calls.foldl channel_apply measurement_zero
    let vcap := calls.foldl channel_apply_vcap measurement_zero
    (m.sample_count < 60 ∧ m.last_sample_index < 60 ∧ m.sample_buffer.length = 60) ∧
    (vcap.sample_count < 60 ∧ vcap.last_sample_index < 60 ∧ vcap.sample_buffer.length = 60) ∧
    m.sample_count < m.sample_buffer.length ∧
    vcap.sample_count < vcap.sample_buffer.length ∧
    vcap.last_sample_index < vcap.sample_buffer.length ∧
    (let before := ctx.measurements
     let after := (_SPSWS_reset_measurements ctx).measurements
     let reset := channel_call.reset_measurements
     after.tamb_degrees = channel_apply before.tamb_degrees reset ∧
     after.hamb_percent = channel_apply before.hamb_percent reset ∧
     after.light_percent = channel_apply before.light_percent reset ∧
     after.uv_index = channel_apply before.uv_index reset ∧
     after.patm_abs_pa = channel_apply before.patm_abs_pa reset ∧
     after.tmcu_degrees = channel_apply before.tmcu_degrees reset ∧
     after.tpcb_degrees = channel_apply before.tpcb_degrees reset ∧
     after.hpcb_percent = channel_apply before.hpcb_percent reset ∧
     after.vsrc_mv = channel_apply before.vsrc_mv reset ∧
     after.vmcu_mv = channel_apply before.vmcu_mv reset ∧
     after.vcap_mv = channel_apply_vcap before.vcap_mv reset) := by
  intro m vcap
  have h0 : measurement_zero.sample_count < 60 ∧ measurement_zero.last_sample_index < 60 ∧
      measurement_zero.sample_buffer.length = 60 := ⟨by decide, by decide, by decide⟩
  have h := channel_run_in_bounds calls measurement_zero h0
  refine ⟨h.1, h.2, ?_, ?_, ?_, ?_⟩
  · show m.sample_count < m.sample_buffer.length
    rw [h.1.2.2]; exact h.1.1
  · show vcap.sample_count < vcap.sample_buffer.length
    rw [h.2.2.2]; exact h.2.1
  · show vcap.last_sample_index < vcap.sample_buffer.length
    rw [h.2.2.2]; exact h.2.2.1
  · exact ⟨rfl, rfl, rfl, rfl, rfl, rfl, rfl, rfl, rfl, rfl, rfl⟩

/-! ## Theorems: the two gates from the initial context -/

theorem store_weather_data_period_keeps_flags (cfg : SPSWS_config_t) (nvm_status : Nat)
    (weather_data_period : Nat) (c : SPSWS_context_t) :
    (_SPSWS_store_weather_data_period cfg nvm_status weather_data_period c).1.flags = c.flags := by
  unfold _SPSWS_store_weather_data_period
  split_ifs <;> rfl

theorem init_context_flags (cfg : SPSWS_config_t) (inp : INIT_inputs) (c : SPSWS_context_t) :
    (_SPSWS_init_context cfg inp c).1.flags = flags_init := by
  unfold _SPSWS_init_context
  simp only []
  rw [store_weather_data_period_keeps_flags]
  rfl

theorem measure_gates (cfg : SPSWS_config_t) (inp : MEASURE_inputs) (c : SPSWS_context_t)
    (h : c.flags.weather_request_enabled = true → c.flags.radio_enabled = true) :
    (main_SPSWS_STATE_MEASURE cfg inp c).1.flags.weather_request_enabled = true →
      (main_SPSWS_STATE_MEASURE cfg inp c).1.flags.radio_enabled = true := by
  by_cases hs : inp.vcap_mv.status = 0
  · rw [measure_weather_ok cfg inp c hs, measure_radio_ok cfg inp c hs]
    intro hw
    by_cases h1 : inp.vcap_mv.generic_s32_1 > 1500
    · rw [if_pos h1]
    · rw [if_neg h1]
      have h2 : ¬ inp.vcap_mv.generic_s32_1 > 2000 := by omega
      rw [if_neg h2] at hw
      by_cases h3 : inp.vcap_mv.generic_s32_1 < 1500
      · rw [if_pos h3] at hw
        exact absurd hw (by simp)
      · rw [if_neg h3] at hw
        rw [if_neg (by omega)]
        exact h hw
  · intro hw
    rw [measure_flags, if_neg hs] at hw ⊢
    exact h hw

theorem measure_run_gates (cfg : SPSWS_config_t) :
    ∀ (ins : List MEASURE_inputs) (c : SPSWS_context_t),
      (c.flags.weather_request_enabled = true → c.flags.radio_enabled = true) →
      ∀ x ∈ measure_run cfg c ins,
        x.flags.weather_request_enabled = true → x.flags.radio_enabled = true := by
  intro ins
  induction ins with
  | nil => intro c _ x hx; simp [measure_run] at hx
  | cons inp rest ih =>
    intro c h x hx
    simp only [measure_run, List.mem_cons] at hx
    rcases hx with hx | hx
    · rw [hx]; exact measure_gates cfg inp c h
    · exact ih _ (measure_gates cfg inp c h) x hx

/-- C27: in the context after `_SPSWS_init_context`, where both gates are enabled, and in
the context after each of any number of Measure steps from it, whatever the supercap
samples and whether the conversions succeed or fail, an enabled reporting gate implies an
enabled radio gate: `weather_request_enabled = 1` and `radio_enabled = 0` never hold
together. -/
theorem reporting_gate_implies_radio_gate (cfg : SPSWS_config_t) (init : INIT_inputs)
    (ctx : SPSWS_context_t) (ins : List MEASURE_inputs) :
    let c0 := (_SPSWS_init_context cfg init ctx).1
    (c0.flags.weather_request_enabled = true ∧ c0.flags.radio_enabled = true) ∧
    ∀ x ∈ c0 :: measure_run cfg c0 ins,
      ¬ (x.flags.weather_request_enabled = true ∧ x.flags.radio_enabled = false) := by
  intro c0
  have hf : c0.flags = flags_init := init_context_flags cfg init ctx
  have h0 : c0.flags.weather_request_enabled = true ∧ c0.flags.radio_enabled = true := by
    rw [hf]; exact ⟨rfl, rfl⟩
  refine ⟨h0, ?_⟩
  intro x hx hbad
  have hgate : x.flags.weather_request_enabled = true → x.flags.radio_enabled = true := by
    rcases List.mem_cons.mp hx with hx | hx
    · rw [hx]; exact fun _ => h0.2
    · exact measure_run_gates cfg ins c0 (fun _ => h0.2) x hx
  have := hgate hbad.1
  rw [hbad.2] at this
  exact absurd this (by simp)

/-- Witness of C27: after the initialisation and one Measure step that reads 1200 mV on
the supercap, the reporting gate is not enabled with the radio gate disabled. -/
theorem reporting_gate_implies_radio_gate_witness :
    ¬ ((main_SPSWS_STATE_MEASURE cfg_sample (measure_inputs_ok 1200 100)
          (_SPSWS_init_context cfg_sample (init_inputs_sample 0) ctx_zero).1
        ).1.flags.weather_request_enabled = true ∧
      (main_SPSWS_STATE_MEASURE cfg_sample (measure_inputs_ok 1200 100)
          (_SPSWS_init_context cfg_sample (init_inputs_sample 0) ctx_zero).1
        ).1.flags.radio_enabled = false) :=
  (reporting_gate_implies_radio_gate cfg_sample (init_inputs_sample 0) ctx_zero
    [measure_inputs_ok 1200 100]).2 _ (by simp [measure_run])

/-! ## Theorems: range of the weather data period -/

theorem store_weather_data_period_lt (cfg : SPSWS_config_t) (nvm_status : Nat)
    (weather_data_period : Nat) (c : SPSWS_context_t) (h : c.weather_data_period < 6) :
    (_SPSWS_store_weather_data_period cfg nvm_status weather_data_period c).1.weather_data_period
      < 6 := by
  unfold _SPSWS_store_weather_data_period SIGFOX_EP_DL_WEATHER_DATA_PERIOD_LAST
  split_ifs with h1
  · exact h1
  · exact h

theorem store_weather_data_period_writes (cfg : SPSWS_config_t) (nvm_status : Nat)
    (weather_data_period : Nat) (c : SPSWS_context_t) (address data : Nat)
    (h : Event.NVM_write_byte address data ∈
      (_SPSWS_store_weather_data_period cfg nvm_status weather_data_period c).2) :
    data < 6 := by
  unfold _SPSWS_store_weather_data_period SIGFOX_EP_DL_WEATHER_DATA_PERIOD_LAST at h
  split_ifs at h with h1
  · rcases mem_nvm_write _ _ _ _ h with h2 | h2
    · simp only [Event.NVM_write_byte.injEq] at h2
      rw [h2.2]; exact h1
    · simp at h2
  · simp at h

theorem load_weather_data_period_lt (cfg : SPSWS_config_t) (nvm_read : Nat → NVM_read_result)
    (c : SPSWS_context_t) :
    (_SPSWS_load_weather_data_period cfg nvm_read c).1.weather_data_period < 6 := by
  unfold _SPSWS_load_weather_data_period SIGFOX_EP_DL_WEATHER_DATA_PERIOD_LAST
    SIGFOX_EP_DL_WEATHER_DATA_PERIOD_60_MINUTES
  simp only []
  split_ifs with h1
  · decide
  · omega

theorem init_context_weather_data_period (cfg : SPSWS_config_t) (inp : INIT_inputs)
    (c : SPSWS_context_t) : (_SPSWS_init_context cfg inp c).1.weather_data_period < 6 := by
  unfold _SPSWS_init_context
  simp only []
  exact store_weather_data_period_lt _ _ _ _ (load_weather_data_period_lt _ _ _)

theorem parse_dl_payload_weather_data_period (cfg : SPSWS_config_t)
    (inp : SIGFOX_EP_API_inputs) (c : SPSWS_context_t) (h : c.weather_data_period < 6) :
    (parse_dl_payload cfg inp c).1.weather_data_period < 6 := by
  unfold parse_dl_payload
  simp only []
  split_ifs
  · exact h
  · exact h
  · exact store_weather_data_period_lt _ _ _ _ h
  · exact h

theorem send_weather_data_period (cfg : SPSWS_config_t) (inp : SIGFOX_EP_API_inputs)
    (msg : SIGFOX_EP_API_application_message_t) (c : SPSWS_context_t)
    (h : c.weather_data_period < 6) :
    (_SPSWS_send_sigfox_message cfg inp msg c).1.weather_data_period < 6 := by
  unfold _SPSWS_send_sigfox_message SIGFOX_EP_API_check_status
  simp only []
  split_ifs <;> first | exact h | exact parse_dl_payload_weather_data_period _ _ _ h

theorem monitoring_weather_data_period (cfg : SPSWS_config_t) (inp : MAIN_inputs)
    (c : SPSWS_context_t) (h : c.weather_data_period < 6) :
    (main_SPSWS_STATE_MONITORING cfg inp c).1.weather_data_period < 6 := by
  by_cases hreq : c.flags.monitoring_request ≠ false
  · rw [main_SPSWS_STATE_MONITORING, if_pos hreq]
    exact send_weather_data_period _ _ _ _ h
  · rw [main_SPSWS_STATE_MONITORING, if_neg hreq]
    exact h

theorem geoloc_weather_data_period (cfg : SPSWS_config_t) (inp : MAIN_inputs)
    (c : SPSWS_context_t) (h : c.weather_data_period < 6) :
    (main_SPSWS_STATE_GEOLOC cfg inp c).1.weather_data_period < 6 := by
  by_cases hreq : c.flags.geoloc_request ≠ false
  · rw [main_SPSWS_STATE_GEOLOC, if_pos hreq]
    exact send_weather_data_period _ _ _ _ h
  · rw [main_SPSWS_STATE_GEOLOC, if_neg hreq]
    exact h

theorem error_stack_weather_data_period (cfg : SPSWS_config_t) (inp : MAIN_inputs)
    (c : SPSWS_context_t) (h : c.weather_data_period < 6) :
    (main_SPSWS_STATE_ERROR_STACK cfg inp c).1.weather_data_period < 6 := by
  by_cases hreq : c.flags.error_stack_request ≠ false
  · rw [main_SPSWS_STATE_ERROR_STACK, if_pos hreq]
    by_cases hempty : inp.error_stack.stack_is_empty = 0
    · simp only [if_pos hempty]
      exact send_weather_data_period _ _ _ _ h
    · simp only [if_neg hempty]
      exact h
  · rw [main_SPSWS_STATE_ERROR_STACK, if_neg hreq]
    exact h

theorem rtc_calibration_weather_data_period (cfg : SPSWS_config_t) (inp : MAIN_inputs)
    (m : main_t) :
    (main_SPSWS_STATE_RTC_CALIBRATION cfg inp m).1.spsws_ctx.weather_data_period =
      m.spsws_ctx.weather_data_period := by
  by_cases hreq : m.spsws_ctx.flags.rtc_calibration_request ≠ false
  · rw [main_SPSWS_STATE_RTC_CALIBRATION]
    simp only [if_pos hreq]
  · rw [main_SPSWS_STATE_RTC_CALIBRATION]
    simp only [if_neg hreq]

theorem task_check_requests_weather_data_period (u : Nat) (c : SPSWS_context_t) :
    (task_check_requests u c).weather_data_period = c.weather_data_period := by
  unfold task_check_requests
  simp only []
  split_ifs <;> rfl

theorem task_check_weather_data_period (cfg : SPSWS_config_t) (rtc : RTC_config_t)
    (inp : MAIN_inputs) (c : SPSWS_context_t) :
    (main_SPSWS_STATE_TASK_CHECK cfg rtc inp c).1.weather_data_period =
      c.weather_data_period := by
  unfold main_SPSWS_STATE_TASK_CHECK
  have h1 := task_check_requests_weather_data_period inp.uptime c
  generalize task_check_requests inp.uptime c = c1 at h1
  simp only []
  split_ifs
  · show c1.weather_data_period = _
    rw [h1]
  · show c1.weather_data_period = _
    rw [h1]
  · show c1.weather_data_period = _
    rw [h1]
  · show c1.weather_data_period = _
    rw [h1]

theorem main_step_weather_data_period (cfg : SPSWS_config_t) (rtc : RTC_config_t)
    (inp : MAIN_inputs) (m m2 : main_t) (hstep : (main_step cfg rtc inp m).1 = some m2)
    (h : m.spsws_ctx.weather_data_period < 6) : m2.spsws_ctx.weather_data_period < 6 := by
  unfold main_step at hstep
  cases hs : m.spsws_ctx.state <;> rw [hs] at hstep <;>
    simp only [Option.some.injEq] at hstep <;> try subst hstep
  · exact send_weather_data_period _ _ _ _ h
  · exact h
  · exact send_weather_data_period _ _ _ _ h
  · exact monitoring_weather_data_period _ _ _ h
  · exact geoloc_weather_data_period _ _ _ h
  · exact error_stack_weather_data_period _ _ _ h
  · show (main_SPSWS_STATE_RTC_CALIBRATION cfg inp m).1.spsws_ctx.weather_data_period < 6
    rw [rtc_calibration_weather_data_period]; exact h
  · exact h
  · show (main_SPSWS_STATE_TASK_CHECK cfg rtc inp m.spsws_ctx).1.weather_data_period < 6
    rw [task_check_weather_data_period]; exact h
  · simp only [main_SPSWS_STATE_SLEEP] at hstep
    split_ifs at hstep
    · simp at hstep
    · simp only [Option.map_some', Option.some.injEq] at hstep
      subst hstep
      exact h
  · exact h

theorem main_run_weather_data_period (cfg : SPSWS_config_t) (rtc : RTC_config_t) :
    ∀ (ins : List (List Nat × MAIN_inputs)) (m : main_t),
      m.spsws_ctx.weather_data_period < 6 →
      ∀ x ∈ main_run cfg rtc ins m, x.1.spsws_ctx.weather_data_period < 6 := by
  intro ins
  induction ins with
  | nil => intro m _ x hx; simp [main_run] at hx
  | cons i rest ih =>
    intro m h x hx
    rw [main_run_cons] at hx
    have he : (alarm_interrupts i.1 m).spsws_ctx.weather_data_period < 6 := by
      rw [alarm_interrupts_weather_data_period]; exact h
    rcases List.mem_cons.mp hx with hx | hx
    · rw [hx]; exact he
    · cases hstep : (main_step cfg rtc i.2 (alarm_interrupts i.1 m)).1 with
      | none => rw [hstep] at hx; simp at hx
      | some next =>
        rw [hstep] at hx
        exact ih next (main_step_weather_data_period cfg rtc i.2 _ next hstep he) x hx

theorem weather_data_period_lookup (i : Nat) (h : i < 6) :
    ∃ period, SPSWS_WEATHER_DATA_PERIOD_SECONDS[i]? = some period ∧ period ≠ 0 ∧
      SPSWS_WEATHER_DATA_PERIOD_SECONDS.getD i 0 = period ∧ 3600 / period = i + 1 := by
  have : i = 0 ∨ i = 1 ∨ i = 2 ∨ i = 3 ∨ i = 4 ∨ i = 5 := by omega
  rcases this with h | h | h | h | h | h <;> subst h <;>
    exact ⟨_, rfl, by decide, rfl, by decide⟩

/-- C28: `_SPSWS_load_weather_data_period` replaces a stored byte of 6 or more by 0 (60
minutes) and keeps a smaller one; `_SPSWS_store_weather_data_period` takes a value below 6
only, and writes no byte of 6 or more to the store. `weather_data_period` is below 6 after
`_SPSWS_init_context`; from any context where it is below 6 it stays below 6 through a
radio transaction, whatever downlink frame is received, through every iteration of the
loop of `main` and through the alarm interrupt. Hence it is below 6 on entry of every
iteration of every run from the initial context, alarms and downlinks included; for an
index below 6 the entry of `SPSWS_WEATHER_DATA_PERIOD_SECONDS` that TaskCheck reads exists
and the divisor of `3600 / period` is not zero. -/
theorem weather_data_period_in_range (cfg : SPSWS_config_t) (rtc : RTC_config_t)
    (init : INIT_inputs) (ctx c : SPSWS_context_t) (por_flag : Bool)
    (ins : List (List Nat × MAIN_inputs))
    (nvm_read : Nat → NVM_read_result) (nvm_status weather_data_period : Nat) :
    (_SPSWS_load_weather_data_period cfg nvm_read c).1.weather_data_period =
      (if (nvm_read cfg.nvm_address.NVM_ADDRESS_WEATHER_DATA_PERIOD).data % 2 ^ 8 ≥ 6 then 0
        else (nvm_read cfg.nvm_address.NVM_ADDRESS_WEATHER_DATA_PERIOD).data % 2 ^ 8) ∧
    (_SPSWS_store_weather_data_period cfg nvm_status weather_data_period c
      ).1.weather_data_period =
      (if weather_data_period < 6 then weather_data_period else c.weather_data_period) ∧
    (∀ address data : Nat, Event.NVM_write_byte address data ∈
      (_SPSWS_store_weather_data_period cfg nvm_status weather_data_period c).2 → data < 6) ∧
    (_SPSWS_init_context cfg init ctx).1.weather_data_period < 6 ∧
    (∀ x ∈ main_run cfg rtc ins ⟨(_SPSWS_init_context cfg init ctx).1, por_flag⟩,
      x.1.spsws_ctx.weather_data_period < 6 ∧
      ∃ period,
        SPSWS_WEATHER_DATA_PERIOD_SECONDS[x.1.spsws_ctx.weather_data_period]? = some period ∧
        period ≠ 0 ∧
        SPSWS_WEATHER_DATA_PERIOD_SECONDS.getD x.1.spsws_ctx.weather_data_period 0 = period) ∧
    (∀ (sigfox : SIGFOX_EP_API_inputs) (msg : SIGFOX_EP_API_application_message_t)
        (d : SPSWS_context_t), d.weather_data_period < 6 →
      (parse_dl_payload cfg sigfox d).1.weather_data_period < 6 ∧
      (_SPSWS_send_sigfox_message cfg sigfox msg d).1.weather_data_period < 6) ∧
    (∀ (inp : MAIN_inputs) (m m2 : main_t), (main_step cfg rtc inp m).1 = some m2 →
      m.spsws_ctx.weather_data_period < 6 → m2.spsws_ctx.weather_data_period < 6) ∧
    (∀ (uptime : Nat) (d : SPSWS_context_t),
      (_SPSWS_sharp_hour_alarm_callback uptime d).weather_data_period =
        d.weather_data_period) ∧
    (∀ i : Nat, i < 6 →
      ∃ period, SPSWS_WEATHER_DATA_PERIOD_SECONDS[i]? = some period ∧ period ≠ 0 ∧
        SPSWS_WEATHER_DATA_PERIOD_SECONDS.getD i 0 = period) := by
  refine ⟨rfl, ?_, fun a d h => store_weather_data_period_writes cfg _ _ c a d h,
    init_context_weather_data_period cfg init ctx, ?_,
    fun sigfox msg d h => ⟨parse_dl_payload_weather_data_period cfg sigfox d h,
      send_weather_data_period cfg sigfox msg d h⟩,
    fun inp m m2 hstep h => main_step_weather_data_period cfg rtc inp m m2 hstep h,
    fun _ _ => rfl, ?_⟩
  · unfold _SPSWS_store_weather_data_period SIGFOX_EP_DL_WEATHER_DATA_PERIOD_LAST
    split_ifs <;> rfl
  · intro x hx
    have h := main_run_weather_data_period cfg rtc ins
      ⟨(_SPSWS_init_context cfg init ctx).1, por_flag⟩
      (init_context_weather_data_period cfg init ctx) x hx
    obtain ⟨period, h1, h2, h3, _⟩ := weather_data_period_lookup _ h
    exact ⟨h, period, h1, h2, h3⟩
  · intro i hi
    obtain ⟨period, h1, h2, h3, _⟩ := weather_data_period_lookup i hi
    exact ⟨period, h1, h2, h3⟩

/-- Witness of C28: a run of six iterations from the initial context in which a sharp-hour
alarm fires, the Weather step is reached and its downlink frame asks for the period 3: the
period is 3 on entry of the Monitoring step, and below 6 on entry of every iteration. With
a frame that asks for the period 200 the run is the same and the period stays 0. -/
theorem weather_data_period_in_range_witness :
    (main_run cfg_sample rtc_config_sample (run_inputs_downlink [2, 3])
      (main_init_sample 0)).map
        (fun x => (x.1.spsws_ctx.state, x.1.spsws_ctx.weather_data_period)) =
      [(SPSWS_state_t.SPSWS_STATE_STARTUP, 0), (SPSWS_state_t.SPSWS_STATE_RTC_CALIBRATION, 0),
        (SPSWS_state_t.SPSWS_STATE_TASK_END, 0), (SPSWS_state_t.SPSWS_STATE_TASK_CHECK, 0),
        (SPSWS_state_t.SPSWS_STATE_WEATHER, 0), (SPSWS_state_t.SPSWS_STATE_MONITORING, 3)] ∧
    (main_run cfg_sample rtc_config_sample (run_inputs_downlink [2, 200])
      (main_init_sample 0)).map
        (fun x => (x.1.spsws_ctx.state, x.1.spsws_ctx.weather_data_period)) =
      [(SPSWS_state_t.SPSWS_STATE_STARTUP, 0), (SPSWS_state_t.SPSWS_STATE_RTC_CALIBRATION, 0),
        (SPSWS_state_t.SPSWS_STATE_TASK_END, 0), (SPSWS_state_t.SPSWS_STATE_TASK_CHECK, 0),
        (SPSWS_state_t.SPSWS_STATE_WEATHER, 0), (SPSWS_state_t.SPSWS_STATE_MONITORING, 0)] ∧
    (main_run cfg_sample rtc_config_sample (run_inputs_downlink [2, 3])
      (main_init_sample 0)).all
        (fun x => decide (x.1.spsws_ctx.weather_data_period < 6)) = true ∧
    (main_run cfg_sample rtc_config_sample (run_inputs_downlink [2, 200])
      (main_init_sample 0)).all
        (fun x => decide (x.1.spsws_ctx.weather_data_period < 6)) = true :=
  ⟨rfl, rfl,
    List.all_eq_true.mpr (fun x hx => decide_eq_true
      (((weather_data_period_in_range cfg_sample rtc_config_sample (init_inputs_sample 0)
        ctx_zero ctx_zero true (run_inputs_downlink [2, 3]) (fun _ => ⟨0, 0⟩) 0
        0).2.2.2.2.1 x hx).1)),
    List.all_eq_true.mpr (fun x hx => decide_eq_true
      (((weather_data_period_in_range cfg_sample rtc_config_sample (init_inputs_sample 0)
        ctx_zero ctx_zero true (run_inputs_downlink [2, 200]) (fun _ => ⟨0, 0⟩) 0
        0).2.2.2.2.1 x hx).1))⟩

/-! ## Theorems: intermediate weather slots -/

/-- The weather part of `task_check_requests` when no sharp-hour alarm is pending. -/
theorem task_check_requests_no_alarm (u : Nat) (c : SPSWS_context_t)
    (halarm : c.flags.sharp_hour_alarm = false) :
    ((task_check_requests u c).weather_message_count =
      if c.flags.first_sharp_hour_alarm = true ∧
          u ≥ (c.weather_last_time_seconds +
            SPSWS_WEATHER_DATA_PERIOD_SECONDS.getD c.weather_data_period 0) % 2 ^ 32 ∧
          c.weather_message_count <
            3600 / SPSWS_WEATHER_DATA_PERIOD_SECONDS.getD c.weather_data_period 0 then
        (c.weather_message_count + 1) % 2 ^ 32
      else c.weather_message_count) ∧
    ((task_check_requests u c).flags.weather_request =
      if c.flags.first_sharp_hour_alarm = true ∧
          u ≥ (c.weather_last_time_seconds +
            SPSWS_WEATHER_DATA_PERIOD_SECONDS.getD c.weather_data_period 0) % 2 ^ 32 ∧
          c.weather_message_count <
            3600 / SPSWS_WEATHER_DATA_PERIOD_SECONDS.getD c.weather_data_period 0 then
        c.flags.weather_request_enabled
      else c.flags.weather_request) ∧
    ((task_check_requests u c).flags.weather_request_intermediate =
      if c.flags.first_sharp_hour_alarm = true ∧
          u ≥ (c.weather_last_time_seconds +
            SPSWS_WEATHER_DATA_PERIOD_SECONDS.getD c.weather_data_period 0) % 2 ^ 32 ∧
          c.weather_message_count <
            3600 / SPSWS_WEATHER_DATA_PERIOD_SECONDS.getD c.weather_data_period 0 then
        true
      else c.flags.weather_request_intermediate) ∧
    (task_check_requests u c).flags.sharp_hour_alarm = false ∧
    (task_check_requests u c).flags.first_sharp_hour_alarm = c.flags.first_sharp_hour_alarm := by
  unfold task_check_requests
  simp only []
  by_cases hm : u ≥ (c.measurements_last_time_seconds + SPSWS_MEASUREMENT_PERIOD_SECONDS) % 2 ^ 32
  · simp only [if_pos hm, halarm, ne_eq, not_true_eq_false, if_false]
    by_cases hf : c.flags.first_sharp_hour_alarm = true
    · simp only [hf, Bool.true_eq_false, not_false_eq_true, if_true, true_and]
      split_ifs
      · exact ⟨rfl, rfl, rfl, rfl, rfl⟩
      · exact ⟨rfl, rfl, rfl, rfl, rfl⟩
    · have hf2 : c.flags.first_sharp_hour_alarm = false := by simpa using hf
      simp only [hf2, not_true_eq_false, if_false, Bool.false_eq_true, false_and]
      refine ⟨?_, ?_, ?_, ?_, ?_⟩ <;> first | rfl | trivial
  · simp only [if_neg hm, halarm, ne_eq, not_true_eq_false, if_false]
    by_cases hf : c.flags.first_sharp_hour_alarm = true
    · simp only [hf, Bool.true_eq_false, not_false_eq_true, if_true, true_and]
      split_ifs
      · exact ⟨rfl, rfl, rfl, rfl, rfl⟩
      · refine ⟨?_, ?_, ?_, ?_, ?_⟩ <;> first | rfl | trivial
    · have hf2 : c.flags.first_sharp_hour_alarm = false := by simpa using hf
      simp only [hf2, not_true_eq_false, if_false, Bool.false_eq_true, false_and]
      refine ⟨?_, ?_, ?_, ?_, ?_⟩ <;> first | rfl | trivial

theorem task_check_requests_count_bound (u i : Nat) (c : SPSWS_context_t)
    (halarm : c.flags.sharp_hour_alarm = false) (hperiod : c.weather_data_period = i)
    (hi : i < 6) (hcount : c.weather_message_count ≤ i + 1) :
    (task_check_requests u c).weather_message_count ≤ i + 1 ∧
    c.weather_message_count ≤ (task_check_requests u c).weather_message_count ∧
    (task_check_requests u c).weather_message_count ≤ c.weather_message_count + 1 ∧
    ((task_check_requests u c).weather_message_count ≠ c.weather_message_count →
      c.weather_message_count ≤ i) := by
  obtain ⟨period, _, _, hget, hdiv⟩ := weather_data_period_lookup i hi
  rw [(task_check_requests_no_alarm u c halarm).1, hperiod, hget, hdiv]
  split_ifs with h
  · have h1 : (c.weather_message_count + 1) % 2 ^ 32 = c.weather_message_count + 1 :=
      Nat.mod_eq_of_lt (by omega)
    rw [h1]
    exact ⟨by omega, by omega, le_refl _, fun _ => by omega⟩
  · exact ⟨hcount, le_refl _, by omega, fun hne => absurd rfl hne⟩

theorem task_check_run_no_alarm (uptimes : List Nat) (i : Nat) (hi : i < 6) :
    ∀ c : SPSWS_context_t, c.flags.sharp_hour_alarm = false → c.weather_data_period = i →
      c.weather_message_count ≤ i + 1 →
      (task_check_run c uptimes).flags.sharp_hour_alarm = false ∧
      (task_check_run c uptimes).weather_data_period = i ∧
      (task_check_run c uptimes).weather_message_count ≤ i + 1 ∧
      c.weather_message_count ≤ (task_check_run c uptimes).weather_message_count := by
  induction uptimes with
  | nil => intro c h1 h2 h3; exact ⟨h1, h2, h3, le_refl _⟩
  | cons u rest ih =>
    intro c h1 h2 h3
    have hb := task_check_requests_count_bound u i c h1 h2 hi h3
    have hstep := ih (task_check_requests u c) (task_check_requests_no_alarm u c h1).2.2.2.1
      (by rw [task_check_requests_weather_data_period]; exact h2) hb.1
    simp only [task_check_run, List.foldl_cons] at hstep ⊢
    exact ⟨hstep.1, hstep.2.1, hstep.2.2.1, le_trans hb.2.1 hstep.2.2.2⟩

theorem task_check_run_slots (uptimes : List Nat) (i : Nat) (hi : i < 6) :
    ∀ c : SPSWS_context_t, c.flags.sharp_hour_alarm = false → c.weather_data_period = i →
      c.weather_message_count ≤ i + 1 →
      (task_check_run c uptimes).weather_message_count =
        c.weather_message_count + weather_slots_taken c uptimes := by
  induction uptimes with
  | nil => intro c _ _ _; simp [task_check_run, weather_slots_taken]
  | cons u rest ih =>
    intro c h1 h2 h3
    have hb := task_check_requests_count_bound u i c h1 h2 hi h3
    have hstep := ih (task_check_requests u c) (task_check_requests_no_alarm u c h1).2.2.2.1
      (by rw [task_check_requests_weather_data_period]; exact h2) hb.1
    simp only [task_check_run, List.foldl_cons, weather_slots_taken] at hstep ⊢
    rw [hstep, (task_check_requests_no_alarm u c h1).1]
    obtain ⟨period, _, _, hget, hdiv⟩ := weather_data_period_lookup i hi
    unfold weather_slot_taken
    simp only [h1, true_and, decide_eq_true_eq]
    split_ifs with h
    · have h4 : c.weather_message_count < i + 1 := by
        have := h.2.2
        rw [h2, hget, hdiv] at this
        exact this
      rw [Nat.mod_eq_of_lt (by omega)]
      omega
    · omega

/-- C29: for every period index `i` from 0 to 5, `3600 / SPSWS_WEATHER_DATA_PERIOD_SECONDS[i]`
is `i + 1`. In every run of TaskCheck steps without pending sharp-hour alarm that starts
with `weather_message_count = 1` and the period index `i`, the index stays `i`, the
intermediate weather slot is taken at most `i` times and `weather_message_count` is 1 plus
the number of slots taken, hence at most `i + 1`. A step without pending alarm raises the
intermediate request exactly when it takes the slot. With `i = 0` no slot is taken and no
step of the run raises an intermediate weather request. -/
theorem intermediate_weather_slots (i : Nat) (hi : i < 6) (c : SPSWS_context_t)
    (uptimes : List Nat) (halarm : c.flags.sharp_hour_alarm = false)
    (hperiod : c.weather_data_period = i) (hcount : c.weather_message_count = 1) :
    3600 / SPSWS_WEATHER_DATA_PERIOD_SECONDS.getD i 0 = i + 1 ∧
    (∃ period, SPSWS_WEATHER_DATA_PERIOD_SECONDS[i]? = some period ∧ 3600 / period = i + 1) ∧
    (task_check_run c uptimes).flags.sharp_hour_alarm = false ∧
    (task_check_run c uptimes).weather_data_period = i ∧
    weather_slots_taken c uptimes ≤ i ∧
    (task_check_run c uptimes).weather_message_count = 1 + weather_slots_taken c uptimes ∧
    (task_check_run c uptimes).weather_message_count ≤ i + 1 ∧
    (∀ (u : Nat) (d : SPSWS_context_t), d.flags.sharp_hour_alarm = false →
      (task_check_requests u d).flags.weather_request =
        (if weather_slot_taken u d = true then d.flags.weather_request_enabled
          else d.flags.weather_request) ∧
      (task_check_requests u d).flags.weather_request_intermediate =
        (if weather_slot_taken u d = true then true
          else d.flags.weather_request_intermediate)) ∧
    (i = 0 → weather_slots_taken c uptimes = 0 ∧
      ∀ u : Nat, weather_slot_taken u (task_check_run c uptimes) = false ∧
        (task_check_requests u (task_check_run c uptimes)).flags.weather_request =
          (task_check_run c uptimes).flags.weather_request ∧
        (task_check_requests u (task_check_run c uptimes)).flags.weather_request_intermediate =
          (task_check_run c uptimes).flags.weather_request_intermediate) := by
  obtain ⟨period, hsome, _, hget, hdiv⟩ := weather_data_period_lookup i hi
  have hle : c.weather_message_count ≤ i + 1 := by omega
  have hrun := task_check_run_no_alarm uptimes i hi c halarm hperiod hle
  have hslots := task_check_run_slots uptimes i hi c halarm hperiod hle
  rw [hcount] at hslots
  have hlink : ∀ (u : Nat) (d : SPSWS_context_t), d.flags.sharp_hour_alarm = false →
      (task_check_requests u d).flags.weather_request =
        (if weather_slot_taken u d = true then d.flags.weather_request_enabled
          else d.flags.weather_request) ∧
      (task_check_requests u d).flags.weather_request_intermediate =
        (if weather_slot_taken u d = true then true
          else d.flags.weather_request_intermediate) := by
    intro u d hd
    have h := task_check_requests_no_alarm u d hd
    rw [h.2.1, h.2.2.1]
    unfold weather_slot_taken
    simp only [hd, true_and, decide_eq_true_eq]
  refine ⟨by rw [hget]; exact hdiv, ⟨period, hsome, hdiv⟩, hrun.1, hrun.2.1, ?_, hslots,
    hrun.2.2.1, hlink, ?_⟩
  · have := hrun.2.2.1
    omega
  · intro h0
    have hz : weather_slots_taken c uptimes = 0 := by
      have := hrun.2.2.1
      omega
    refine ⟨hz, fun u => ?_⟩
    have hfalse : weather_slot_taken u (task_check_run c uptimes) = false := by
      unfold weather_slot_taken
      rw [hrun.2.1, hget, hdiv, hslots, hz, h0]
      simp
    have hl := hlink u (task_check_run c uptimes) hrun.1
    rw [hfalse] at hl
    exact ⟨hfalse, by simpa using hl.1, by simpa using hl.2⟩

/-- Witness of C29: with the 30-minute period, of three TaskCheck steps at 1800, 1900 and
3500 seconds of uptime after an alarm at most one takes the intermediate slot. -/
theorem intermediate_weather_slots_witness :
    weather_slots_taken (ctx_after_alarm 1) [1800, 1900, 3500] ≤ 1 ∧
    (task_check_run (ctx_after_alarm 1) [1800, 1900, 3500]).weather_message_count ≤ 1 + 1 :=
  have h := intermediate_weather_slots 1 (by decide) (ctx_after_alarm 1) [1800, 1900, 3500]
    rfl rfl rfl
  ⟨h.2.2.2.2.1, h.2.2.2.2.2.2.1⟩

/-! ## Theorems: the last wake-up record read back -/

theorem NVM_replay_append (t1 t2 : List Event) :
    ∀ store : Nat → Nat, NVM_replay store (t1 ++ t2) = NVM_replay (NVM_replay store t1) t2 := by
  induction t1 with
  | nil => intro store; rfl
  | cons e rest ih =>
    intro store
    cases e <;> simp only [List.cons_append, NVM_replay] <;> exact ih _

theorem NVM_replay_stack_error (store : Nat → Nat) (b : ERROR_base_t) (s : Nat) :
    NVM_replay store (stack_error b s) = store := by
  unfold stack_error
  split_ifs <;> rfl

theorem NVM_replay_nvm_write (store : Nat → Nat) (st a d : Nat) :
    NVM_replay store (nvm_write st a d) = fun x => if x = a then d % 2 ^ 8 else store x := by
  unfold nvm_write
  rw [NVM_replay, NVM_replay_stack_error]

theorem year_bytes (y : Nat) (h : y < 65536) :
    ((y / 2 ^ 8 % 2 ^ 8) % 2 ^ 8 % 2 ^ 8 * 2 ^ 8 % 2 ^ 16) ||| ((y % 2 ^ 8) % 2 ^ 8 % 2 ^ 8) = y := by
  have e8 : (2 : Nat) ^ 8 = 256 := rfl
  have e16 : (2 : Nat) ^ 16 = 65536 := rfl
  have h1 : (y / 2 ^ 8 % 2 ^ 8) % 2 ^ 8 % 2 ^ 8 = y / 2 ^ 8 := by
    simp only [e8]; omega
  have h2 : (y % 2 ^ 8) % 2 ^ 8 % 2 ^ 8 = y % 2 ^ 8 := by
    simp only [e8]; omega
  have h3 : y / 2 ^ 8 * 2 ^ 8 % 2 ^ 16 = 2 ^ 8 * (y / 2 ^ 8) := by
    simp only [e8, e16]; omega
  have hb : y % 2 ^ 8 < 2 ^ 8 := Nat.mod_lt _ (by decide)
  rw [h1, h2, h3, ← Nat.mul_add_lt_is_or hb (y / 2 ^ 8)]
  simp only [e8]; omega

theorem update_nvm_data_wake_up_store (cfg : SPSWS_config_t) (inp : NVM_data_inputs)
    (store : Nat → Nat) (c : SPSWS_context_t) :
    NVM_replay store
        (_SPSWS_update_nvm_data cfg inp SPSWS_nvm_data_t.SPSWS_NVM_DATA_LAST_WAKE_UP c) =
      fun x =>
        if x = cfg.nvm_address.NVM_ADDRESS_LAST_WAKE_UP_MINUTES then
          inp.current_time.minutes % 2 ^ 8
        else if x = cfg.nvm_address.NVM_ADDRESS_LAST_WAKE_UP_HOUR then
          inp.current_time.hours % 2 ^ 8
        else if x = cfg.nvm_address.NVM_ADDRESS_LAST_WAKE_UP_DATE then
          inp.current_time.date % 2 ^ 8
        else if x = cfg.nvm_address.NVM_ADDRESS_LAST_WAKE_UP_MONTH then
          inp.current_time.month % 2 ^ 8
        else if x = cfg.nvm_address.NVM_ADDRESS_LAST_WAKE_UP_YEAR + 1 then
          inp.current_time.year % 2 ^ 8 % 2 ^ 8
        else if x = cfg.nvm_address.NVM_ADDRESS_LAST_WAKE_UP_YEAR + 0 then
          inp.current_time.year / 2 ^ 8 % 2 ^ 8 % 2 ^ 8
        else store x := by
  simp only [_SPSWS_update_nvm_data, NVM_replay_append, NVM_replay_stack_error,
    NVM_replay_nvm_write]

theorem wake_up_read_back (cfg : SPSWS_config_t) (inp : NVM_data_inputs)
    (store : Nat → Nat) (rtc_status : Nat) (c : SPSWS_context_t)
    (hyear : inp.current_time.year < 65536) (hmonth : inp.current_time.month < 256)
    (hdate : inp.current_time.date < 256) (hhours : inp.current_time.hours < 256)
    (hminutes : inp.current_time.minutes < 256)
    (haddress : [cfg.nvm_address.NVM_ADDRESS_LAST_WAKE_UP_YEAR + 0,
      cfg.nvm_address.NVM_ADDRESS_LAST_WAKE_UP_YEAR + 1,
      cfg.nvm_address.NVM_ADDRESS_LAST_WAKE_UP_MONTH,
      cfg.nvm_address.NVM_ADDRESS_LAST_WAKE_UP_DATE,
      cfg.nvm_address.NVM_ADDRESS_LAST_WAKE_UP_HOUR,
      cfg.nvm_address.NVM_ADDRESS_LAST_WAKE_UP_MINUTES].Nodup) :
    previous_wake_up_time cfg
      { rtc_status := rtc_status, current_time := inp.current_time,
        nvm_read := NVM_read_store (NVM_replay store
          (_SPSWS_update_nvm_data cfg inp SPSWS_nvm_data_t.SPSWS_NVM_DATA_LAST_WAKE_UP c)) } =
      { inp.current_time with seconds := 0 } := by
  rw [update_nvm_data_wake_up_store]
  simp only [List.nodup_cons, List.mem_cons, List.mem_singleton, List.not_mem_nil, not_or,
    List.nodup_nil, and_true, not_false_eq_true] at haddress
  obtain ⟨⟨h01, h0m, h0d, h0h, h0n⟩, ⟨h1m, h1d, h1h, h1n⟩, ⟨hmd, hmh, hmn⟩, ⟨hdh, hdn⟩, hhn⟩ :=
    haddress
  have e8 : (2 : Nat) ^ 8 = 256 := rfl
  have hy := year_bytes inp.current_time.year hyear
  unfold previous_wake_up_time nvm_read_time NVM_read_store
  simp only [h01, h0m, h0d, h0h, h0n, h1m, h1d, h1h, h1n, hmd, hmh, hmn, hdh, hdn, hhn,
    Ne.symm h01, Ne.symm h0m, Ne.symm h0d, Ne.symm h0h, Ne.symm h0n, Ne.symm h1m, Ne.symm h1d,
    Ne.symm h1h, Ne.symm h1n, Ne.symm hmd, Ne.symm hmh, Ne.symm hmn, Ne.symm hdh, Ne.symm hdn,
    Ne.symm hhn, if_true, if_false]
  rw [hy]
  have hm : inp.current_time.month % 2 ^ 8 % 2 ^ 8 = inp.current_time.month := by
    simp only [e8]; omega
  have hd : inp.current_time.date % 2 ^ 8 % 2 ^ 8 = inp.current_time.date := by
    simp only [e8]; omega
  have hh : inp.current_time.hours % 2 ^ 8 % 2 ^ 8 = inp.current_time.hours := by
    simp only [e8]; omega
  have hn : inp.current_time.minutes % 2 ^ 8 % 2 ^ 8 = inp.current_time.minutes := by
    simp only [e8]; omega
  rw [hm, hd, hh, hn]

/-- C30: over a fault-free byte store, for every RTC time with a year below 65536 and the
other fields below 256 (they are `uint8_t`), and an address map whose six bytes of the
last wake-up record are at six different addresses: after
`_SPSWS_update_nvm_data(SPSWS_NVM_DATA_LAST_WAKE_UP)`, `_SPSWS_update_additional_requests`
with the RTC still at the same time reads back the same year (most significant byte
first), month, date, hours and minutes; it leaves `valid_wakeup` at 0 and
`rtc_calibration_request` as it was. The five enumerators of the record in nvm_address.h
are at different addresses. -/
theorem wake_up_record_round_trip (cfg : SPSWS_config_t) (rtc : RTC_config_t)
    (inp : NVM_data_inputs) (store : Nat → Nat) (rtc_status : Nat) (c c2 : SPSWS_context_t)
    (sz : SIGFOX_sizes_t)
    (hyear : inp.current_time.year < 65536) (hmonth : inp.current_time.month < 256)
    (hdate : inp.current_time.date < 256) (hhours : inp.current_time.hours < 256)
    (hminutes : inp.current_time.minutes < 256)
    (haddress : [cfg.nvm_address.NVM_ADDRESS_LAST_WAKE_UP_YEAR + 0,
      cfg.nvm_address.NVM_ADDRESS_LAST_WAKE_UP_YEAR + 1,
      cfg.nvm_address.NVM_ADDRESS_LAST_WAKE_UP_MONTH,
      cfg.nvm_address.NVM_ADDRESS_LAST_WAKE_UP_DATE,
      cfg.nvm_address.NVM_ADDRESS_LAST_WAKE_UP_HOUR,
      cfg.nvm_address.NVM_ADDRESS_LAST_WAKE_UP_MINUTES].Nodup) :
    let read_back : ADDITIONAL_REQUESTS_inputs :=
      { rtc_status := rtc_status, current_time := inp.current_time,
        nvm_read := NVM_read_store (NVM_replay store
          (_SPSWS_update_nvm_data cfg inp SPSWS_nvm_data_t.SPSWS_NVM_DATA_LAST_WAKE_UP c)) }
    (previous_wake_up_time cfg read_back).year = inp.current_time.year ∧
    (previous_wake_up_time cfg read_back).month = inp.current_time.month ∧
    (previous_wake_up_time cfg read_back).date = inp.current_time.date ∧
    (previous_wake_up_time cfg read_back).hours = inp.current_time.hours ∧
    (previous_wake_up_time cfg read_back).minutes = inp.current_time.minutes ∧
    (_SPSWS_update_additional_requests cfg rtc read_back c2).1.flags.valid_wakeup = false ∧
    (_SPSWS_update_additional_requests cfg rtc read_back c2).1.flags.rtc_calibration_request =
      c2.flags.rtc_calibration_request ∧
    [NVM_ADDRESS_LAST_WAKE_UP_YEAR sz + 0, NVM_ADDRESS_LAST_WAKE_UP_YEAR sz + 1,
      NVM_ADDRESS_LAST_WAKE_UP_MONTH sz, NVM_ADDRESS_LAST_WAKE_UP_DATE sz,
      NVM_ADDRESS_LAST_WAKE_UP_HOUR sz].Nodup := by
  intro read_back
  have h := wake_up_read_back cfg inp store rtc_status c hyear hmonth hdate hhours hminutes
    haddress
  have hcur : read_back.current_time = inp.current_time := rfl
  have hprev : previous_wake_up_time cfg read_back = { inp.current_time with seconds := 0 } := h
  refine ⟨by rw [hprev], by rw [hprev], by rw [hprev], by rw [hprev], by rw [hprev], ?_, ?_, ?_⟩
  · rw [additional_requests_valid_wakeup, hprev, hcur]
    simp [date_differs]
  · rw [additional_requests_rtc_calibration, hprev, hcur]
    simp [date_differs]
  · simp only [NVM_ADDRESS_LAST_WAKE_UP_HOUR, NVM_ADDRESS_LAST_WAKE_UP_DATE,
      NVM_ADDRESS_LAST_WAKE_UP_MONTH, List.nodup_cons, List.mem_cons, List.mem_singleton,
      List.not_mem_nil, List.nodup_nil, not_or, and_true, not_false_eq_true]
    omega

/-- Witness of C30: the time stamp 2024-01-02 12:30 written through the sample address map
over an empty store is read back as it is, and the wake-up is not valid. -/
theorem wake_up_record_round_trip_witness :
    previous_wake_up_time cfg_sample
      { rtc_status := 0, current_time := nvm_data_ok.current_time,
        nvm_read := NVM_read_store (NVM_replay (fun _ => 0)
          (_SPSWS_update_nvm_data cfg_sample nvm_data_ok
            SPSWS_nvm_data_t.SPSWS_NVM_DATA_LAST_WAKE_UP ctx_zero)) } =
      ⟨2024, 1, 2, 12, 30, 0⟩ ∧
    (_SPSWS_update_additional_requests cfg_sample rtc_config_sample
      { rtc_status := 0, current_time := nvm_data_ok.current_time,
        nvm_read := NVM_read_store (NVM_replay (fun _ => 0)
          (_SPSWS_update_nvm_data cfg_sample nvm_data_ok
            SPSWS_nvm_data_t.SPSWS_NVM_DATA_LAST_WAKE_UP ctx_zero)) }
      ctx_zero).1.flags.valid_wakeup = false :=
  have h := wake_up_record_round_trip cfg_sample rtc_config_sample nvm_data_ok (fun _ => 0) 0
    ctx_zero ctx_zero ⟨4, 16, 4⟩ (by decide) (by decide) (by decide) (by decide) (by decide)
    (by decide)
  ⟨by decide, h.2.2.2.2.2.1⟩

/-! ## Theorems: the other states leave the weather message count -/

theorem parse_dl_payload_keeps_count (cfg : SPSWS_config_t) (inp : SIGFOX_EP_API_inputs)
    (c : SPSWS_context_t) :
    (parse_dl_payload cfg inp c).1.weather_message_count = c.weather_message_count := by
  unfold parse_dl_payload _SPSWS_store_weather_data_period
  simp only []
  split_ifs <;> rfl

theorem send_keeps_count (cfg : SPSWS_config_t) (inp : SIGFOX_EP_API_inputs)
    (msg : SIGFOX_EP_API_application_message_t) (c : SPSWS_context_t) :
    (_SPSWS_send_sigfox_message cfg inp msg c).1.weather_message_count =
      c.weather_message_count := by
  unfold _SPSWS_send_sigfox_message SIGFOX_EP_API_check_status
  simp only []
  split_ifs <;> first
    | rfl
    | (show (parse_dl_payload _ _ _).1.weather_message_count = _
       rw [parse_dl_payload_keeps_count])

/-- An iteration of the loop of `main` in a state other than TaskCheck leaves
`weather_message_count` as it is. -/
theorem main_step_keeps_count (cfg : SPSWS_config_t) (rtc : RTC_config_t)
    (inp : MAIN_inputs) (m m2 : main_t) (hstep : (main_step cfg rtc inp m).1 = some m2)
    (hstate : m.spsws_ctx.state ≠ SPSWS_state_t.SPSWS_STATE_TASK_CHECK) :
    m2.spsws_ctx.weather_message_count = m.spsws_ctx.weather_message_count := by
  unfold main_step at hstep
  cases hs : m.spsws_ctx.state <;> rw [hs] at hstep <;>
    simp only [Option.some.injEq] at hstep <;> try subst hstep
  · exact send_keeps_count _ _ _ _
  · rfl
  · exact send_keeps_count _ _ _ _
  · show (main_SPSWS_STATE_MONITORING cfg inp m.spsws_ctx).1.weather_message_count = _
    by_cases hreq : m.spsws_ctx.flags.monitoring_request ≠ false
    · rw [main_SPSWS_STATE_MONITORING, if_pos hreq]
      exact send_keeps_count _ _ _ _
    · rw [main_SPSWS_STATE_MONITORING, if_neg hreq]
  · show (main_SPSWS_STATE_GEOLOC cfg inp m.spsws_ctx).1.weather_message_count = _
    by_cases hreq : m.spsws_ctx.flags.geoloc_request ≠ false
    · rw [main_SPSWS_STATE_GEOLOC, if_pos hreq]
      exact send_keeps_count _ _ _ _
    · rw [main_SPSWS_STATE_GEOLOC, if_neg hreq]
  · show (main_SPSWS_STATE_ERROR_STACK cfg inp m.spsws_ctx).1.weather_message_count = _
    by_cases hreq : m.spsws_ctx.flags.error_stack_request ≠ false
    · rw [main_SPSWS_STATE_ERROR_STACK, if_pos hreq]
      by_cases hempty : inp.error_stack.stack_is_empty = 0
      · simp only [if_pos hempty]
        exact send_keeps_count _ _ _ _
      · simp only [if_neg hempty]
    · rw [main_SPSWS_STATE_ERROR_STACK, if_neg hreq]
  · show (main_SPSWS_STATE_RTC_CALIBRATION cfg inp m).1.spsws_ctx.weather_message_count = _
    by_cases hreq : m.spsws_ctx.flags.rtc_calibration_request ≠ false
    · rw [main_SPSWS_STATE_RTC_CALIBRATION]
      simp only [if_pos hreq]
    · rw [main_SPSWS_STATE_RTC_CALIBRATION]
      simp only [if_neg hreq]
  · rfl
  · exact absurd hs hstate
  · simp only [main_SPSWS_STATE_SLEEP] at hstep
    split_ifs at hstep
    · simp at hstep
    · simp only [Option.map_some', Option.some.injEq] at hstep
      subst hstep
      rfl
  · rfl

/-- The TaskCheck step changes `weather_message_count` as its scheduling part does. -/
theorem task_check_count (cfg : SPSWS_config_t) (rtc : RTC_config_t) (inp : MAIN_inputs)
    (c : SPSWS_context_t) :
    (main_SPSWS_STATE_TASK_CHECK cfg rtc inp c).1.weather_message_count =
      (task_check_requests inp.uptime c).weather_message_count := by
  unfold main_SPSWS_STATE_TASK_CHECK
  generalize task_check_requests inp.uptime c = c1
  simp only []
  split_ifs <;> rfl

/-! ## Theorems: the calibration request on entry of the additional requests -/

theorem measure_keeps_calibration_request (cfg : SPSWS_config_t) (inp : MEASURE_inputs)
    (c : SPSWS_context_t) :
    (main_SPSWS_STATE_MEASURE cfg inp c).1.flags.rtc_calibration_request =
      c.flags.rtc_calibration_request := by
  rw [measure_flags]
  unfold vcap_hysteresis
  simp only []
  split_ifs <;> rfl

theorem task_check_requests_keeps_calibration_request (u : Nat) (c : SPSWS_context_t) :
    (task_check_requests u c).flags.rtc_calibration_request =
      c.flags.rtc_calibration_request := by
  unfold task_check_requests
  simp only []
  split_ifs <;> rfl

/-- A TaskCheck step entered with `rtc_calibration_request` clear leaves it clear unless it
goes to Weather. -/
theorem task_check_calibration_request (cfg : SPSWS_config_t) (rtc : RTC_config_t)
    (inp : MAIN_inputs) (c : SPSWS_context_t)
    (h : c.flags.rtc_calibration_request = false)
    (hw : (main_SPSWS_STATE_TASK_CHECK cfg rtc inp c).1.state ≠
      SPSWS_state_t.SPSWS_STATE_WEATHER) :
    (main_SPSWS_STATE_TASK_CHECK cfg rtc inp c).1.flags.rtc_calibration_request = false := by
  have h1 : (task_check_requests inp.uptime c).flags.rtc_calibration_request = false := by
    rw [task_check_requests_keeps_calibration_request]; exact h
  unfold main_SPSWS_STATE_TASK_CHECK at hw ⊢
  generalize task_check_requests inp.uptime c = c1 at h1 hw
  simp only [] at hw ⊢
  split_ifs at hw ⊢ with hwe hv hm
  · exact absurd rfl hw
  · rw [additional_requests_valid_wakeup] at hv
    rw [additional_requests_rtc_calibration]
    simp only [ne_eq, Bool.not_eq_false, Bool.or_eq_true, not_or, Bool.not_eq_true] at hv
    simp only [hv.1, Bool.false_or]
    exact h1
  · exact h1
  · exact h1

/-- Outside the states from Startup to RtcCalibration and from Weather to ErrorStack,
`rtc_calibration_request` is clear: an iteration of the loop of `main` keeps this. -/
theorem main_step_calibration_request (cfg : SPSWS_config_t) (rtc : RTC_config_t)
    (inp : MAIN_inputs) (m m2 : main_t) (hstep : (main_step cfg rtc inp m).1 = some m2)
    (hlast : m.spsws_ctx.state ≠ SPSWS_state_t.SPSWS_STATE_LAST)
    (h : m.spsws_ctx.state ∈ [SPSWS_state_t.SPSWS_STATE_TASK_END,
        SPSWS_state_t.SPSWS_STATE_TASK_CHECK, SPSWS_state_t.SPSWS_STATE_SLEEP,
        SPSWS_state_t.SPSWS_STATE_MEASURE] →
      m.spsws_ctx.flags.rtc_calibration_request = false) :
    m2.spsws_ctx.state ≠ SPSWS_state_t.SPSWS_STATE_LAST ∧
    (m2.spsws_ctx.state ∈ [SPSWS_state_t.SPSWS_STATE_TASK_END,
        SPSWS_state_t.SPSWS_STATE_TASK_CHECK, SPSWS_state_t.SPSWS_STATE_SLEEP,
        SPSWS_state_t.SPSWS_STATE_MEASURE] →
      m2.spsws_ctx.flags.rtc_calibration_request = false) := by
  refine ⟨(main_step_state_operating cfg rtc inp m m2 hstep).2, ?_⟩
  have hstate := main_step_state cfg rtc inp m m2 hstep
  intro hmem
  unfold main_step at hstep
  cases hs : m.spsws_ctx.state <;> rw [hs] at hstep hstate h <;>
    simp only [Option.some.injEq] at hstep hstate
  · rw [hstate] at hmem; simp at hmem
  · subst hstep
    show (main_SPSWS_STATE_MEASURE cfg inp.measure m.spsws_ctx).1.flags.rtc_calibration_request
      = false
    rw [measure_keeps_calibration_request]; exact h (by simp)
  · rw [hstate] at hmem; simp at hmem
  · rw [hstate] at hmem; simp at hmem
  · rw [hstate] at hmem; simp at hmem
  · rw [hstate] at hmem; simp at hmem
  · subst hstep
    exact rtc_calibration_clears_request cfg inp m
  · subst hstep
    exact h (by simp)
  · subst hstep
    refine task_check_calibration_request cfg rtc inp m.spsws_ctx (h (by simp)) ?_
    intro hweather
    have : (main_SPSWS_STATE_TASK_CHECK cfg rtc inp m.spsws_ctx).1.state ∈
        [SPSWS_state_t.SPSWS_STATE_TASK_END, SPSWS_state_t.SPSWS_STATE_TASK_CHECK,
          SPSWS_state_t.SPSWS_STATE_SLEEP, SPSWS_state_t.SPSWS_STATE_MEASURE] := hmem
    rw [hweather] at this
    simp at this
  · simp only [main_SPSWS_STATE_SLEEP] at hstep
    split_ifs at hstep
    · simp at hstep
    · simp only [Option.map_some', Option.some.injEq] at hstep
      subst hstep
      exact h (by simp)
  · exact absurd hs hlast

theorem main_run_calibration_request (cfg : SPSWS_config_t) (rtc : RTC_config_t) :
    ∀ (ins : List (List Nat × MAIN_inputs)) (m : main_t),
      m.spsws_ctx.state ≠ SPSWS_state_t.SPSWS_STATE_LAST →
      (m.spsws_ctx.state ∈ [SPSWS_state_t.SPSWS_STATE_TASK_END,
          SPSWS_state_t.SPSWS_STATE_TASK_CHECK, SPSWS_state_t.SPSWS_STATE_SLEEP,
          SPSWS_state_t.SPSWS_STATE_MEASURE] →
        m.spsws_ctx.flags.rtc_calibration_request = false) →
      ∀ x ∈ main_run cfg rtc ins m,
        x.1.spsws_ctx.state = SPSWS_state_t.SPSWS_STATE_TASK_CHECK →
        x.1.spsws_ctx.flags.rtc_calibration_request = false := by
  intro ins
  induction ins with
  | nil => intro m _ _ x hx; simp [main_run] at hx
  | cons i rest ih =>
    intro m hlast h x hx
    rw [main_run_cons] at hx
    have hlast2 : (alarm_interrupts i.1 m).spsws_ctx.state ≠
        SPSWS_state_t.SPSWS_STATE_LAST := by
      rw [alarm_interrupts_state]; exact hlast
    have h2 : (alarm_interrupts i.1 m).spsws_ctx.state ∈
        [SPSWS_state_t.SPSWS_STATE_TASK_END, SPSWS_state_t.SPSWS_STATE_TASK_CHECK,
          SPSWS_state_t.SPSWS_STATE_SLEEP, SPSWS_state_t.SPSWS_STATE_MEASURE] →
        (alarm_interrupts i.1 m).spsws_ctx.flags.rtc_calibration_request = false := by
      rw [alarm_interrupts_state, alarm_interrupts_rtc_calibration_request]; exact h
    generalize alarm_interrupts i.1 m = entry at hx hlast2 h2
    rcases List.mem_cons.mp hx with hx | hx
    · rw [hx]
      intro hs
      exact h2 (by rw [hs]; simp)
    · cases hstep : (main_step cfg rtc i.2 entry).1 with
      | none => rw [hstep] at hx; simp at hx
      | some next =>
        rw [hstep] at hx
        have hn := main_step_calibration_request cfg rtc i.2 entry next hstep hlast2 h2
        exact ih next hn.1 hn.2 x hx

theorem init_context_state (cfg : SPSWS_config_t) (inp : INIT_inputs) (c : SPSWS_context_t) :
    (_SPSWS_init_context cfg inp c).1.state = SPSWS_state_t.SPSWS_STATE_STARTUP := by
  unfold _SPSWS_init_context _SPSWS_store_weather_data_period
  simp only []
  split_ifs <;> rfl

/-- C13: in `_SPSWS_update_additional_requests`, whenever the RTC date (year, month, date)
differs from the stored last wake-up date, `rtc_calibration_request` and `valid_wakeup` are
both set after the call; whenever the date is the same and the minute differs,
`valid_wakeup` is set and `rtc_calibration_request` is unset. The function is called in
TaskCheck only (main.c:1355), and in every run of the loop of `main` from the initial
context, alarm interrupts included, `rtc_calibration_request` is clear on entry of every
TaskCheck step and in the context that the step passes to the function: the request of
`_SPSWS_init_context` is cleared by the first RtcCalibration step, and a request raised by
the function is cleared by the RtcCalibration step of the same cycle. With the store at
2024-01-01 08:15, the clock at 2024-01-02 sets both flags and the clock at 2024-01-01
08:16 sets `valid_wakeup` only. -/
theorem additional_requests_day_change (cfg : SPSWS_config_t) (rtc : RTC_config_t)
    (inp : ADDITIONAL_REQUESTS_inputs) (ctx : SPSWS_context_t) (init : INIT_inputs)
    (ctx0 : SPSWS_context_t) (por_flag : Bool) (ins : List (List Nat × MAIN_inputs))
    (uptime : Nat) :
    (∀ x ∈ main_run cfg rtc ins ⟨(_SPSWS_init_context cfg init ctx0).1, por_flag⟩,
      x.1.spsws_ctx.state = SPSWS_state_t.SPSWS_STATE_TASK_CHECK →
      x.1.spsws_ctx.flags.rtc_calibration_request = false ∧
      ({ task_check_requests uptime x.1.spsws_ctx with
          state := SPSWS_state_t.SPSWS_STATE_SLEEP
          flags := { (task_check_requests uptime x.1.spsws_ctx).flags with
            weather_request := false } } : SPSWS_context_t).flags.rtc_calibration_request
        = false) ∧
    (inp.current_time.year ≠ (previous_wake_up_time cfg inp).year ∨
        inp.current_time.month ≠ (previous_wake_up_time cfg inp).month ∨
        inp.current_time.date ≠ (previous_wake_up_time cfg inp).date →
      (_SPSWS_update_additional_requests cfg rtc inp ctx).1.flags.rtc_calibration_request = true ∧
      (_SPSWS_update_additional_requests cfg rtc inp ctx).1.flags.valid_wakeup = true) ∧
    (ctx.flags.rtc_calibration_request = false →
      inp.current_time.year = (previous_wake_up_time cfg inp).year →
      inp.current_time.month = (previous_wake_up_time cfg inp).month →
      inp.current_time.date = (previous_wake_up_time cfg inp).date →
      inp.current_time.minutes ≠ (previous_wake_up_time cfg inp).minutes →
      (_SPSWS_update_additional_requests cfg rtc inp ctx).1.flags.valid_wakeup = true ∧
      (_SPSWS_update_additional_requests cfg rtc inp ctx).1.flags.rtc_calibration_request
        = false) ∧
    ((_SPSWS_update_additional_requests cfg_sample rtc_config_sample
        (additional_requests_inputs_sample ⟨2024, 1, 2, 8, 15, 0⟩)
        { ctx_zero with flags := { flags_init with rtc_calibration_request := false } }
        ).1.flags.rtc_calibration_request = true ∧
      (_SPSWS_update_additional_requests cfg_sample rtc_config_sample
        (additional_requests_inputs_sample ⟨2024, 1, 2, 8, 15, 0⟩)
        { ctx_zero with flags := { flags_init with rtc_calibration_request := false } }
        ).1.flags.valid_wakeup = true ∧
      (_SPSWS_update_additional_requests cfg_sample rtc_config_sample
        (additional_requests_inputs_sample ⟨2024, 1, 1, 8, 16, 0⟩)
        { ctx_zero with flags := { flags_init with rtc_calibration_request := false } }
        ).1.flags.valid_wakeup = true ∧
      (_SPSWS_update_additional_requests cfg_sample rtc_config_sample
        (additional_requests_inputs_sample ⟨2024, 1, 1, 8, 16, 0⟩)
        { ctx_zero with flags := { flags_init with rtc_calibration_request := false } }
        ).1.flags.rtc_calibration_request = false) := by
  rw [additional_requests_valid_wakeup, additional_requests_rtc_calibration]
  refine ⟨?_, ?_, ?_, by decide⟩
  · intro x hx hs
    have hinit : (_SPSWS_init_context cfg init ctx0).1.state =
        SPSWS_state_t.SPSWS_STATE_STARTUP := init_context_state cfg init ctx0
    have h := main_run_calibration_request cfg rtc ins
      ⟨(_SPSWS_init_context cfg init ctx0).1, por_flag⟩
      (by show (_SPSWS_init_context cfg init ctx0).1.state ≠ _; rw [hinit]; decide)
      (by
        intro hmem
        have hmem2 : (_SPSWS_init_context cfg init ctx0).1.state ∈
          [SPSWS_state_t.SPSWS_STATE_TASK_END, SPSWS_state_t.SPSWS_STATE_TASK_CHECK,
            SPSWS_state_t.SPSWS_STATE_SLEEP, SPSWS_state_t.SPSWS_STATE_MEASURE] := hmem
        rw [hinit] at hmem2
        simp at hmem2)
      x hx hs
    refine ⟨h, ?_⟩
    show (task_check_requests uptime x.1.spsws_ctx).flags.rtc_calibration_request = false
    rw [task_check_requests_keeps_calibration_request]; exact h
  · intro h
    have hd : date_differs inp.current_time (previous_wake_up_time cfg inp) = true := by
      simpa [date_differs] using h
    simp [hd]
  · intro hreq hy hm hd hmin
    have hdd : date_differs inp.current_time (previous_wake_up_time cfg inp) = false := by
      simp [date_differs, hy, hm, hd]
    simp [hdd, hmin, hreq]

/-- Witness of C13: in the run with a sharp-hour alarm the TaskCheck step is entered with
`rtc_calibration_request` clear, and with the store at 2024-01-01 08:15 and the clock at
2024-01-01 08:16 the call sets `valid_wakeup` and leaves `rtc_calibration_request`
unset. -/
theorem additional_requests_day_change_witness :
    (main_run cfg_sample rtc_config_sample (run_inputs_downlink [0])
      (main_init_sample 0)).all
        (fun x => decide (x.1.spsws_ctx.state = SPSWS_state_t.SPSWS_STATE_TASK_CHECK →
          x.1.spsws_ctx.flags.rtc_calibration_request = false)) = true ∧
    (_SPSWS_update_additional_requests cfg_sample rtc_config_sample
      (additional_requests_inputs_sample ⟨2024, 1, 1, 8, 16, 0⟩)
      { ctx_zero with flags := { flags_init with rtc_calibration_request := false } }
      ).1.flags.valid_wakeup = true ∧
    (_SPSWS_update_additional_requests cfg_sample rtc_config_sample
      (additional_requests_inputs_sample ⟨2024, 1, 1, 8, 16, 0⟩)
      { ctx_zero with flags := { flags_init with rtc_calibration_request := false } }
      ).1.flags.rtc_calibration_request = false :=
  have h := additional_requests_day_change cfg_sample rtc_config_sample
    (additional_requests_inputs_sample ⟨2024, 1, 1, 8, 16, 0⟩)
    { ctx_zero with flags := { flags_init with rtc_calibration_request := false } }
    (init_inputs_sample 0) ctx_zero true (run_inputs_downlink [0]) 100
  ⟨List.all_eq_true.mpr (fun x hx => decide_eq_true (fun hs => (h.1 x hx hs).1)),
    h.2.2.1 rfl (by decide) (by decide) (by decide) (by decide)⟩

end SPSWS
